import Mathlib

/-! sgtu-event-v4: scoring engine and event lifecycle guards

A shallow embedding of the controllers in
`server/src/controllers/admin.controller.js`,
`server/src/controllers/eventManager.controller.js` and
`server/src/controllers/checkInOut.controller.js`.

Conventions of the embedding.

* A table of the relational store is a `List` of rows; a SQL query is the list
  function it denotes (`LEFT JOIN` is `leftJoinMatches`, `WHERE` is
  `List.filter`, `GROUP BY` enumerates the distinct keys, `ORDER BY` is a
  stable insertion sort on the documented key, `LIMIT` is `List.take`).
  SQL leaves the relative order of rows with equal sort keys open; the
  insertion sort is one admissible choice and `IsValidStallOrdering` describes
  all of them.
* Integer columns are `Int`; a nullable column is an `Option`.
* A JavaScript number obtained through `parseInt` is an `Option Int`, where
  `none` stands for `NaN`.
* An Express handler returns an `Outcome`: the constructor records which of
  `successResponse`, `errorResponse`, `res.status(..).json(..)` or `next(error)`
  ended the request. Handlers that write return the list of effects they
  issued next to the outcome; handlers that only read return the list of reads
  they issued after looking the event up.
* A JavaScript number is the rational value of the double that holds it.
  `roundDouble` is the rounding of IEEE 754 binary64 (to nearest, a tie to the
  even significand), applied to the exact result of each arithmetic operation;
  the exponent range is left unbounded, as the time values of a `Date` and the
  counts of rows stay far from overflow and underflow. `toFixed(2)` rounds the
  exact value of the double to a decimal, `parseFloat` rounds the decimal to a
  double, and a result that is not finite (`NaN`, `Infinity`) is `none`.
-/

namespace SgtuEvent

/-! ## Tables -/

/-- Row of table `schools`. -/
structure School where
  id : Nat
  school_name : String
  deriving DecidableEq

/-- Row of table `students` (columns read by the leaderboards). -/
structure Student where
  id : Nat
  school_id : Option Nat
  has_completed_ranking : Bool
  deriving DecidableEq

/-- Row of table `stalls`. -/
structure Stall where
  id : Nat
  stall_number : Nat
  stall_name : String := ""
  description : String := ""
  location : String := ""
  image_url : Option String := none
  school_id : Option Nat := none
  event_id : Nat := 0
  is_active : Bool := true
  rank_1_votes : Int := 0
  rank_2_votes : Int := 0
  rank_3_votes : Int := 0
  weighted_score : Int := 0
  deriving DecidableEq

/-- Row of table `rankings`. -/
structure Ranking where
  student_id : Nat
  stall_id : Nat
  rank : Int
  event_id : Nat := 0
  total_votes : Option Int := none
  percentage : Option ℚ := none
  deriving DecidableEq

/-- Row of table `events` (columns read or written by the lifecycle handlers). -/
structure Event where
  id : Nat
  event_name : String := ""
  event_code : String := ""
  event_type : String := ""
  start_date : Option Int := none
  end_date : Option Int := none
  created_by_manager_id : Nat
  status : String
  banner_image_url : Option String := none
  admin_rejection_reason : Option String := none
  deriving DecidableEq

/-- Row of table `event_volunteers`. -/
structure EventVolunteer where
  event_id : Nat
  volunteer_id : Nat
  is_active : Bool := true
  deriving DecidableEq

/-- Row of table `volunteers`. -/
structure Volunteer where
  id : Nat
  full_name : String := ""
  volunteer_name : String := ""
  email : String := ""
  phone : String := ""
  deriving DecidableEq

/-- Row of table `event_registrations`. -/
structure EventRegistration where
  event_id : Nat
  payment_status : Option String := none
  attendance_status : Option String := none
  amount_paid : Option ℚ := none
  deriving DecidableEq

/-- Row of table `feedbacks`. -/
structure Feedback where
  id : Nat
  event_id : Nat := 0
  stall_id : Nat := 0
  overall_rating : Option Int := none
  deriving DecidableEq

/-- Row of table `event_managers`. -/
structure EventManager where
  id : Nat
  full_name : String := ""
  email : String := ""
  password_hash : String := ""
  phone : String := ""
  organization : Option String := none
  is_approved_by_admin : Bool := true
  approved_by_admin_id : Option Nat := none
  is_active : Bool := true
  deriving DecidableEq

/-- Row of table `check_in_out`: one badge scan. `check_time` is the timestamp in
milliseconds, the value of the JavaScript `Date` built from it. -/
structure Scan where
  id : Nat
  student_id : Nat := 0
  stall_id : Nat := 0
  scanned_by_volunteer_id : Option Nat := none
  event_id : Nat := 0
  check_type : String
  check_time : Int
  deriving DecidableEq

/-- The data store: one list of rows per table. -/
structure Db where
  schools : List School := []
  students : List Student := []
  stalls : List Stall := []
  rankings : List Ranking := []
  events : List Event := []
  event_volunteers : List EventVolunteer := []
  volunteers : List Volunteer := []
  check_in_out : List Scan := []
  event_registrations : List EventRegistration := []
  feedbacks : List Feedback := []
  event_managers : List EventManager := []

/-! ## JavaScript and SQL primitives -/

/-- How an Express handler ends a request. -/
inductive Outcome (α : Type) where
  /-- Answer `successResponse(res, data, message)` -/
  | successResponse (data : α) (message : String)
  /-- Answer `errorResponse(res, message, statusCode)` -/
  | errorResponse (message : String) (statusCode : Nat)
  /-- Answer `res.status(status).json({ success, message, data })` -/
  | json (status : Nat) (success : Bool) (message : String) (data : α)
  /-- Answer `next(error)`: a thrown error is handed to the error middleware -/
  | next
  /-- Answer `successResponse(res, data, message, statusCode)` -/
  | successResponseWith (data : α) (message : String) (statusCode : Nat)
  /-- Answer `validationErrorResponse(res, errors)`, one `msg` per error -/
  | validationErrorResponse (errors : List String)
  deriving DecidableEq

/-- The JavaScript expression `parseInt(x) || d`: `NaN` and `0` are falsy. -/
def parseIntOr (x : Option Int) (d : Int) : Int :=
  match x with
  | none => d
  | some 0 => d
  | some n => n

/-- SQL `LIMIT n`: PostgreSQL raises an error for a negative `n`. -/
def sqlLimit {α : Type} (n : Int) (rows : List α) : Option (List α) :=
  if n < 0 then none else some (rows.take n.toNat)

/-- SQL `SUM`: `NULL` over no rows. -/
def sqlSum (xs : List Int) : Option Int :=
  match xs with
  | [] => none
  | _ :: _ => some xs.sum

/-- The right-hand matches of one left row in a `LEFT JOIN`: the matching rows,
or a single all-`NULL` row when there is none. -/
def leftJoinMatches {β : Type} (matching : List β) : List (Option β) :=
  match matching with
  | [] => [none]
  | _ :: _ => matching.map some

/-! ## `getTopStalls` (admin.controller.js, lines 292-371) -/

/-- One row of the `getTopStalls` query: `stalls st LEFT JOIN schools sc`. -/
structure TopStallRow where
  stall_id : Nat
  stall_number : Nat
  stall_name : String
  description : String
  location : String
  school_id : Option Nat
  school_name : Option String
  rank_1_votes : Int
  rank_2_votes : Int
  rank_3_votes : Int
  weighted_score : Int
  total_votes : Int
  deriving DecidableEq

/-- Clause `FROM stalls st LEFT JOIN schools sc ON st.school_id = sc.id`, with the
select list of the query. -/
def topStallsJoin (db : Db) : List TopStallRow :=
  db.stalls.flatMap fun st =>
    (leftJoinMatches (db.schools.filter fun sc => st.school_id == some sc.id)).map fun sc =>
      { stall_id := st.id
        stall_number := st.stall_number
        stall_name := st.stall_name
        description := st.description
        location := st.location
        school_id := sc.map School.id
        school_name := sc.map School.school_name
        rank_1_votes := st.rank_1_votes
        rank_2_votes := st.rank_2_votes
        rank_3_votes := st.rank_3_votes
        weighted_score := st.weighted_score
        total_votes := st.rank_1_votes + st.rank_2_votes + st.rank_3_votes }

/-- Clause `WHERE (st.rank_1_votes + st.rank_2_votes + st.rank_3_votes) > 0`. -/
def topStallsQualifying (db : Db) : List TopStallRow :=
  (topStallsJoin db).filter fun row => decide (0 < row.total_votes)

/-- The sort key of `ORDER BY st.weighted_score DESC, st.rank_1_votes DESC,
st.stall_number ASC`. -/
def stallKey (row : TopStallRow) : Int × Int × Nat :=
  (row.weighted_score, row.rank_1_votes, row.stall_number)

/-- Relation `keyBefore k k'`: key `k` may stand before key `k'` in the leaderboard
(descending first component, then descending second, then ascending third). -/
def keyBefore (k k' : Int × Int × Nat) : Prop :=
  k'.1 < k.1 ∨ (k.1 = k'.1 ∧ (k'.2.1 < k.2.1 ∨ (k.2.1 = k'.2.1 ∧ k.2.2 ≤ k'.2.2)))

instance : DecidableRel keyBefore := fun k k' => by
  unfold keyBefore; infer_instance

/-- Row order of the stall leaderboard. -/
def stallBefore (a b : TopStallRow) : Prop := keyBefore (stallKey a) (stallKey b)

instance : DecidableRel stallBefore := fun a b => by
  unfold stallBefore; infer_instance

/-- The rows of the stall query before `LIMIT`. -/
def topStallsOrdered (db : Db) : List TopStallRow :=
  (topStallsQualifying db).insertionSort stallBefore

/-- The stall query: `none` when the data store rejects the statement. -/
def topStallsQuery (db : Db) (limit : Int) : Option (List TopStallRow) :=
  sqlLimit limit (topStallsOrdered db)

/-- An ordering of the qualifying rows that `ORDER BY` admits. -/
def IsValidStallOrdering (db : Db) (l : List TopStallRow) : Prop :=
  l.Perm (topStallsQualifying db) ∧ l.Sorted stallBefore

/-- Object `ranking_stats` of a leaderboard entry. -/
structure RankingStats where
  rank_1_votes : Int
  rank_2_votes : Int
  rank_3_votes : Int
  total_votes : Int
  weighted_score : Int
  deriving DecidableEq

/-- Object `school` of a leaderboard entry. -/
structure StallSchool where
  school_id : Option Nat
  school_name : Option String
  deriving DecidableEq

/-- One element of `top_stalls`. -/
structure TopStallEntry where
  position : Nat
  stall_id : Nat
  stall_number : Nat
  stall_name : String
  description : String
  location : String
  school : StallSchool
  ranking_stats : RankingStats
  deriving DecidableEq

/-- The callback of `topStalls.map((stall, index) => ...)`; `parseInt` returns
an integer column unchanged. -/
def toTopStallEntry (index : Nat) (stall : TopStallRow) : TopStallEntry :=
  { position := index + 1
    stall_id := stall.stall_id
    stall_number := stall.stall_number
    stall_name := stall.stall_name
    description := stall.description
    location := stall.location
    school := { school_id := stall.school_id, school_name := stall.school_name }
    ranking_stats :=
      { rank_1_votes := stall.rank_1_votes
        rank_2_votes := stall.rank_2_votes
        rank_3_votes := stall.rank_3_votes
        total_votes := stall.total_votes
        weighted_score := stall.weighted_score } }

/-- Object `overall_stats.breakdown` of `getTopStalls`. -/
structure VoteBreakdown where
  rank_1_votes : Option Int
  rank_2_votes : Option Int
  rank_3_votes : Option Int
  deriving DecidableEq

/-- Object `overall_stats` of `getTopStalls`. -/
structure StallOverallStats where
  total_stalls_ranked : Option Int
  total_students_voted : Option Int
  breakdown : VoteBreakdown
  deriving DecidableEq

/-- Expression `SUM(CASE WHEN rank = k THEN 1 ELSE 0 END)` over table `rankings`. -/
def rankVoteSum (db : Db) (k : Int) : Option Int :=
  sqlSum (db.rankings.map fun r => if r.rank = k then 1 else 0)

/-- The statistics query of `getTopStalls`, after `parseInt` (`parseInt(null)`
is `NaN`). -/
def stallOverallStats (db : Db) : StallOverallStats :=
  { total_stalls_ranked := some ((db.rankings.map Ranking.stall_id).dedup.length : Int)
    total_students_voted := some ((db.rankings.map Ranking.student_id).dedup.length : Int)
    breakdown :=
      { rank_1_votes := rankVoteSum db 1
        rank_2_votes := rankVoteSum db 2
        rank_3_votes := rankVoteSum db 3 } }

/-- Payload of `getTopStalls` (the constant `scoring_system` object is left out). -/
structure TopStallsData where
  top_stalls : List TopStallEntry
  overall_stats : StallOverallStats
  deriving DecidableEq

/-- Handler `getTopStalls`; `reqLimit` is `parseInt(req.query.limit)`. -/
def getTopStalls (db : Db) (reqLimit : Option Int) : Outcome TopStallsData :=
  let limit := parseIntOr reqLimit 10
  match topStallsQuery db limit with
  | none => .next
  | some topStalls =>
    .successResponse
      { top_stalls := topStalls.mapIdx toTopStallEntry
        overall_stats := stallOverallStats db }
      "Top stalls retrieved successfully"

/-! ## `getTopSchools` (admin.controller.js, lines 201-286) -/

/-- One row of the join `schools sc LEFT JOIN students s LEFT JOIN rankings r
LEFT JOIN stalls st`; a missing right-hand side is `none` (all columns `NULL`). -/
structure SchoolJoinRow where
  sc : School
  s : Option Student
  r : Option Ranking
  st : Option Stall
  deriving DecidableEq

/-- Clause `LEFT JOIN rankings r ON r.student_id = s.id LEFT JOIN stalls st ON
r.stall_id = st.id`, for one (possibly `NULL`) student row. A comparison with
`NULL` is never true, so a `NULL` left side has no match. -/
def rankingJoin (db : Db) (s : Option Student) : List (Option Ranking × Option Stall) :=
  (leftJoinMatches (match s with
      | none => []
      | some s => db.rankings.filter fun r => r.student_id == s.id)).flatMap fun r =>
    (leftJoinMatches (match r with
      | none => []
      | some r => db.stalls.filter fun st => r.stall_id == st.id)).map fun st => (r, st)

/-- The students joined to school `sc`:
`LEFT JOIN students s ON s.school_id = sc.id AND s.has_completed_ranking = true`. -/
def schoolStudents (db : Db) (sc : School) : List Student :=
  db.students.filter fun s => s.school_id == some sc.id && s.has_completed_ranking

/-- The `FROM` clause of the school query. -/
def topSchoolsJoin (db : Db) : List SchoolJoinRow :=
  db.schools.flatMap fun sc =>
    (leftJoinMatches (schoolStudents db sc)).flatMap fun s =>
      (rankingJoin db s).map fun p => { sc := sc, s := s, r := p.1, st := p.2 }

/-- Clause `WHERE s.has_completed_ranking = true`. -/
def completedRow (row : SchoolJoinRow) : Bool :=
  match row.s with
  | none => false
  | some s => s.has_completed_ranking

/-- The joined rows that pass the `WHERE` clause. -/
def topSchoolsWhere (db : Db) : List SchoolJoinRow :=
  (topSchoolsJoin db).filter completedRow

/-- The `GROUP BY sc.id, sc.school_name` key of a joined row. -/
def schoolKey (row : SchoolJoinRow) : Nat × String := (row.sc.id, row.sc.school_name)

/-- The rows of one group. -/
def schoolGroup (db : Db) (key : Nat × String) : List SchoolJoinRow :=
  (topSchoolsWhere db).filter fun row => schoolKey row == key

/-- Expression `CASE r.rank WHEN 1 THEN 5 WHEN 2 THEN 3 WHEN 3 THEN 1 ELSE 0 END`. -/
def rankPoints (rank : Option Int) : Int :=
  if rank = some 1 then 5
  else if rank = some 2 then 3
  else if rank = some 3 then 1
  else 0

/-- The condition `st.school_id = sc.id` of a joined row (not true on `NULL`). -/
def ownStall (row : SchoolJoinRow) : Bool :=
  match row.st with
  | none => false
  | some st => st.school_id == some row.sc.id

/-- The summand of `school_score`. -/
def scoreTerm (row : SchoolJoinRow) : Int :=
  if ownStall row then rankPoints (row.r.map Ranking.rank) else 0

/-- The summand of `rank_k_count`:
`CASE WHEN st.school_id = sc.id AND r.rank = k THEN 1 ELSE 0 END`. -/
def rankCountTerm (k : Int) (row : SchoolJoinRow) : Int :=
  if ownStall row && decide (row.r.map Ranking.rank = some k) then 1 else 0

/-- Expression `SUM(CASE WHEN st.school_id = sc.id THEN ... END)` of one group. -/
def schoolScore (db : Db) (key : Nat × String) : Option Int :=
  sqlSum ((schoolGroup db key).map scoreTerm)

/-- Expression `SUM(CASE WHEN st.school_id = sc.id AND r.rank = k THEN 1 ELSE 0 END)` of one group. -/
def schoolRankCount (db : Db) (key : Nat × String) (k : Int) : Option Int :=
  sqlSum ((schoolGroup db key).map (rankCountTerm k))

/-- Expression `COUNT(DISTINCT s.id)` of one group. -/
def schoolStudentsRanked (db : Db) (key : Nat × String) : Int :=
  (((schoolGroup db key).filterMap fun row => row.s.map Student.id).dedup.length : Int)

/-- Expression `COUNT(DISTINCT CASE WHEN st.school_id = sc.id THEN st.id END)` of one group. -/
def schoolRankedStalls (db : Db) (key : Nat × String) : Int :=
  (((schoolGroup db key).filterMap fun row =>
      if ownStall row then row.st.map Stall.id else none).dedup.length : Int)

/-- One row of the school query; `school_score` is not `NULL` past `HAVING`. -/
structure TopSchoolRow where
  school_id : Nat
  school_name : String
  total_students_ranked : Int
  school_score : Int
  rank_1_count : Option Int
  rank_2_count : Option Int
  rank_3_count : Option Int
  ranked_stalls_count : Int
  deriving DecidableEq

/-- The select list for one group, kept only when `HAVING SUM(...) > 0` holds
(a `NULL` sum does not pass). -/
def schoolAggregate (db : Db) (key : Nat × String) : Option TopSchoolRow :=
  match schoolScore db key with
  | none => none
  | some score =>
    if 0 < score then
      some
        { school_id := key.1
          school_name := key.2
          total_students_ranked := schoolStudentsRanked db key
          school_score := score
          rank_1_count := schoolRankCount db key 1
          rank_2_count := schoolRankCount db key 2
          rank_3_count := schoolRankCount db key 3
          ranked_stalls_count := schoolRankedStalls db key }
    else none

/-- The distinct group keys. -/
def schoolKeys (db : Db) : List (Nat × String) :=
  ((topSchoolsWhere db).map schoolKey).dedup

/-- Clause `GROUP BY ... HAVING ...`: the aggregated rows. -/
def topSchoolsGrouped (db : Db) : List TopSchoolRow :=
  (schoolKeys db).filterMap (schoolAggregate db)

/-- Row order of `ORDER BY school_score DESC, total_students_ranked DESC`. -/
def schoolBefore (a b : TopSchoolRow) : Prop :=
  b.school_score < a.school_score ∨
    (a.school_score = b.school_score ∧ b.total_students_ranked ≤ a.total_students_ranked)

instance : DecidableRel schoolBefore := fun a b => by
  unfold schoolBefore; infer_instance

/-- The school query: `none` when the data store rejects the statement. -/
def topSchoolsQuery (db : Db) (limit : Int) : Option (List TopSchoolRow) :=
  sqlLimit limit ((topSchoolsGrouped db).insertionSort schoolBefore)

/-- One element of `top_schools`. -/
structure TopSchoolEntry where
  position : Nat
  school_id : Nat
  school_name : String
  total_score : Int
  breakdown : VoteBreakdown
  students_participated : Int
  stalls_ranked : Int
  deriving DecidableEq

/-- The callback of `topSchools.map((school, index) => ...)`. -/
def toTopSchoolEntry (index : Nat) (school : TopSchoolRow) : TopSchoolEntry :=
  { position := index + 1
    school_id := school.school_id
    school_name := school.school_name
    total_score := school.school_score
    breakdown :=
      { rank_1_votes := school.rank_1_count
        rank_2_votes := school.rank_2_count
        rank_3_votes := school.rank_3_count }
    students_participated := school.total_students_ranked
    stalls_ranked := school.ranked_stalls_count }

/-- Object `overall_stats` of `getTopSchools`. -/
structure SchoolOverallStats where
  total_students_participated : Option Int
  total_schools_participated : Option Int
  total_stalls_ranked : Option Int
  deriving DecidableEq

/-- The students with `has_completed_ranking = true`. -/
def completedStudents (db : Db) : List Student :=
  db.students.filter fun s => s.has_completed_ranking

/-- The statistics query of `getTopSchools`: three `COUNT(DISTINCT ...)` over
`students s LEFT JOIN rankings r LEFT JOIN stalls st LEFT JOIN schools sc WHERE
s.has_completed_ranking = true`. `COUNT(DISTINCT x)` skips `NULL`, so only the
matched right-hand rows are counted. -/
def schoolOverallStats (db : Db) : SchoolOverallStats :=
  { total_students_participated :=
      some (((completedStudents db).map Student.id).dedup.length : Int)
    total_schools_participated :=
      some (((completedStudents db).flatMap fun s =>
        (db.schools.filter fun sc => s.school_id == some sc.id).map School.id).dedup.length : Int)
    total_stalls_ranked :=
      some (((completedStudents db).flatMap fun s =>
        (db.rankings.filter fun r => r.student_id == s.id).flatMap fun r =>
          (db.stalls.filter fun st => r.stall_id == st.id).map Stall.id).dedup.length : Int) }

/-- Payload of `getTopSchools` (the constant `scoring_system` object is left out). -/
structure TopSchoolsData where
  top_schools : List TopSchoolEntry
  overall_stats : SchoolOverallStats
  deriving DecidableEq

/-- Handler `getTopSchools`; `reqLimit` is `parseInt(req.query.limit)`. -/
def getTopSchools (db : Db) (reqLimit : Option Int) : Outcome TopSchoolsData :=
  let limit := parseIntOr reqLimit 10
  match topSchoolsQuery db limit with
  | none => .next
  | some topSchools =>
    .successResponse
      { top_schools := topSchools.mapIdx toTopSchoolEntry
        overall_stats := schoolOverallStats db }
      "Top schools retrieved successfully"

/-! ## Collaborators of the lifecycle handlers -/

/-- A JavaScript value stored in an update object or in audit metadata. -/
inductive JsValue where
  | str (s : String)
  | num (n : Int)
  | null
  | strs (ss : List String)
  | bool (b : Bool)
  deriving DecidableEq

/-- The body of `POST /api/event-managers/events` (`req.body`), field by field.
A string field is `none` when it is absent or `null`. `price` holds the number
`parseFloat(eventData.price)`, `none` for `NaN`. `max_capacity` is `none` when
the field is `null` or `undefined` and otherwise holds
`parseInt(eventData.max_capacity)`, `none` for `NaN`. -/
structure EventData where
  event_name : Option String := none
  event_code : Option String := none
  event_type : Option String := none
  start_date : Option String := none
  end_date : Option String := none
  registration_start_date : Option String := none
  registration_end_date : Option String := none
  price : Option ℚ := none
  max_capacity : Option (Option Int) := none
  banner_image_base64 : Option String := none
  image_base64 : Option String := none
  banner_image_url : Option String := none
  image_url : Option String := none
  deriving DecidableEq

/-- A call a handler makes to a collaborator that writes: the event model or
the audit sink. The request fields `ip_address` and `user_agent` of an audit
record are passed through from the request and left out. -/
inductive Effect where
  /-- Call `EventModel.update(eventId, updateData)` -/
  | eventUpdate (eventId : Nat) (updateData : List (String × JsValue))
  /-- Call `EventModel.delete(eventId)` -/
  | eventDelete (eventId : Nat)
  /-- Call `logAuditEvent({ event_type, user_id, user_role, resource_type, resource_id, metadata })` -/
  | auditEvent (event_type : String) (user_id : Nat) (user_role : String)
      (resource_type : String) (resource_id : Nat) (metadata : List (String × JsValue))
  /-- Call `EventModel.approveByAdmin(id, adminId)` -/
  | approveByAdmin (id : Nat) (adminId : Nat)
  /-- Call `EventModel.rejectByAdmin(id, adminId, rejection_reason)` -/
  | rejectByAdmin (id : Nat) (adminId : Nat) (rejection_reason : String)
  /-- Call `EventModel.create(eventData, managerId)` -/
  | eventCreate (eventData : EventData) (managerId : Nat)
  /-- Call `uploadEventBanner(base64, eventId)` -/
  | uploadEventBanner (base64 : String) (eventId : Nat)
  /-- Call `uploadEventImage(base64, eventId)` -/
  | uploadEventImage (base64 : String) (eventId : Nat)
  deriving DecidableEq

/-- Modelled from the spec: `EventModel.findById` (models/Event.model.js is not
among the sources) resolves to the stored event with this identifier, or to
`null` when there is none. -/
def findById (db : Db) (eventId : Nat) : Option Event :=
  db.events.find? fun e => e.id == eventId

/-- JavaScript truthiness of a nullable string: `null`, `undefined` and the
empty string are falsy. -/
def jsTruthy (s : Option String) : Bool :=
  match s with
  | none => false
  | some v => v != ""

/-- JavaScript `String.prototype.length`: the number of UTF-16 code units. -/
def jsLength (s : String) : Nat :=
  (s.toList.map fun c => if c.toNat < 65536 then 1 else 2).sum

/-- The characters `String.prototype.trim` strips: WhiteSpace and
LineTerminator of ECMAScript. -/
def jsIsWhiteSpace (c : Char) : Bool :=
  [9, 10, 11, 12, 13, 32, 160, 5760, 8232, 8233, 8239, 8287, 12288, 65279].contains c.toNat
    || (8192 ≤ c.toNat && c.toNat ≤ 8202)

/-- JavaScript `String.prototype.trim`. -/
def jsTrim (s : String) : String :=
  String.mk ((s.toList.dropWhile jsIsWhiteSpace).reverse.dropWhile jsIsWhiteSpace).reverse

/-! ## `submitEventForApproval` (eventManager.controller.js, lines 657-730) -/

/-- Query `SELECT COUNT(*) FROM stalls WHERE event_id = $1 AND is_active = true`. -/
def activeStallCount (db : Db) (eventId : Nat) : Nat :=
  (db.stalls.filter fun st => st.event_id == eventId && st.is_active).length

/-- Query `SELECT COUNT(*) FROM event_volunteers WHERE event_id = $1`. -/
def volunteerCount (db : Db) (eventId : Nat) : Nat :=
  (db.event_volunteers.filter fun ev => ev.event_id == eventId).length

/-- The object `updateData` built at lines 701-704. -/
def submitUpdateData (event : Event) : List (String × JsValue) :=
  let updateData := [("status", JsValue.str "PENDING_APPROVAL")]
  if event.status = "REJECTED" then
    updateData ++ [("admin_rejection_reason", JsValue.null)]
  else updateData

/-- The audit record of lines 708-723. -/
def submitAudit (event : Event) (eventId managerId stallCount volunteerCount : Nat) : Effect :=
  .auditEvent "EVENT_STATUS_CHANGED" managerId "EVENT_MANAGER" "EVENT" eventId
    [ ("old_status", .str "DRAFT"),
      ("new_status", .str "PENDING_APPROVAL"),
      ("event_name", .str event.event_name),
      ("stall_count", .num stallCount),
      ("volunteer_count", .num volunteerCount) ]

/-- Handler `EventManagerController.submitEventForApproval`, with
`eventId = req.params.eventId` and `managerId = req.user.id`. The collaborators
(data store, event model, audit sink) are taken to answer without throwing; a
throw would end the request in the `catch` branch with status 500. -/
def submitEventForApproval (db : Db) (eventId managerId : Nat) : Outcome Unit × List Effect :=
  match findById db eventId with
  | none => (.errorResponse "Event not found" 404, [])
  | some event =>
    if event.created_by_manager_id ≠ managerId then
      (.errorResponse "Unauthorized access to this event" 403, [])
    else if !(["DRAFT", "REJECTED"].contains event.status) then
      (.errorResponse ("Event cannot be submitted. Current status: " ++ event.status) 400, [])
    else if !(jsTruthy event.banner_image_url) then
      (.errorResponse "Event must have a banner image before submission" 400, [])
    else
      let stallCount := activeStallCount db eventId
      if stallCount = 0 then
        (.errorResponse "Event must have at least one stall before submission" 400, [])
      else
        let volunteerCount := volunteerCount db eventId
        if volunteerCount = 0 then
          (.errorResponse "Event must have at least one volunteer before submission" 400, [])
        else
          (.successResponse () "Event submitted for admin approval successfully",
            [ .eventUpdate eventId (submitUpdateData event),
              submitAudit event eventId managerId stallCount volunteerCount ])

/-! ## `approveEvent` and `rejectEvent` (admin.controller.js, lines 792-855) -/

/-- The object the event model resolves to: the event row, carrying the
idempotency markers (an absent marker is falsy). -/
structure ModelEvent where
  event : Event
  already_approved : Bool := false
  already_rejected : Bool := false
  deriving DecidableEq

/-- The result of awaiting a call of the event model (models/Event.model.js is
not among the sources, so the handlers take it as a parameter). -/
inductive ModelResult where
  /-- the promise rejects -/
  | threw
  /-- the promise resolves to an event, or to `null` -/
  | resolved (value : Option ModelEvent)
  deriving DecidableEq

/-- Handler `approveEvent`; the payload of every answer with data is `{ event }`. -/
def approveEvent (approveByAdmin : Nat → Nat → ModelResult) (id adminId : Nat) :
    Outcome ModelEvent × List Effect :=
  let calls := [Effect.approveByAdmin id adminId]
  match approveByAdmin id adminId with
  | .threw => (.next, calls)
  | .resolved none => (.errorResponse "Event not found or already processed" 404, calls)
  | .resolved (some event) =>
    if event.already_approved then
      (.json 409 false "Event was already approved" event, calls)
    else
      (.successResponse event "Event approved successfully", calls)

/-- The guard of line 830:
`!rejection_reason || rejection_reason.trim().length < 10`. -/
def rejectionReasonRefused (rejection_reason : Option String) : Bool :=
  match rejection_reason with
  | none => true
  | some reason => !(jsTruthy (some reason)) || decide (jsLength (jsTrim reason) < 10)

/-- Handler `rejectEvent`; `rejection_reason` is `req.body.rejection_reason`,
a string or absent. -/
def rejectEvent (rejectByAdmin : Nat → Nat → String → ModelResult) (id adminId : Nat)
    (rejection_reason : Option String) : Outcome ModelEvent × List Effect :=
  match rejection_reason with
  | none => (.errorResponse "Rejection reason must be at least 10 characters" 400, [])
  | some reason =>
    if rejectionReasonRefused (some reason) then
      (.errorResponse "Rejection reason must be at least 10 characters" 400, [])
    else
      let calls := [Effect.rejectByAdmin id adminId reason]
      match rejectByAdmin id adminId reason with
      | .threw => (.next, calls)
      | .resolved none => (.errorResponse "Event not found or already processed" 404, calls)
      | .resolved (some event) =>
        if event.already_rejected then
          (.json 409 false "Event was already rejected" event, calls)
        else
          (.successResponse event "Event rejected successfully", calls)

/-- Modelled from the spec: the response helpers of helpers/response.js are not
among the sources. `successResponse` answers with `success: true` and a
non-error status, `errorResponse` with `success: false` and the given status;
`res.status(s).json(body)` is explicit in the handlers. An answer is
success-shaped when its flag is true and its status is below 400. -/
def Outcome.successShaped {α : Type} (o : Outcome α) : Bool :=
  match o with
  | .successResponse _ _ => true
  | .errorResponse _ _ => false
  | .json status success _ _ => success && decide (status < 400)
  | .next => false
  | .successResponseWith _ _ statusCode => decide (statusCode < 400)
  | .validationErrorResponse _ => false

/-- The sort key as it is read off a leaderboard entry. -/
def entryKey (e : TopStallEntry) : Int × Int × Nat :=
  (e.ranking_stats.weighted_score, e.ranking_stats.rank_1_votes, e.stall_number)

/-- The formula the response advertises in `scoring_system.formula`. -/
def weightedScoreFormula (r1 r2 r3 : Int) : Int := 5 * r1 + 3 * r2 + 1 * r3

/-- A store with one stall whose stored `weighted_score` was not refreshed. -/
def staleScoreDb : Db :=
  { stalls := [{ id := 1, stall_number := 7, rank_1_votes := 3, rank_2_votes := 2,
                 rank_3_votes := 1, weighted_score := 0 }] }

/-- A store whose stored `weighted_score` agrees with the vote counters. -/
def freshScoreDb : Db :=
  { stalls := [{ id := 1, stall_number := 7, rank_1_votes := 3, rank_2_votes := 2,
                 rank_3_votes := 1, weighted_score := 22 },
               { id := 2, stall_number := 4, rank_1_votes := 1, rank_2_votes := 0,
                 rank_3_votes := 0, weighted_score := 5 }] }

/-- A store with two stalls that carry the same stall number and the same votes. -/
def tiedStallsDb : Db :=
  { stalls := [{ id := 1, stall_number := 7, rank_1_votes := 1, weighted_score := 5 },
               { id := 2, stall_number := 7, rank_1_votes := 1, weighted_score := 5 }] }

/-- The payload `getTopStalls` answers with on `freshScoreDb` for `limit=1`. -/
def freshScoreTop : TopStallsData :=
  { top_stalls :=
      [{ position := 1, stall_id := 1, stall_number := 7, stall_name := "", description := "",
         location := "", school := { school_id := none, school_name := none },
         ranking_stats := { rank_1_votes := 3, rank_2_votes := 2, rank_3_votes := 1,
                            total_votes := 6, weighted_score := 22 } }]
    overall_stats := stallOverallStats freshScoreDb }

/-- The two join rows of `tiedStallsDb`. -/
def tiedRow (stallId : Nat) : TopStallRow :=
  { stall_id := stallId, stall_number := 7, stall_name := "", description := "",
    location := "", school_id := none, school_name := none, rank_1_votes := 1,
    rank_2_votes := 0, rank_3_votes := 0, weighted_score := 5, total_votes := 1 }

/-- A summand of the school query that is guarded by `st.school_id = sc.id` and
otherwise reads `r.rank` only; `scoreTerm` and `rankCountTerm` have this shape. -/
def ownTerm (g : Option Int → Int) (row : SchoolJoinRow) : Int :=
  if ownStall row then g (row.r.map Ranking.rank) else 0

/-- The stalls `st` that ranking `r` joins to and that school `scId` owns. -/
def ownStallsOf (db : Db) (scId : Nat) (r : Ranking) : List Stall :=
  db.stalls.filter fun st => r.stall_id == st.id && st.school_id == some scId

/-- The store with table `rankings` replaced. -/
def withRankings (db : Db) (rankings : List Ranking) : Db :=
  { db with rankings := rankings }

/-- Two schools with one completed student and one stall each; student 1 of
school 1 has ranked its own school's stall 10. -/
def twoSchoolsDb : Db :=
  { schools := [{ id := 1, school_name := "A" }, { id := 2, school_name := "B" }]
    students := [{ id := 1, school_id := some 1, has_completed_ranking := true },
                 { id := 2, school_id := some 2, has_completed_ranking := true }]
    stalls := [{ id := 10, stall_number := 1, school_id := some 1 },
               { id := 20, stall_number := 2, school_id := some 2 }]
    rankings := [{ student_id := 1, stall_id := 10, rank := 1 }] }

/-- Ranking row `r` was cast by a student of school `scId`. -/
def castByStudentOf (db : Db) (scId : Nat) (r : Ranking) : Bool :=
  db.students.any fun s => s.id == r.student_id && s.school_id == some scId

/-- Ranking row `r` was cast by a student of school `scId` whose
`has_completed_ranking` flag is set. -/
def castByCompletedStudentOf (db : Db) (scId : Nat) (r : Ranking) : Bool :=
  db.students.any fun s =>
    s.id == r.student_id && (s.school_id == some scId && s.has_completed_ranking)

/-- Ranking row `r` ranks a stall of school `scId`. -/
def ranksStallOf (db : Db) (scId : Nat) (r : Ranking) : Bool :=
  db.stalls.any fun st => st.id == r.stall_id && st.school_id == some scId

/-- The school score in the words of the specification: the sum, over every
ranking row whose voting student's school and ranked stall's school are both
`scId`, of the rank's point value. -/
def sameSchoolPoints (db : Db) (scId : Nat) : Int :=
  (db.rankings.map fun r =>
    if castByStudentOf db scId r && ranksStallOf db scId r then rankPoints (some r.rank)
    else 0).sum

/-- The same sum, over the rows of voting students whose `has_completed_ranking`
flag is set. -/
def sameSchoolCompletedPoints (db : Db) (scId : Nat) : Int :=
  (db.rankings.map fun r =>
    if castByCompletedStudentOf db scId r && ranksStallOf db scId r then
      rankPoints (some r.rank)
    else 0).sum

/-- School 1 has a student who completed the ranking without any row, and a
student whose row for the school's own stall is stored while the flag
`has_completed_ranking` is still false. -/
def pendingStudentDb : Db :=
  { schools := [{ id := 1, school_name := "A" }]
    students := [{ id := 1, school_id := some 1, has_completed_ranking := true },
                 { id := 2, school_id := some 1, has_completed_ranking := false }]
    stalls := [{ id := 10, stall_number := 1, school_id := some 1 }]
    rankings := [{ student_id := 2, stall_id := 10, rank := 1 }] }

/-- The order of `top_schools` as it is read off the entries: descending
`total_score`, then descending `students_participated`. -/
def schoolEntryBefore (a b : TopSchoolEntry) : Prop :=
  b.total_score < a.total_score ∨
    (a.total_score = b.total_score ∧ b.students_participated ≤ a.students_participated)

instance : DecidableRel schoolEntryBefore := fun a b => by
  unfold schoolEntryBefore; infer_instance

/-- The number of distinct students of school `scId` whose
`has_completed_ranking` flag is set. -/
def completedStudentsOf (db : Db) (scId : Nat) : Int :=
  (((db.students.filter fun s =>
      s.school_id == some scId && s.has_completed_ranking).map Student.id).dedup.length : Int)

/-- Student 1 of school 1 ranked its school's stall first, student 2 of school 2
ranked its school's stall second, and school 3 has a completed student who
ranked a stall of school 1 only. -/
def threeSchoolsDb : Db :=
  { schools := [{ id := 1, school_name := "A" }, { id := 2, school_name := "B" },
                { id := 3, school_name := "C" }]
    students := [{ id := 1, school_id := some 1, has_completed_ranking := true },
                 { id := 2, school_id := some 2, has_completed_ranking := true },
                 { id := 3, school_id := some 3, has_completed_ranking := true }]
    stalls := [{ id := 10, stall_number := 1, school_id := some 1 },
               { id := 20, stall_number := 2, school_id := some 2 }]
    rankings := [{ student_id := 2, stall_id := 20, rank := 2 },
                 { student_id := 1, stall_id := 10, rank := 1 },
                 { student_id := 3, stall_id := 10, rank := 1 }] }

/-- The payload `getTopSchools` answers with on `threeSchoolsDb`. -/
def threeSchoolsTop : TopSchoolsData :=
  { top_schools :=
      [{ position := 1, school_id := 1, school_name := "A", total_score := 5,
         breakdown := { rank_1_votes := some 1, rank_2_votes := some 0, rank_3_votes := some 0 },
         students_participated := 1, stalls_ranked := 1 },
       { position := 2, school_id := 2, school_name := "B", total_score := 3,
         breakdown := { rank_1_votes := some 0, rank_2_votes := some 1, rank_3_votes := some 0 },
         students_participated := 1, stalls_ranked := 1 }]
    overall_stats := schoolOverallStats threeSchoolsDb }

/-- The guards of `submitEventForApproval`, read off an owned event: status
`DRAFT` or `REJECTED`, a banner image URL present, at least one active stall and
at least one assigned volunteer. -/
def submissionReady (db : Db) (eventId : Nat) (event : Event) : Prop :=
  (event.status = "DRAFT" ∨ event.status = "REJECTED") ∧
    jsTruthy event.banner_image_url = true ∧
    0 < activeStallCount db eventId ∧ 0 < volunteerCount db eventId

instance (db : Db) (eventId : Nat) (event : Event) :
    Decidable (submissionReady db eventId event) := by
  unfold submissionReady; infer_instance

/-- The store with one more row in table `stalls`. -/
def withStall (db : Db) (st : Stall) : Db :=
  { db with stalls := st :: db.stalls }

/-- A draft event with a banner. -/
def draftEvent : Event :=
  { id := 1, event_name := "Expo", created_by_manager_id := 7, status := "DRAFT",
    banner_image_url := some "https://img/banner.png" }

/-- A rejected event with a banner and a stored rejection reason. -/
def rejectedEvent : Event :=
  { id := 2, event_name := "Fair", created_by_manager_id := 7, status := "REJECTED",
    banner_image_url := some "https://img/fair.png",
    admin_rejection_reason := some "Dates overlap with exams" }

/-- Both events have a volunteer; event 2 has an active stall, event 1 has none. -/
def lifecycleDb : Db :=
  { events := [draftEvent, rejectedEvent]
    stalls := [{ id := 20, stall_number := 1, event_id := 2 }]
    event_volunteers := [{ event_id := 1, volunteer_id := 5 }, { event_id := 2, volunteer_id := 5 }] }

/-- An event model that reports every event as already approved or rejected. -/
def alreadyResolvedModel : ModelResult :=
  .resolved (some { event := { draftEvent with status := "APPROVED" },
                    already_approved := true, already_rejected := true })

/-! ## The sort keys are total preorders -/

instance : IsTotal TopStallRow stallBefore :=
  ⟨fun a b => by unfold stallBefore keyBefore; omega⟩

instance : IsTrans TopStallRow stallBefore :=
  ⟨fun a b c h₁ h₂ => by unfold stallBefore keyBefore at *; omega⟩

instance : IsTotal TopSchoolRow schoolBefore :=
  ⟨fun a b => by unfold schoolBefore; omega⟩

instance : IsTrans TopSchoolRow schoolBefore :=
  ⟨fun a b c h₁ h₂ => by unfold schoolBefore at *; omega⟩

/-! ## `updateEvent` and `deleteEvent` (eventManager.controller.js, lines 483-572) -/

/-- The audit record of `updateEvent` (lines 510-522); `updated_fields` is
`Object.keys(req.body)`. -/
def updateAudit (updated : Event) (eventId managerId : Nat) (body : List (String × JsValue)) :
    Effect :=
  .auditEvent "EVENT_UPDATED" managerId "EVENT_MANAGER" "EVENT" eventId
    [ ("updated_fields", .strs (body.map Prod.fst)),
      ("event_name", .str updated.event_name) ]

/-- Handler `EventManagerController.updateEvent`. `body` is `req.body`; `update`
stands for `EventModel.update` (models/Event.model.js is not among the sources)
and gives what the call resolves to: the updated row, or `null`. Reading
`updated.event_name` of `null` throws, which the `catch` branch answers with
status 500. -/
def updateEvent (db : Db) (update : Nat → List (String × JsValue) → Option Event)
    (eventId managerId : Nat) (body : List (String × JsValue)) :
    Outcome Event × List Effect :=
  match findById db eventId with
  | none => (.errorResponse "Event not found" 404, [])
  | some event =>
    if event.created_by_manager_id ≠ managerId then
      (.errorResponse "Unauthorized access to this event" 403, [])
    else if ["ACTIVE", "COMPLETED", "ARCHIVED"].contains event.status then
      (.errorResponse "Cannot update event that is active, completed, or archived" 400, [])
    else
      match update eventId body with
      | none =>
        (.errorResponse "Cannot read properties of null (reading 'event_name')" 500,
          [.eventUpdate eventId body])
      | some updated =>
        (.successResponse updated "Event updated successfully",
          [.eventUpdate eventId body, updateAudit updated eventId managerId body])

/-- The audit record of `deleteEvent` (lines 553-565). -/
def deleteAudit (event : Event) (eventId managerId : Nat) : Effect :=
  .auditEvent "EVENT_DELETED" managerId "EVENT_MANAGER" "EVENT" eventId
    [ ("event_name", .str event.event_name),
      ("event_code", .str event.event_code) ]

/-- Handler `EventManagerController.deleteEvent`. -/
def deleteEvent (db : Db) (eventId managerId : Nat) : Outcome Unit × List Effect :=
  match findById db eventId with
  | none => (.errorResponse "Event not found" 404, [])
  | some event =>
    if event.created_by_manager_id ≠ managerId then
      (.errorResponse "Unauthorized access to this event" 403, [])
    else
      (.successResponse () "Event cancelled successfully",
        [.eventDelete eventId, deleteAudit event eventId managerId])

/-! ## Read handlers of the event manager (eventManager.controller.js) -/

/-- A read a handler issues after it has looked the event up: a `SELECT` sent
through `query`, named by the constant that holds its text or its result, or a
read call of a model. -/
inductive ReadCall where
  | select (statement : String) (eventId : Nat)
  | model (call : String) (eventId : Nat)
  deriving DecidableEq

/-- The read calls of the models, which are not among the sources: each gives
what the call resolves to. -/
structure ReadModels where
  /-- Call `EventModel.getStats(eventId)` -/
  eventStats : Nat → JsValue
  /-- Call `EventRegistrationModel.getStats(eventId)` -/
  registrationStats : Nat → JsValue
  /-- Call `EventVolunteerModel.getEventStats(eventId)` -/
  volunteerStats : Nat → JsValue
  /-- Call `EventVolunteerModel.getVolunteerPerformance(eventId)` -/
  volunteerPerformance : Nat → JsValue
  /-- Call `EventRegistrationModel.getEventRegistrations(eventId, options)` -/
  eventRegistrations : Nat → Option String → Option String → Int → Int → JsValue

/-- Payload of `getEventDetails`. A row of `volunteers.data` is the joined pair
of a volunteer and its assignment, a row of `stalls.data` a stall with its
school. -/
structure EventDetails where
  event : Event
  stats : JsValue
  volunteers_data : List (Volunteer × EventVolunteer)
  volunteers_total : Nat
  stalls_data : List (Stall × Option School)
  stalls_total : Nat
  stalls_active : Nat

/-- The volunteers query of `getEventDetails`: `volunteers v INNER JOIN
event_volunteers ev ON v.id = ev.volunteer_id WHERE ev.event_id = $1 AND
ev.is_active = true ORDER BY v.full_name ASC`. -/
def eventVolunteersQuery (db : Db) (eventId : Nat) : List (Volunteer × EventVolunteer) :=
  ((db.volunteers.flatMap fun v =>
      (db.event_volunteers.filter fun ev => v.id == ev.volunteer_id).map fun ev => (v, ev)).filter
    fun row => row.2.event_id == eventId && row.2.is_active).insertionSort
      fun a b => a.1.full_name ≤ b.1.full_name

/-- The stalls query of `getEventDetails`: `stalls st LEFT JOIN schools sc ON
st.school_id = sc.id WHERE st.event_id = $1 ORDER BY st.stall_number ASC`. -/
def eventStallsQuery (db : Db) (eventId : Nat) : List (Stall × Option School) :=
  ((db.stalls.flatMap fun st =>
      (leftJoinMatches (db.schools.filter fun sc => st.school_id == some sc.id)).map fun sc =>
        (st, sc)).filter
    fun row => row.1.event_id == eventId).insertionSort
      fun a b => a.1.stall_number ≤ b.1.stall_number

/-- Handler `EventManagerController.getEventDetails` (lines 400-477). -/
def getEventDetails (db : Db) (models : ReadModels) (eventId managerId : Nat) :
    Outcome EventDetails × List ReadCall :=
  match findById db eventId with
  | none => (.errorResponse "Event not found" 404, [])
  | some event =>
    if event.created_by_manager_id ≠ managerId then
      (.errorResponse "Unauthorized access to this event" 403, [])
    else
      let stats := models.eventStats eventId
      let volunteers := eventVolunteersQuery db eventId
      let stalls := eventStallsQuery db eventId
      (.successResponse
        { event := event
          stats := stats
          volunteers_data := volunteers
          volunteers_total := volunteers.length
          stalls_data := stalls
          stalls_total := stalls.length
          stalls_active := (stalls.filter fun s => s.1.is_active).length } "",
        [.model "EventModel.getStats" eventId, .select "volunteers" eventId,
          .select "stalls" eventId])

/-- Handler `EventManagerController.getEventRegistrations` (lines 578-606);
`page` and `limit` are `parseInt(req.query.page)` and `parseInt(req.query.limit)`. -/
def getEventRegistrations (db : Db) (models : ReadModels) (eventId managerId : Nat)
    (registration_status payment_status : Option String) (page limit : Option Int) :
    Outcome JsValue × List ReadCall :=
  match findById db eventId with
  | none => (.errorResponse "Event not found" 404, [])
  | some event =>
    if event.created_by_manager_id ≠ managerId then
      (.errorResponse "Unauthorized access to this event" 403, [])
    else
      (.successResponse
        (models.eventRegistrations eventId registration_status payment_status
          (parseIntOr page 1) (parseIntOr limit 50)) "",
        [.model "EventRegistrationModel.getEventRegistrations" eventId])

/-! ## JavaScript numbers -/

/-- The integer nearest to `q`, a tie going to the even one. -/
def roundHalfEven (q : ℚ) : ℤ :=
  if q - ⌊q⌋ < 1 / 2 then ⌊q⌋
  else if 1 / 2 < q - ⌊q⌋ then ⌊q⌋ + 1
  else if ⌊q⌋ % 2 = 0 then ⌊q⌋ else ⌊q⌋ + 1

/-- The double nearest to the real number `x` (the Number value for `x` of
ECMAScript): with `2 ^ e <= |x| < 2 ^ (e + 1)`, the multiple of `2 ^ (e - 52)`
nearest to `x`, a tie going to the even multiple. The exponent `e` is not
bounded: this is binary64 on the range of its normal numbers, from `2 ^ (-1022)`
up to `2 ^ 1024`, which milliseconds, minutes, hours and counts do not leave. -/
def roundDouble (x : ℚ) : ℚ :=
  if x = 0 then 0
  else (roundHalfEven (x / 2 ^ (Int.log 2 |x| - 52)) : ℚ) * 2 ^ (Int.log 2 |x| - 52)

/-- The unit roundoff of doubles: the relative error of one rounding is at most
`2 ^ (-53)`. -/
def unitRoundoff : ℚ := 2 ^ (-53 : ℤ)

/-- The decimal that `x.toFixed(2)` prints for a double `x`: the multiple of
1/100 nearest to the exact value of `x`; `toFixed` rounds the absolute value and
picks the larger candidate on a tie. -/
def toFixed2 (x : ℚ) : ℚ :=
  if x < 0 then -(((⌊(-x) * 100 + 1 / 2⌋ : ℤ) : ℚ) / 100)
  else ((⌊x * 100 + 1 / 2⌋ : ℤ) : ℚ) / 100

/-- JavaScript `parseFloat` on the decimal a string holds: the double nearest to
it. -/
def parseFloat (x : ℚ) : ℚ :=
  roundDouble x

/-- JavaScript `a / b` on doubles: the exact quotient rounded to a double; not a
finite number when `b` is `0`. -/
def jsDiv (a b : ℚ) : Option ℚ :=
  if b = 0 then none else some (roundDouble (a / b))

/-- SQL `MIN`: `NULL` over no rows. -/
def sqlMin (xs : List Int) : Option Int :=
  match xs with
  | [] => none
  | x :: rest => some (rest.foldl min x)

/-- SQL `MAX`: `NULL` over no rows. -/
def sqlMax (xs : List Int) : Option Int :=
  match xs with
  | [] => none
  | x :: rest => some (rest.foldl max x)

/-! ## The analytics report (admin.controller.js, lines 1037-1234, and its copy
eventManager.controller.js, lines 756-953) -/

/-- One row of the join of `volunteersQuery`: `volunteers v JOIN event_volunteers
ev ON v.id = ev.volunteer_id LEFT JOIN check_in_out cio ON v.id =
cio.scanned_by_volunteer_id AND cio.event_id = $1`. -/
structure VolunteerJoinRow where
  v : Volunteer
  ev : EventVolunteer
  cio : Option Scan
  deriving DecidableEq

/-- The `FROM` and `WHERE` clauses of `volunteersQuery`. -/
def volunteersJoin (db : Db) (eventId : Nat) : List VolunteerJoinRow :=
  (db.volunteers.flatMap fun v =>
    (db.event_volunteers.filter fun ev => v.id == ev.volunteer_id).flatMap fun ev =>
      (leftJoinMatches (db.check_in_out.filter fun cio =>
          cio.scanned_by_volunteer_id == some v.id && cio.event_id == eventId)).map fun cio =>
        ({ v := v, ev := ev, cio := cio } : VolunteerJoinRow)).filter
    fun row => row.ev.event_id == eventId

/-- The rows of the group `GROUP BY v.id` of one volunteer id. -/
def volunteerGroup (db : Db) (eventId volunteerId : Nat) : List VolunteerJoinRow :=
  (volunteersJoin db eventId).filter fun row => row.v.id == volunteerId

/-- One row of `volunteersQuery`. -/
structure VolunteerRow where
  id : Nat
  volunteer_name : String
  email : String
  phone : String
  total_scans : Int
  total_checkins : Int
  total_checkouts : Int
  first_scan_time : Option Int
  last_scan_time : Option Int
  deriving DecidableEq

/-- The scans joined to one group, one per joined row. -/
def groupScans (rows : List VolunteerJoinRow) : List Scan :=
  rows.filterMap fun row => row.cio

/-- The select list of `volunteersQuery` for the group of `first :: rest`; the
columns of `v` are those of the group's volunteer. -/
def volunteerAggregate (first : VolunteerJoinRow) (rest : List VolunteerJoinRow) :
    VolunteerRow :=
  let scans := groupScans (first :: rest)
  { id := first.v.id
    volunteer_name := first.v.volunteer_name
    email := first.v.email
    phone := first.v.phone
    total_scans := ((scans.map Scan.id).dedup.length : Int)
    total_checkins :=
      ((((scans.filter fun c => c.check_type == "CHECK_IN").map Scan.id).dedup.length : Nat) : Int)
    total_checkouts :=
      ((((scans.filter fun c => c.check_type == "CHECK_OUT").map Scan.id).dedup.length : Nat) : Int)
    first_scan_time := sqlMin (scans.map Scan.check_time)
    last_scan_time := sqlMax (scans.map Scan.check_time) }

/-- Row order of `ORDER BY total_scans DESC`. -/
def volunteerBefore (a b : VolunteerRow) : Prop := b.total_scans ≤ a.total_scans

instance : DecidableRel volunteerBefore := fun a b => by
  unfold volunteerBefore; infer_instance

/-- The result of `volunteersQuery`. -/
def volunteersQuery (db : Db) (eventId : Nat) : List VolunteerRow :=
  (((volunteersJoin db eventId).map fun row => row.v.id).dedup.filterMap fun volunteerId =>
    match volunteerGroup db eventId volunteerId with
    | [] => none
    | first :: rest => some (volunteerAggregate first rest)).insertionSort volunteerBefore

/-- One element of `volunteers` in the report. -/
structure VolunteerEntry where
  volunteer_id : Nat
  volunteer_name : String
  email : String
  phone : String
  total_scans : Int
  total_checkins : Int
  total_checkouts : Int
  active_hours : ℚ
  average_scans_per_hour : Option ℚ
  first_scan_time : Option Int
  last_scan_time : Option Int
  deriving DecidableEq

/-- The values of `activeHours` and `averageScansPerHour` after lines 1175-1184,
in double arithmetic: `lastScanTime - firstScanTime`, the division by `1000 * 60
* 60` and the division `totalScans / activeHours` each round to a double, and
`parseFloat(x.toFixed(2))` prints the double with two decimals and reads the
decimal back. `totalScans` is a count of rows, which a double holds exactly. -/
def volunteerActivity (totalScans : Int) (firstScanTime lastScanTime : Option Int) :
    ℚ × Option ℚ :=
  match firstScanTime, lastScanTime with
  | some first, some last =>
    if 0 < totalScans then
      let diffMs : ℚ := roundDouble ((last - first : Int) : ℚ)
      let activeHours := parseFloat (toFixed2 (roundDouble (diffMs / (1000 * 60 * 60))))
      if 0 < activeHours then
        (activeHours,
          (jsDiv (totalScans : ℚ) activeHours).map fun perHour => parseFloat (toFixed2 perHour))
      else (activeHours, some 0)
    else (0, some 0)
  | _, _ => (0, some 0)

/-- The callback of `volunteersResult.map(vol => ...)` (lines 1170-1199). -/
def toVolunteerEntry (vol : VolunteerRow) : VolunteerEntry :=
  let totalScans := parseIntOr (some vol.total_scans) 0
  let firstScanTime := vol.first_scan_time
  let lastScanTime := vol.last_scan_time
  let activity := volunteerActivity totalScans firstScanTime lastScanTime
  { volunteer_id := vol.id
    volunteer_name := vol.volunteer_name
    email := vol.email
    phone := vol.phone
    total_scans := totalScans
    total_checkins := parseIntOr (some vol.total_checkins) 0
    total_checkouts := parseIntOr (some vol.total_checkouts) 0
    active_hours := activity.1
    average_scans_per_hour := activity.2
    first_scan_time := firstScanTime
    last_scan_time := lastScanTime }

/-- Object `check_in_out` of the report. -/
structure ScanCounts where
  total_scans : Int
  total_checkins : Int
  total_checkouts : Int
  deriving DecidableEq

/-- The statement `checkInOutQuery` with the mapping of lines 1211-1215. -/
def checkInOutCounts (db : Db) (eventId : Nat) : ScanCounts :=
  let scans := db.check_in_out.filter fun c => c.event_id == eventId
  { total_scans := parseIntOr (some (scans.length : Int)) 0
    total_checkins :=
      parseIntOr (some ((scans.filter fun c => c.check_type == "CHECK_IN").length : Int)) 0
    total_checkouts :=
      parseIntOr (some ((scans.filter fun c => c.check_type == "CHECK_OUT").length : Int)) 0 }

/-- Object `registrations` of the report. -/
structure RegistrationCounts where
  total : Int
  paid : Int
  attended : Int
  deriving DecidableEq

/-- The statement `registrationsQuery` with the mapping of lines 1046-1050. -/
def registrationCounts (db : Db) (eventId : Nat) : RegistrationCounts :=
  let rows := db.event_registrations.filter fun reg => reg.event_id == eventId
  { total := parseIntOr (some (rows.length : Int)) 0
    paid :=
      parseIntOr (sqlSum (rows.map fun reg =>
        if reg.payment_status = some "COMPLETED" then 1 else 0)) 0
    attended :=
      parseIntOr (sqlSum (rows.map fun reg =>
        if reg.attendance_status = some "PRESENT" then 1 else 0)) 0 }

/-- The statement `revenueQuery`, `COALESCE(SUM(amount_paid), 0)` over the
completed registrations of the event, with `parseFloat(...) || 0`. -/
def revenueOf (db : Db) (eventId : Nat) : ℚ :=
  parseFloat ((db.event_registrations.filter fun reg =>
      reg.event_id == eventId && reg.payment_status == some "COMPLETED").filterMap
    fun reg => reg.amount_paid).sum

/-- SQL `ROUND(x, 2)` on a numeric: the multiple of 1/100 nearest to `x`, a tie
going away from zero. -/
def sqlRound2 (x : ℚ) : ℚ :=
  if x < 0 then -(((⌊(-x) * 100 + 1 / 2⌋ : ℤ) : ℚ) / 100)
  else ((⌊x * 100 + 1 / 2⌋ : ℤ) : ℚ) / 100

/-- SQL `ROUND(AVG(x), 2)` with `parseFloat(...) || 0`: `NULL` over no value
becomes 0. -/
def roundedAverage (ratings : List Int) : ℚ :=
  match ratings with
  | [] => 0
  | _ :: _ => parseFloat (sqlRound2 (((ratings.sum : Int) : ℚ) / (ratings.length : ℚ)))

/-- Object `rating_distribution` of the report. -/
structure RatingDistribution where
  rating_5 : Int
  rating_4 : Int
  rating_3 : Int
  rating_2 : Int
  rating_1 : Int
  deriving DecidableEq

/-- The five columns `COUNT(CASE WHEN overall_rating = k THEN 1 END)` over the
given ratings, one per joined row, with `parseInt(...) || 0`. -/
def ratingDistribution (ratings : List (Option Int)) : RatingDistribution :=
  let count := fun (k : Int) =>
    parseIntOr (some ((ratings.filter fun x => x == some k).length : Int)) 0
  { rating_5 := count 5, rating_4 := count 4, rating_3 := count 3, rating_2 := count 2,
    rating_1 := count 1 }

/-- Object `feedback` of the report. -/
structure FeedbackStats where
  total_feedbacks : Int
  average_rating : ℚ
  rating_distribution : RatingDistribution
  deriving DecidableEq

/-- The statement `feedbackQuery` with the mapping of lines 1075-1085. -/
def feedbackStats (db : Db) (eventId : Nat) : FeedbackStats :=
  let rows := db.feedbacks.filter fun f => f.event_id == eventId
  { total_feedbacks := parseIntOr (some (rows.length : Int)) 0
    average_rating := roundedAverage (rows.filterMap fun f => f.overall_rating)
    rating_distribution := ratingDistribution (rows.map fun f => f.overall_rating) }

/-- One row of the join of `rankingsQuery`: `rankings r JOIN stalls s ON
r.stall_id = s.id LEFT JOIN schools sc ON s.school_id = sc.id`. -/
structure RankedStallRow where
  r : Ranking
  s : Stall
  sc : Option School
  deriving DecidableEq

/-- The rows one ranking row contributes to the join of `rankingsQuery`. -/
def rankedStallRowsOf (db : Db) (r : Ranking) : List RankedStallRow :=
  (db.stalls.filter fun s => r.stall_id == s.id).flatMap fun s =>
    (leftJoinMatches (db.schools.filter fun sc => s.school_id == some sc.id)).map fun sc =>
      ({ r := r, s := s, sc := sc } : RankedStallRow)

/-- The `FROM` and `WHERE` clauses of `rankingsQuery` (`WHERE r.event_id = $1`). -/
def rankingsJoin (db : Db) (eventId : Nat) : List RankedStallRow :=
  (db.rankings.flatMap (rankedStallRowsOf db)).filter fun row => row.r.event_id == eventId

/-- Row order of `ORDER BY r.rank ASC`. -/
def rankBefore (a b : RankedStallRow) : Prop := a.r.rank ≤ b.r.rank

instance : DecidableRel rankBefore := fun a b => by
  unfold rankBefore; infer_instance

/-- The result of `rankingsQuery`: `ORDER BY r.rank ASC LIMIT 10`. -/
def rankingsQuery (db : Db) (eventId : Nat) : List RankedStallRow :=
  ((rankingsJoin db eventId).insertionSort rankBefore).take 10

/-- One element of `top_stalls` in the report. -/
structure RankedStallEntry where
  stall_id : Nat
  stall_name : String
  stall_number : Nat
  stall_image : Option String
  school_name : Option String
  rank : Int
  total_votes : Int
  percentage : ℚ
  deriving DecidableEq

/-- The callback of `rankingsResult.map(r => ...)` (lines 1100-1109). -/
def toRankedStallEntry (row : RankedStallRow) : RankedStallEntry :=
  { stall_id := row.r.stall_id
    stall_name := row.s.stall_name
    stall_number := row.s.stall_number
    stall_image := row.s.image_url
    school_name := row.sc.map School.school_name
    rank := row.r.rank
    total_votes := parseIntOr row.r.total_votes 0
    percentage := (row.r.percentage.map parseFloat).getD 0 }

/-- One row of the join of `stallsQuery`: `stalls s LEFT JOIN schools sc LEFT JOIN
feedbacks f ON s.id = f.stall_id LEFT JOIN rankings r ON s.id = r.stall_id AND
r.event_id = $1`. -/
structure StallStatsJoinRow where
  s : Stall
  sc : Option School
  f : Option Feedback
  r : Option Ranking
  deriving DecidableEq

/-- The `FROM` and `WHERE` clauses of `stallsQuery` (`WHERE s.event_id = $1 AND
s.is_active = true`). -/
def stallStatsJoin (db : Db) (eventId : Nat) : List StallStatsJoinRow :=
  (db.stalls.flatMap fun s =>
    (leftJoinMatches (db.schools.filter fun sc => s.school_id == some sc.id)).flatMap fun sc =>
      (leftJoinMatches (db.feedbacks.filter fun f => s.id == f.stall_id)).flatMap fun f =>
        (leftJoinMatches (db.rankings.filter fun r =>
            s.id == r.stall_id && r.event_id == eventId)).map fun r =>
          ({ s := s, sc := sc, f := f, r := r } : StallStatsJoinRow)).filter
    fun row => row.s.event_id == eventId && row.s.is_active

/-- The key of `GROUP BY s.id, sc.school_name, r.rank, r.total_votes`. -/
def stallStatsKey (row : StallStatsJoinRow) : Nat × Option String × Option Int × Option Int :=
  (row.s.id, row.sc.map School.school_name, row.r.map Ranking.rank,
    row.r.bind Ranking.total_votes)

/-- One row of `stallsQuery`. -/
structure StallStatsRow where
  id : Nat
  stall_name : String
  stall_number : Nat
  image_url : Option String
  school_name : Option String
  total_feedbacks : Int
  average_rating : ℚ
  rating_distribution : RatingDistribution
  ranking_position : Option Int
  ranking_votes : Option Int
  deriving DecidableEq

/-- The select list of `stallsQuery` for the group of `first :: rest`; the
columns of `s` are those of the group's stall. `average_rating` and the rating
counts are already passed through `parseFloat(...) || 0` and `parseInt(...) || 0`. -/
def stallStatsAggregate (first : StallStatsJoinRow) (rest : List StallStatsJoinRow) :
    StallStatsRow :=
  let rows := first :: rest
  { id := first.s.id
    stall_name := first.s.stall_name
    stall_number := first.s.stall_number
    image_url := first.s.image_url
    school_name := first.sc.map School.school_name
    total_feedbacks := (((rows.filterMap fun row => row.f.map Feedback.id).dedup.length : Nat) : Int)
    average_rating := roundedAverage (rows.filterMap fun row => row.f.bind Feedback.overall_rating)
    rating_distribution := ratingDistribution (rows.map fun row => row.f.bind Feedback.overall_rating)
    ranking_position := first.r.map Ranking.rank
    ranking_votes := first.r.bind Ranking.total_votes }

/-- Row order of `ORDER BY s.stall_number ASC`. -/
def stallNumberBefore (a b : StallStatsRow) : Prop := a.stall_number ≤ b.stall_number

instance : DecidableRel stallNumberBefore := fun a b => by
  unfold stallNumberBefore; infer_instance

/-- The result of `stallsQuery`. -/
def stallsQuery (db : Db) (eventId : Nat) : List StallStatsRow :=
  (((stallStatsJoin db eventId).map stallStatsKey).dedup.filterMap fun key =>
    match (stallStatsJoin db eventId).filter fun row => stallStatsKey row == key with
    | [] => none
    | first :: rest => some (stallStatsAggregate first rest)).insertionSort stallNumberBefore

/-- One element of `stalls` in the report. -/
structure StallStatsEntry where
  stall_id : Nat
  stall_name : String
  stall_number : Nat
  stall_image : Option String
  school_name : Option String
  total_feedbacks : Int
  average_rating : ℚ
  rating_distribution : RatingDistribution
  ranking_position : Option Int
  ranking_votes : Int
  deriving DecidableEq

/-- The callback of `stallsResult.map(st => ...)` (lines 1134-1151);
`st.ranking_position || null` turns `0` into `null`. -/
def toStallStatsEntry (st : StallStatsRow) : StallStatsEntry :=
  { stall_id := st.id
    stall_name := st.stall_name
    stall_number := st.stall_number
    stall_image := st.image_url
    school_name := st.school_name
    total_feedbacks := parseIntOr (some st.total_feedbacks) 0
    average_rating := st.average_rating
    rating_distribution := st.rating_distribution
    ranking_position := if st.ranking_position = some 0 then none else st.ranking_position
    ranking_votes := parseIntOr st.ranking_votes 0 }

/-- Object `event` of the summary the first definition of the manager's
`getEventAnalytics` answers with (lines 634-639). -/
structure ReportEvent where
  id : Nat
  event_name : String
  event_code : String
  status : String
  deriving DecidableEq

/-- Object `event` of the analytics report (lines 1218-1226). -/
structure AnalyticsEvent where
  id : Nat
  event_name : String
  event_code : String
  event_type : String
  status : String
  start_date : Option Int
  end_date : Option Int
  deriving DecidableEq

/-- The analytics report (lines 1217-1234). -/
structure AnalyticsReport where
  event : AnalyticsEvent
  registrations : RegistrationCounts
  revenue : ℚ
  feedback : FeedbackStats
  top_stalls : List RankedStallEntry
  stalls : List StallStatsEntry
  volunteers : List VolunteerEntry
  check_in_out : ScanCounts
  deriving DecidableEq

/-- The statements the report issues, in source order. -/
def analyticsReads (eventId : Nat) : List ReadCall :=
  [ .select "registrationsQuery" eventId, .select "revenueQuery" eventId,
    .select "feedbackQuery" eventId, .select "rankingsQuery" eventId,
    .select "stallsQuery" eventId, .select "volunteersQuery" eventId,
    .select "checkInOutQuery" eventId ]

/-- The report built after the status gate; the text is the same in both
controllers up to the name of the identifier variable. -/
def analyticsReport (db : Db) (event : Event) (eventId : Nat) : AnalyticsReport :=
  { event :=
      { id := event.id, event_name := event.event_name, event_code := event.event_code,
        event_type := event.event_type, status := event.status,
        start_date := event.start_date, end_date := event.end_date }
    registrations := registrationCounts db eventId
    revenue := revenueOf db eventId
    feedback := feedbackStats db eventId
    top_stalls := (rankingsQuery db eventId).map toRankedStallEntry
    stalls := (stallsQuery db eventId).map toStallStatsEntry
    volunteers := (volunteersQuery db eventId).map toVolunteerEntry
    check_in_out := checkInOutCounts db eventId }

/-- The status gate of both analytics handlers: `event.status !== 'APPROVED' &&
event.status !== 'ACTIVE' && event.status !== 'COMPLETED'`. -/
def analyticsRefused (status : String) : Bool :=
  status != "APPROVED" && status != "ACTIVE" && status != "COMPLETED"

/-- Handler `getEventAnalytics` of admin.controller.js (lines 1022-1238). -/
def getEventAnalytics (db : Db) (id : Nat) : Outcome AnalyticsReport × List ReadCall :=
  match findById db id with
  | none => (.errorResponse "Event not found" 404, [])
  | some event =>
    if analyticsRefused event.status then
      (.errorResponse "Analytics are only available for approved events" 400, [])
    else
      (.successResponse (analyticsReport db event id) "", analyticsReads id)

/-- What a definition of `EventManagerController.getEventAnalytics` answers with:
the summary of the definition at line 612 or the report of the definition at
line 736. -/
inductive ManagerAnalytics where
  | summary (event : ReportEvent) (eventStats registrations volunteers : JsValue)
      (volunteer_performance : JsValue)
  | report (data : AnalyticsReport)

/-- The type of a static method of the controller that reads one event. -/
abbrev ManagerReadHandler : Type :=
  Db → ReadModels → Nat → Nat → Outcome ManagerAnalytics × List ReadCall

/-- The first definition of `static async getEventAnalytics` (lines 612-651): no
status gate, four model calls. -/
def EventManagerController.getEventAnalyticsFirst : ManagerReadHandler :=
  fun db models eventId managerId =>
    match findById db eventId with
    | none => (.errorResponse "Event not found" 404, [])
    | some event =>
      if event.created_by_manager_id ≠ managerId then
        (.errorResponse "Unauthorized access to this event" 403, [])
      else
        (.successResponse
          (.summary
            { id := event.id, event_name := event.event_name, event_code := event.event_code,
              status := event.status }
            (models.eventStats eventId) (models.registrationStats eventId)
            (models.volunteerStats eventId) (models.volunteerPerformance eventId)) "",
          [ .model "EventModel.getStats" eventId,
            .model "EventRegistrationModel.getStats" eventId,
            .model "EventVolunteerModel.getEventStats" eventId,
            .model "EventVolunteerModel.getVolunteerPerformance" eventId ])

/-- The second definition of `static async getEventAnalytics` (lines 736-958). -/
def EventManagerController.getEventAnalyticsSecond : ManagerReadHandler :=
  fun db _ eventId managerId =>
    match findById db eventId with
    | none => (.errorResponse "Event not found" 404, [])
    | some event =>
      if event.created_by_manager_id ≠ managerId then
        (.errorResponse "Unauthorized access to this event" 403, [])
      else if analyticsRefused event.status then
        (.errorResponse "Analytics are only available for approved events" 400, [])
      else
        (.successResponse (.report (analyticsReport db event eventId)) "",
          analyticsReads eventId)

/-- The member a class body binds to a name it defines more than once: class
elements are defined in source order, each definition replacing the property of
the same name, so the last one stays. -/
def lastDefinition {α : Type} (first : α) (later : List α) : α :=
  (first :: later).getLast (List.cons_ne_nil first later)

/-- The handler bound to `EventManagerController.getEventAnalytics`, which the
route `GET /events/:eventId/analytics` calls. -/
def EventManagerController.getEventAnalytics : ManagerReadHandler :=
  lastDefinition EventManagerController.getEventAnalyticsFirst
    [EventManagerController.getEventAnalyticsSecond]

/-! ## `getStats` (checkInOut.controller.js, lines 209-239) -/

/-- A record `CheckInOut.findAll()` resolves to: one visit with its check-in
time and, once the student has left, its check-out time (milliseconds). -/
structure CheckInRecord where
  student_id : Nat := 0
  stall_id : Nat := 0
  check_in_time : Int
  check_out_time : Option Int := none
  deriving DecidableEq

/-- Payload of `getStats`. -/
structure CheckInStats where
  total_check_ins : Nat
  active_check_ins : Nat
  completed_check_ins : Nat
  average_duration_minutes : Option ℚ
  deriving DecidableEq

/-- The callback of `.map(r => ...)` at lines 220-224: the double
`(checkOut - checkIn) / 1000 / 60`, the visit's length in minutes (`new
Date(null)` is the epoch). The subtraction and each division round to a double. -/
def durationMinutes (r : CheckInRecord) : ℚ :=
  let checkIn : Int := r.check_in_time
  let checkOut : Int := r.check_out_time.getD 0
  roundDouble (roundDouble (roundDouble ((checkOut - checkIn : Int) : ℚ) / 1000) / 60)

/-- The array `durations` of lines 218-224. -/
def completedDurations (records : List CheckInRecord) : List ℚ :=
  (records.filter fun r => r.check_out_time.isSome).map durationMinutes

/-- The value `avgDuration` of lines 226-228. -/
def avgDuration (durations : List ℚ) : Option ℚ :=
  if 0 < durations.length then
    jsDiv (durations.foldl (fun a b => roundDouble (a + b)) 0) (durations.length : ℚ)
  else some 0

/-- Handler `getStats`; `records` is what `CheckInOut.findAll()` resolves to. -/
def getStats (records : List CheckInRecord) : Outcome CheckInStats :=
  let totalCheckIns := records.length
  let activeCheckIns := (records.filter fun r => !r.check_out_time.isSome).length
  let completedCheckIns := (records.filter fun r => r.check_out_time.isSome).length
  let durations := completedDurations records
  .successResponse
    { total_check_ins := totalCheckIns
      active_check_ins := activeCheckIns
      completed_check_ins := completedCheckIns
      average_duration_minutes :=
        (avgDuration durations).map fun avg => parseFloat (toFixed2 avg) } ""

/-- The arithmetic mean, in minutes, of `check_out_time - check_in_time` over the
records that have a `check_out_time`, in the words of the specification; `0`
when there is no such record. -/
def meanCompletedMinutes (records : List CheckInRecord) : ℚ :=
  let completed := records.filter fun r => r.check_out_time.isSome
  if completed = [] then 0
  else
    ((completed.map fun r =>
        ((r.check_out_time.getD 0 - r.check_in_time : Int) : ℚ)).sum / 60000) /
      (completed.length : ℚ)

/-- The length of a visit in minutes as an exact number, `(check_out_time -
check_in_time) / 60000`. -/
def exactMinutes (r : CheckInRecord) : ℚ :=
  ((r.check_out_time.getD 0 - r.check_in_time : Int) : ℚ) / 60000

/-- The arithmetic mean, in minutes, of the absolute values `|check_out_time -
check_in_time|` over the records that have a `check_out_time`; `0` when there
is no such record. -/
def meanAbsCompletedMinutes (records : List CheckInRecord) : ℚ :=
  let completed := records.filter fun r => r.check_out_time.isSome
  if completed = [] then 0
  else
    ((completed.map fun r =>
        |((r.check_out_time.getD 0 - r.check_in_time : Int) : ℚ)|).sum / 60000) /
      (completed.length : ℚ)

/-- One visit of 60300 milliseconds: 1.005 minutes. -/
def oneVisit : List CheckInRecord :=
  [{ student_id := 4, stall_id := 9, check_in_time := 0, check_out_time := some 60300 }]

/-! ## Session pairing -/

/-- Modelled from the spec: the step of session pairing that a `CHECK_OUT` at
time `t` performs on the sessions seen so far (the scan handler and
models/CheckInOut.model.js are not among the sources). It closes the earliest
session that is still open and was opened strictly before `t`; `none` when
there is no such session. -/
def closeSession (t : Int) : List CheckInRecord → Option (List CheckInRecord)
  | [] => none
  | r :: rest =>
    if r.check_out_time = none ∧ r.check_in_time < t then
      some ({ r with check_out_time := some t } :: rest)
    else (closeSession t rest).map fun closed => r :: closed

/-- Modelled from the spec: one scan applied to the sessions of its (student,
stall) pair. A `CHECK_IN` opens a session; a `CHECK_OUT` closes a session when
it strictly follows an unmatched `CHECK_IN` and is ignored otherwise. -/
def applyScan (sessions : List CheckInRecord) (scan : Scan) : List CheckInRecord :=
  if scan.check_type = "CHECK_IN" then
    sessions ++ [{ student_id := scan.student_id, stall_id := scan.stall_id,
                   check_in_time := scan.check_time }]
  else if scan.check_type = "CHECK_OUT" then
    (closeSession scan.check_time sessions).getD sessions
  else sessions

/-- Modelled from the spec: the sessions of the chronologically ordered scan
stream of one (student, stall) pair (SessionReconstructor, section 4.3). -/
def reconstructSessions (scans : List Scan) : List CheckInRecord :=
  scans.foldl applyScan []

/-- The number of sessions `getStats` counts as completed. -/
def completedCount (sessions : List CheckInRecord) : Nat :=
  (sessions.filter fun r => r.check_out_time.isSome).length

/-- The scan stream `[CHECK_IN@t1, CHECK_OUT@t2, CHECK_IN@t3]` of one pair. -/
def inOutIn (t1 t2 t3 : Int) : List Scan :=
  [ { id := 1, student_id := 4, stall_id := 9, check_type := "CHECK_IN", check_time := t1 },
    { id := 2, student_id := 4, stall_id := 9, check_type := "CHECK_OUT", check_time := t2 },
    { id := 3, student_id := 4, stall_id := 9, check_type := "CHECK_IN", check_time := t3 } ]

/-- The statuses `updateEvent` refuses (line 499). -/
def updateLocked (status : String) : Prop :=
  status = "ACTIVE" ∨ status = "COMPLETED" ∨ status = "ARCHIVED"

instance (status : String) : Decidable (updateLocked status) := by
  unfold updateLocked; infer_instance

/-- The statuses that let the analytics through (lines 1033 and 752). -/
def analyticsAllowed (status : String) : Prop :=
  status = "APPROVED" ∨ status = "ACTIVE" ∨ status = "COMPLETED"

instance (status : String) : Decidable (analyticsAllowed status) := by
  unfold analyticsAllowed; infer_instance

/-- An event model whose `update` resolves to the stored row with the string
fields `event_name` and `status` of the body applied. -/
def applyBody (event : Event) (body : List (String × JsValue)) : Event :=
  body.foldl (fun e field =>
    match field with
    | ("event_name", .str v) => { e with event_name := v }
    | ("status", .str v) => { e with status := v }
    | _ => e) event

/-- The `update` of a model that stores the body on the event it finds. -/
def storingUpdate (db : Db) (eventId : Nat) (body : List (String × JsValue)) : Option Event :=
  (findById db eventId).map fun event => applyBody event body

/-- One event per status of the life cycle, all created by manager 7. -/
def statusDb : Db :=
  { events :=
      [ { id := 1, event_name := "Draft", created_by_manager_id := 7, status := "DRAFT" },
        { id := 2, event_name := "Pending", created_by_manager_id := 7,
          status := "PENDING_APPROVAL" },
        { id := 3, event_name := "Approved", created_by_manager_id := 7, status := "APPROVED" },
        { id := 4, event_name := "Active", created_by_manager_id := 7, status := "ACTIVE" },
        { id := 5, event_name := "Completed", created_by_manager_id := 7,
          status := "COMPLETED" },
        { id := 6, event_name := "Archived", created_by_manager_id := 7, status := "ARCHIVED" },
        { id := 7, event_name := "Cancelled", created_by_manager_id := 7,
          status := "CANCELLED" } ] }

/-- Read models that resolve every call to `null`. -/
def nullModels : ReadModels :=
  { eventStats := fun _ => .null
    registrationStats := fun _ => .null
    volunteerStats := fun _ => .null
    volunteerPerformance := fun _ => .null
    eventRegistrations := fun _ _ _ _ _ => .null }

/-- Two visits: one of 90 seconds that has ended and one still open. -/
def twoVisits : List CheckInRecord :=
  [ { student_id := 4, stall_id := 9, check_in_time := 0, check_out_time := some 90000 },
    { student_id := 5, stall_id := 9, check_in_time := 30000 } ]

/-- What the claims on volunteer productivity say of one `volunteers` entry: with
fewer than two scans both figures are 0; `average_scans_per_hour` is 0 whenever
`active_hours` is 0; and `average_scans_per_hour` is a finite number. -/
def VolunteerGuards (e : VolunteerEntry) : Prop :=
  (e.total_scans < 2 → e.active_hours = 0 ∧ e.average_scans_per_hour = some 0) ∧
    (e.active_hours = 0 → e.average_scans_per_hour = some 0) ∧
    e.average_scans_per_hour.isSome = true

/-- Event 3 is approved; volunteer 1 scanned twice, 90 minutes apart, volunteer 2
scanned once and volunteer 3 never. -/
def scansDb : Db :=
  { events := [{ id := 3, event_name := "Approved", created_by_manager_id := 7,
                 status := "APPROVED" }]
    volunteers := [{ id := 1 }, { id := 2 }, { id := 3 }]
    event_volunteers := [{ event_id := 3, volunteer_id := 1 }, { event_id := 3, volunteer_id := 2 },
                         { event_id := 3, volunteer_id := 3 }]
    check_in_out :=
      [ { id := 1, scanned_by_volunteer_id := some 1, event_id := 3, check_type := "CHECK_IN",
          check_time := 0 },
        { id := 2, scanned_by_volunteer_id := some 1, event_id := 3, check_type := "CHECK_OUT",
          check_time := 5400000 },
        { id := 3, scanned_by_volunteer_id := some 2, event_id := 3, check_type := "CHECK_IN",
          check_time := 60000 } ] }

/-- A store without ranking rows: the stall still carries vote counters (the
state `TRUNCATE TABLE students CASCADE` of scripts-dev/truncate-students.js
leaves behind), and a student is flagged as having completed the ranking. -/
def noRankingsDb : Db :=
  { schools := [{ id := 1, school_name := "A" }]
    students := [{ id := 1, school_id := some 1, has_completed_ranking := true }]
    stalls := [{ id := 10, stall_number := 1, school_id := some 1, rank_1_votes := 2,
                 weighted_score := 10 }]
    rankings := [] }
/-! ## `createEvent` (eventManager.controller.js, lines 167-372) -/

/-- Modelled from the spec: `EventManagerModel.findById`
(models/EventManager.model.js is not among the sources) resolves to the stored
manager with this identifier, or to `null` when there is none. -/
def EventManagerModel.findById (db : Db) (managerId : Nat) : Option EventManager :=
  db.event_managers.find? fun m => m.id == managerId

/-- Modelled from the spec: `EventModel.findByCode` (models/Event.model.js is not
among the sources) resolves to a stored event with this code, or to `null`. -/
def EventModel.findByCode (db : Db) (event_code : String) : Option Event :=
  db.events.find? fun e => e.event_code == event_code

/-- The array `required` of lines 192-195, each name with the value of
`eventData[field]`. -/
def requiredFields (eventData : EventData) : List (String × Option String) :=
  [ ("event_name", eventData.event_name), ("event_code", eventData.event_code),
    ("event_type", eventData.event_type), ("start_date", eventData.start_date),
    ("end_date", eventData.end_date),
    ("registration_start_date", eventData.registration_start_date),
    ("registration_end_date", eventData.registration_end_date) ]

/-- The loop of lines 197-203: the message for the first field that is falsy. -/
def requiredError (eventData : EventData) : Option String :=
  ((requiredFields eventData).find? fun field => !(jsTruthy field.2)).map fun field =>
    field.1 ++ " is required"

/-- The character class `[A-Z0-9_-]`. -/
def eventCodeChar (c : Char) : Bool :=
  (65 ≤ c.toNat && c.toNat ≤ 90) || (48 ≤ c.toNat && c.toNat ≤ 57) || c.toNat == 95 ||
    c.toNat == 45

/-- The test `/^[A-Z0-9_-]+$/.test(code)`. -/
def eventCodeRegexTest (code : String) : Bool :=
  !code.toList.isEmpty && code.toList.all eventCodeChar

/-- The check of lines 205-211. -/
def eventCodeError (eventData : EventData) : Option String :=
  if eventCodeRegexTest (eventData.event_code.getD "") then none
  else some "Event code must contain only uppercase letters, numbers, hyphens, and underscores"

/-- The check of lines 213-218. -/
def eventTypeError (eventData : EventData) : Option String :=
  if eventData.event_type = some "FREE" ∨ eventData.event_type = some "PAID" then none
  else some "Event type must be either FREE or PAID"

/-- The check of lines 220-233, made for `PAID` events only. -/
def priceError (eventData : EventData) : Option String :=
  if eventData.event_type = some "PAID" then
    match eventData.price with
    | none => some "Paid events must have a price greater than 0"
    | some price =>
      if price ≤ 0 then some "Paid events must have a price greater than 0"
      else if price > 100000 then some "Price cannot exceed 100,000"
      else none
  else none

/-- The time value of `new Date(eventData[field])`, `none` for `NaN`; `newDate`
is the `Date` constructor on strings. The checks reach it with the field
present. -/
def dateOf (newDate : String → Option Int) (field : Option String) : Option Int :=
  field.bind newDate

/-- The checks of lines 235-264. -/
def dateError (newDate : String → Option Int) (eventData : EventData) : Option String :=
  match dateOf newDate eventData.start_date, dateOf newDate eventData.end_date,
    dateOf newDate eventData.registration_start_date,
    dateOf newDate eventData.registration_end_date with
  | some startDate, some endDate, some regStartDate, some regEndDate =>
    if startDate ≥ endDate then some "Event start date must be before end date"
    else if regStartDate ≥ regEndDate then
      some "Registration start date must be before registration end date"
    else if regEndDate > startDate then some "Registration must close before event starts"
    else none
  | _, _, _, _ => some "Invalid date format"

/-- The check of lines 266-279. -/
def capacityError (eventData : EventData) : Option String :=
  match eventData.max_capacity with
  | none => none
  | some none => some "Max capacity must be a positive number or null for unlimited"
  | some (some capacity) =>
    if capacity < 1 then some "Max capacity must be a positive number or null for unlimited"
    else if capacity > 100000 then some "Max capacity cannot exceed 100,000"
    else none

/-- The validation of lines 191-279 in source order: the `msg` of the first
check that fails, or `none` when the payload passes them all and the handler
goes on to look the event code up. -/
def validateEventData (newDate : String → Option Int) (eventData : EventData) : Option String :=
  match requiredError eventData with
  | some msg => some msg
  | none =>
    match eventCodeError eventData with
    | some msg => some msg
    | none =>
      match eventTypeError eventData with
      | some msg => some msg
      | none =>
        match priceError eventData with
        | some msg => some msg
        | none =>
          match dateError newDate eventData with
          | some msg => some msg
          | none => capacityError eventData

/-- The collaborators of `createEvent` that are not among the sources, each as
what the awaited call gives. -/
structure CreateCollaborators where
  /-- The time value of `new Date(s)`, `none` for `NaN` -/
  newDate : String → Option Int
  /-- Call `EventModel.create(eventData, managerId)`: the created row, or the
  message of the error it throws -/
  create : EventData → Nat → Except String Event
  /-- Call `uploadEventBanner(base64, eventId)`: the URL, `none` when it throws -/
  uploadEventBanner : String → Nat → Option String
  /-- Call `uploadEventImage(base64, eventId)`: the URL, `none` when it throws -/
  uploadEventImage : String → Nat → Option String
  /-- Call `EventModel.findById(eventId)` of line 309, after the update -/
  findCreated : Nat → Option Event

/-- The audit record of lines 312-328 and 346-360; `images` holds the entries
`has_banner` and `has_image` of the first. -/
def createAudit (event : Event) (managerId : Nat) (images : List (String × JsValue)) : Effect :=
  .auditEvent "EVENT_CREATED" managerId "EVENT_MANAGER" "EVENT" event.id
    ([ ("event_name", .str event.event_name), ("event_code", .str event.event_code),
       ("event_type", .str event.event_type), ("status", .str event.status) ] ++ images)

/-- The answer of the inner `catch` (line 338). -/
def uploadFailed : Outcome Event :=
  .errorResponse "Failed to upload event images. Please try again." 500

/-- Lines 303-335: the update with the image URLs, the second look-up, the audit
record and the answer. `EventModel.update` and the audit sink are taken to answer
without throwing; reading `event.id` of `null` throws inside the inner `try`. -/
def finishWithImages (c : CreateCollaborators) (managerId eventId : Nat) (bannerUrl : String)
    (imageUrl : Option String) (calls : List Effect) : Outcome Event × List Effect :=
  let update := Effect.eventUpdate eventId
    [ ("banner_image_url", .str bannerUrl),
      ("image_url", match imageUrl with | some url => .str url | none => .null) ]
  match c.findCreated eventId with
  | none => (uploadFailed, calls ++ [update])
  | some event =>
    (.successResponseWith event "Event created successfully with images. Status: DRAFT" 201,
      calls ++ [update, createAudit event managerId
        [ ("has_banner", .bool (jsTruthy (some bannerUrl))),
          ("has_image", .bool (jsTruthy imageUrl)) ]])

/-- The branch of lines 288-340, taken when `banner_image_base64` is truthy: the
event is created first, then the images are uploaded; every throw inside ends in
the inner `catch`. -/
def createWithImages (c : CreateCollaborators) (managerId : Nat) (eventData : EventData) :
    Outcome Event × List Effect :=
  let tempData := { eventData with banner_image_url := none, image_url := none }
  let created := [Effect.eventCreate tempData managerId]
  match c.create tempData managerId with
  | .error _ => (uploadFailed, created)
  | .ok tempEvent =>
    let eventId := tempEvent.id
    let banner := eventData.banner_image_base64.getD ""
    let uploaded := created ++ [Effect.uploadEventBanner banner eventId]
    match c.uploadEventBanner banner eventId with
    | none => (uploadFailed, uploaded)
    | some bannerUrl =>
      if jsTruthy eventData.image_base64 then
        let image := eventData.image_base64.getD ""
        match c.uploadEventImage image eventId with
        | none => (uploadFailed, uploaded ++ [Effect.uploadEventImage image eventId])
        | some imageUrl =>
          finishWithImages c managerId eventId bannerUrl (some imageUrl)
            (uploaded ++ [Effect.uploadEventImage image eventId])
      else finishWithImages c managerId eventId bannerUrl eventData.image_url uploaded

/-- Handler `EventManagerController.createEvent`, with `managerId = req.user.id`
and `eventData = req.body`. Reading `manager.is_approved_by_admin` of `null`
throws, which the outer `catch` answers with status 500, as it does a throw of
`EventModel.create` in the branch without images. -/
def createEvent (db : Db) (c : CreateCollaborators) (managerId : Nat) (eventData : EventData) :
    Outcome Event × List Effect :=
  match EventManagerModel.findById db managerId with
  | none =>
    (.errorResponse "Cannot read properties of null (reading 'is_approved_by_admin')" 500, [])
  | some manager =>
    if !manager.is_approved_by_admin then
      (.errorResponse "Your account is not approved by admin. You cannot create events yet." 403,
        [])
    else if !manager.is_active then
      (.errorResponse "Your account is deactivated. Contact admin to reactivate." 403, [])
    else
      match validateEventData c.newDate eventData with
      | some msg => (.validationErrorResponse [msg], [])
      | none =>
        if (EventModel.findByCode db (eventData.event_code.getD "")).isSome then
          (.errorResponse "Event code already exists" 400, [])
        else if jsTruthy eventData.banner_image_base64 then
          createWithImages c managerId eventData
        else
          let calls := [Effect.eventCreate eventData managerId]
          match c.create eventData managerId with
          | .error message => (.errorResponse message 500, calls)
          | .ok event =>
            (.successResponseWith event "Event created successfully. Status: DRAFT" 201,
              calls ++ [createAudit event managerId []])

/-- The calls of a trace that create an event. -/
def eventCreations (calls : List Effect) : List Effect :=
  calls.filter fun call =>
    match call with
    | .eventCreate _ _ => true
    | _ => false

/-- The calls of a trace that remove an event. -/
def eventDeletions (calls : List Effect) : List Effect :=
  calls.filter fun call =>
    match call with
    | .eventDelete _ => true
    | _ => false

/-- What the invariant on dates asks of a payload: the four dates parse,
`start_date < end_date`, `registration_start_date < registration_end_date` and
`registration_end_date <= start_date`. -/
def DatesValid (newDate : String → Option Int) (eventData : EventData) : Prop :=
  ∃ startDate endDate regStartDate regEndDate : Int,
    dateOf newDate eventData.start_date = some startDate ∧
    dateOf newDate eventData.end_date = some endDate ∧
    dateOf newDate eventData.registration_start_date = some regStartDate ∧
    dateOf newDate eventData.registration_end_date = some regEndDate ∧
    startDate < endDate ∧ regStartDate < regEndDate ∧ regEndDate ≤ startDate

/-- A `Date` constructor for the examples: the time value of four ISO dates,
`NaN` for every other string. -/
def sampleDate (s : String) : Option Int :=
  [ ("2025-03-01", (1740787200000 : Int)), ("2025-03-10", 1741564800000),
    ("2025-04-01", 1743465600000), ("2025-04-02", 1743552000000) ].lookup s

/-- A free event that registers from 1 to 10 March 2025 and runs on 1 April. -/
def freeExpo : EventData :=
  { event_name := some "Expo", event_code := some "EXPO-25", event_type := some "FREE",
    start_date := some "2025-04-01", end_date := some "2025-04-02",
    registration_start_date := some "2025-03-01", registration_end_date := some "2025-03-10" }

/-- Manager 7, approved and active, and no event yet. -/
def oneManagerDb : Db :=
  { event_managers := [{ id := 7, full_name := "Asha", email := "asha@sgtu.in" }] }

/-- The row the sample model stores for a payload. -/
def storedEvent (eventData : EventData) (managerId : Nat) : Event :=
  { id := 1, event_name := eventData.event_name.getD "", event_code := eventData.event_code.getD "",
    event_type := eventData.event_type.getD "", created_by_manager_id := managerId,
    status := "DRAFT", banner_image_url := eventData.banner_image_url }

/-- Collaborators for the examples: the model stores the event, the image host
is down, so every upload throws. -/
def uploadsDown : CreateCollaborators :=
  { newDate := sampleDate
    create := fun eventData managerId => .ok (storedEvent eventData managerId)
    uploadEventBanner := fun _ _ => none
    uploadEventImage := fun _ _ => none
    findCreated := fun _ => none }
/-- The payload of `freeExpo` with registration open until the second day of the
event. -/
def lateRegistration : EventData :=
  { freeExpo with registration_end_date := some "2025-04-02" }
/-- The invariant on prices, read off a payload: the price is greater than 0 if
and only if the type is `PAID`. -/
def PriceMatchesType (eventData : EventData) : Prop :=
  (∃ price, eventData.price = some price ∧ 0 < price) ↔ eventData.event_type = some "PAID"

/-- The free expo sent with a price of 500. -/
def pricedFreeExpo : EventData :=
  { freeExpo with price := some 500 }

/-- The expo as a paid event at 250. -/
def paidExpo : EventData :=
  { freeExpo with event_type := some "PAID", price := some 250 }

/-- The free expo sent with a banner image. -/
def bannerExpo : EventData :=
  { freeExpo with banner_image_base64 := some "iVBORw0KGgo=" }
/-! ## `deleteEventManager` (admin.controller.js, lines 590-627) -/

/-- Query `SELECT COUNT(*) as count FROM events WHERE created_by_manager_id = $1
AND status = 'ACTIVE'`. -/
def activeEventCount (db : Db) (id : Nat) : Nat :=
  (db.events.filter fun e => e.created_by_manager_id == id && e.status == "ACTIVE").length

/-- Statement `DELETE FROM event_managers WHERE id = $1 RETURNING id`: the rows
it returns and the store it leaves. The statement is taken to succeed; the
schema, which could let a foreign key refuse it, is not among the sources. -/
def deleteManagerRows (db : Db) (id : Nat) : List Nat × Db :=
  (((db.event_managers.filter fun m => m.id == id).map fun m => m.id),
    { db with event_managers := db.event_managers.filter fun m => !(m.id == id) })

/-- Payload of `deleteEventManager`. -/
structure DeletedManager where
  deleted_id : Nat
  deriving DecidableEq

/-- Handler `deleteEventManager`, with `id = req.params.id`: the answer and the
store after the request. -/
def deleteEventManager (db : Db) (id : Nat) : Outcome DeletedManager × Db :=
  if parseIntOr (some (activeEventCount db id : Int)) 0 > 0 then
    (.errorResponse
      "Cannot delete event manager with active events. Please deactivate or reassign events first."
      400, db)
  else
    let result := deleteManagerRows db id
    if result.1.length = 0 then (.errorResponse "Event manager not found" 404, result.2)
    else (.successResponse { deleted_id := id } "Event manager deleted successfully", result.2)

/-- Managers 7 and 8; manager 7 runs an active event, manager 8 a draft. -/
def managersDb : Db :=
  { event_managers := [{ id := 7, full_name := "Asha" }, { id := 8, full_name := "Ravi" }]
    events := [ { id := 1, created_by_manager_id := 7, status := "ACTIVE" },
                { id := 2, created_by_manager_id := 8, status := "DRAFT" } ] }
/-! ## `createEventManager` (admin.controller.js, lines 381-462) -/

/-- The replacement `.replace(/<[^>]*>/g, '')` on the characters of a string,
read from left to right. `pending` holds, newest first, the characters read
since a `<` whose `>` has not been met yet: a `>` drops them as one match, the
end of the string gives them back, as no match starts there. -/
def stripFrom (pending : Option (List Char)) : List Char → List Char
  | [] =>
    match pending with
    | none => []
    | some p => p.reverse
  | c :: rest =>
    match pending with
    | none => if c = '<' then stripFrom (some [c]) rest else c :: stripFrom none rest
    | some p => if c = '>' then stripFrom none rest else stripFrom (some (c :: p)) rest

/-- Expression `s.replace(/<[^>]*>/g, '')`. -/
def stripTags (s : String) : String :=
  String.mk (stripFrom none s.toList)

/-- Expression `s.trim().replace(/<[^>]*>/g, '')` of lines 392 and 399. -/
def sanitize (s : String) : String :=
  stripTags (jsTrim s)

/-- Whether some `<` of the characters is followed, anywhere later, by a `>`. -/
def hasTag : List Char → Bool
  | [] => false
  | c :: rest => (c == '<' && rest.contains '>') || hasTag rest

/-- The test `/^\d{10}$/.test(phone)`. -/
def phoneRegexTest (phone : String) : Bool :=
  phone.toList.length == 10 && phone.toList.all fun c => 48 ≤ c.toNat && c.toNat ≤ 57

/-- The character class `[^\s@]`. -/
def emailChar (c : Char) : Bool :=
  !(jsIsWhiteSpace c) && c != '@'

/-- The test `/^[^\s@]+@[^\s@]+\.[^\s@]+$/.test(email)`: one `@` and no white
space, a local part that is not empty, and a dot inside the rest with a
character before and after it. -/
def emailRegexTest (email : String) : Bool :=
  match email.toList.splitOn '@' with
  | [name, domain] =>
    name.all emailChar && !name.isEmpty && domain.all emailChar &&
      (domain.drop 1).dropLast.contains '.'
  | _ => false

/-- The character class of line 423, by code point: the characters
`!@#$%^&*()_+-=[]{};` and the quotes, colon, backslash, bar, comma, dot, angle
brackets, slash and question mark. -/
def specialChar (c : Char) : Bool :=
  [33, 64, 35, 36, 37, 94, 38, 42, 40, 41, 95, 43, 45, 61, 91, 93, 123, 125, 59, 39, 58, 34,
    92, 124, 44, 46, 60, 62, 47, 63].contains c.toNat

/-- The complexity condition of lines 420-425. -/
def passwordComplex (password : String) : Bool :=
  (password.toList.any fun c => 65 ≤ c.toNat && c.toNat ≤ 90) &&
    (password.toList.any fun c => 97 ≤ c.toNat && c.toNat ≤ 122) &&
    (password.toList.any fun c => 48 ≤ c.toNat && c.toNat ≤ 57) &&
    password.toList.any specialChar

/-- The body of `POST /api/admin/event-managers`; a field is `none` when it is
absent or `null`. -/
structure ManagerBody where
  full_name : Option String := none
  email : Option String := none
  password : Option String := none
  phone : Option String := none
  organization : Option String := none
  deriving DecidableEq

/-- Expression `organization || null` after the sanitisation of lines 398-400. -/
def sanitizedOrganization (organization : Option String) : Option String :=
  match organization with
  | none => none
  | some o =>
    if jsTruthy (some o) then
      if jsTruthy (some (sanitize o)) then some (sanitize o) else none
    else none

/-- Handler `createEventManager`, with `adminId = req.user.id`: the answer and
the store after the request. `hash` stands for `bcrypt.hash(password, 10)` and
`newId` for the identifier the sequence of the table hands out; the `INSERT` is
taken to succeed. The answer carries the inserted row (`RETURNING` lists its
columns without `password_hash`). -/
def createEventManager (db : Db) (hash : String → String) (newId adminId : Nat)
    (body : ManagerBody) : Outcome EventManager × Db :=
  match body.full_name, body.email, body.password, body.phone with
  | some full_name, some email, some password, some phone =>
    if !(jsTruthy (some full_name)) || !(jsTruthy (some email)) || !(jsTruthy (some password))
        || !(jsTruthy (some phone)) then
      (.errorResponse "Full name, email, password, and phone are required" 400, db)
    else
      let full_name := sanitize full_name
      if jsLength full_name = 0 then
        (.errorResponse "Full name cannot be empty or contain only HTML tags" 400, db)
      else if !(phoneRegexTest phone) then
        (.errorResponse "Phone number must be exactly 10 digits" 400, db)
      else if !(emailRegexTest email) then
        (.errorResponse "Invalid email format" 400, db)
      else if jsLength password < 8 then
        (.errorResponse "Password must be at least 8 characters long" 400, db)
      else if !(passwordComplex password) then
        (.errorResponse
          ("Password must contain at least one uppercase letter, one lowercase letter, " ++
            "one number, and one special character") 400, db)
      else if (db.event_managers.filter fun m => m.email == email).length > 0 then
        (.errorResponse "Email already registered" 400, db)
      else
        let row : EventManager :=
          { id := newId, full_name := full_name, email := email, password_hash := hash password,
            phone := phone, organization := sanitizedOrganization body.organization,
            is_approved_by_admin := true, approved_by_admin_id := some adminId,
            is_active := true }
        (.successResponseWith row "Event manager created successfully" 201,
          { db with event_managers := db.event_managers ++ [row] })
  | _, _, _, _ => (.errorResponse "Full name, email, password, and phone are required" 400, db)

/-- A hash for the examples. -/
def sampleHash (password : String) : String :=
  "$2b$10$" ++ password

/-- A body whose name carries a tag in front of a blank. -/
def taggedBody : ManagerBody :=
  { full_name := some "<b> Asha", email := some "asha@sgtu.in", password := some "Passw0rd!",
    phone := some "9876543210" }
/-- The row stored for `taggedBody` by admin 3 under the identifier 1. -/
def taggedRow : EventManager :=
  { id := 1, full_name := " Asha", email := "asha@sgtu.in", password_hash := "$2b$10$Passw0rd!",
    phone := "9876543210", approved_by_admin_id := some 3 }
instance : IsTotal RankedStallRow rankBefore :=
  ⟨fun a b => by unfold rankBefore; omega⟩

instance : IsTrans RankedStallRow rankBefore :=
  ⟨fun a b c h₁ h₂ => by unfold rankBefore at *; omega⟩

/-- Event 3 is approved. Student 1 ranks stall 10 first and stall 11 second,
student 2 ranks stall 12 first and stall 11 second; the stalls carry the vote
counters and the weighted scores of these four rows. -/
def rankedDb : Db :=
  { events := [{ id := 3, event_name := "Expo", created_by_manager_id := 7,
                 status := "APPROVED" }]
    students := [ { id := 1, school_id := none, has_completed_ranking := true },
                  { id := 2, school_id := none, has_completed_ranking := true } ]
    stalls := [ { id := 10, stall_number := 1, event_id := 3, rank_1_votes := 1,
                  weighted_score := 5 },
                { id := 11, stall_number := 2, event_id := 3, rank_2_votes := 2,
                  weighted_score := 6 },
                { id := 12, stall_number := 3, event_id := 3, rank_1_votes := 1,
                  weighted_score := 5 } ]
    rankings := [ { student_id := 1, stall_id := 10, rank := 1, event_id := 3 },
                  { student_id := 1, stall_id := 11, rank := 2, event_id := 3 },
                  { student_id := 2, stall_id := 12, rank := 1, event_id := 3 },
                  { student_id := 2, stall_id := 11, rank := 2, event_id := 3 } ] }

/-- Event 3 is approved; table `rankings` holds one row per stall of the event:
stall 11 is first, stall 10 second. -/
def resultsDb : Db :=
  { events := [{ id := 3, event_name := "Expo", created_by_manager_id := 7,
                 status := "APPROVED" }]
    schools := [{ id := 1, school_name := "A" }]
    stalls := [ { id := 10, stall_number := 1, event_id := 3, school_id := some 1 },
                { id := 11, stall_number := 2, event_id := 3 } ]
    rankings := [ { student_id := 0, stall_id := 10, rank := 2, event_id := 3 },
                  { student_id := 0, stall_id := 11, rank := 1, event_id := 3 } ] }

/-- The stall identifiers of the stall leaderboard of the scoring engine. -/
def leaderboardStallIds (db : Db) (reqLimit : Option Int) : List Nat :=
  match getTopStalls db reqLimit with
  | .successResponse data _ => data.top_stalls.map fun e => e.stall_id
  | _ => []

/-- The order of a stall leaderboard, read off two entries of `top_stalls` of the
report through the stalls they name: descending weighted score, then descending
`rank_1_votes`, then ascending stall number. -/
def leaderboardOrdered (db : Db) (a b : RankedStallEntry) : Prop :=
  ∀ sa ∈ db.stalls, ∀ sb ∈ db.stalls, sa.id = a.stall_id → sb.id = b.stall_id →
    keyBefore (sa.weighted_score, sa.rank_1_votes, sa.stall_number)
      (sb.weighted_score, sb.rank_1_votes, sb.stall_number)
instance (db : Db) (a b : RankedStallEntry) : Decidable (leaderboardOrdered db a b) := by
  unfold leaderboardOrdered; infer_instance

/-- The approved event of `rankedDb` and `resultsDb`. -/
def approvedExpo : Event :=
  { id := 3, event_name := "Expo", created_by_manager_id := 7, status := "APPROVED" }
/-! ## The calls of the analytics handlers

The texts of the seven statements of the report, as admin.controller.js holds
them (eventManager.controller.js holds the same texts at lines 757-928), each
run of white space written as one blank. -/

/-- The text of the constant `registrationsQuery` (lines 1038-1044). -/
def Sql.registrationsQuery : String :=
  "SELECT COUNT(*) as total, SUM(CASE WHEN payment_status = 'COMPLETED' THEN 1 " ++
    "ELSE 0 END) as paid, SUM(CASE WHEN attendance_status = 'PRESENT' THEN 1 ELSE " ++
    "0 END) as attended FROM event_registrations WHERE event_id = $1"

/-- The text of the constant `revenueQuery` (lines 1053-1057). -/
def Sql.revenueQuery : String :=
  "SELECT COALESCE(SUM(amount_paid), 0) as total_revenue FROM " ++
    "event_registrations WHERE event_id = $1 AND payment_status = 'COMPLETED'"

/-- The text of the constant `feedbackQuery` (lines 1062-1073). -/
def Sql.feedbackQuery : String :=
  "SELECT COUNT(*) as total_feedbacks, ROUND(AVG(overall_rating), 2) as " ++
    "average_rating, COUNT(CASE WHEN overall_rating = 5 THEN 1 END) as rating_5, " ++
    "COUNT(CASE WHEN overall_rating = 4 THEN 1 END) as rating_4, COUNT(CASE WHEN " ++
    "overall_rating = 3 THEN 1 END) as rating_3, COUNT(CASE WHEN overall_rating = " ++
    "2 THEN 1 END) as rating_2, COUNT(CASE WHEN overall_rating = 1 THEN 1 END) as " ++
    "rating_1 FROM feedbacks WHERE event_id = $1"

/-- The text of the constant `rankingsQuery` (lines 1088-1098). -/
def Sql.rankingsQuery : String :=
  "SELECT r.stall_id, r.rank, r.total_votes, r.percentage, s.stall_name, " ++
    "s.stall_number, s.image_url, sc.school_name FROM rankings r JOIN stalls s ON " ++
    "r.stall_id = s.id LEFT JOIN schools sc ON s.school_id = sc.id WHERE " ++
    "r.event_id = $1 ORDER BY r.rank ASC LIMIT 10"

/-- The text of the constant `stallsQuery` (lines 1112-1132). -/
def Sql.stallsQuery : String :=
  "SELECT s.id, s.stall_name, s.stall_number, s.image_url, sc.school_name, " ++
    "COUNT(DISTINCT f.id) as total_feedbacks, ROUND(AVG(f.overall_rating), 2) as " ++
    "average_rating, COUNT(CASE WHEN f.overall_rating = 5 THEN 1 END) as " ++
    "rating_5, COUNT(CASE WHEN f.overall_rating = 4 THEN 1 END) as rating_4, " ++
    "COUNT(CASE WHEN f.overall_rating = 3 THEN 1 END) as rating_3, COUNT(CASE " ++
    "WHEN f.overall_rating = 2 THEN 1 END) as rating_2, COUNT(CASE WHEN " ++
    "f.overall_rating = 1 THEN 1 END) as rating_1, r.rank as ranking_position, " ++
    "r.total_votes as ranking_votes FROM stalls s LEFT JOIN schools sc ON " ++
    "s.school_id = sc.id LEFT JOIN feedbacks f ON s.id = f.stall_id LEFT JOIN " ++
    "rankings r ON s.id = r.stall_id AND r.event_id = $1 WHERE s.event_id = $1 " ++
    "AND s.is_active = true GROUP BY s.id, sc.school_name, r.rank, r.total_votes " ++
    "ORDER BY s.stall_number ASC"

/-- The text of the constant `volunteersQuery` (lines 1154-1168). -/
def Sql.volunteersQuery : String :=
  "SELECT v.id, v.volunteer_name, v.email, v.phone, COUNT(DISTINCT cio.id) as " ++
    "total_scans, COUNT(DISTINCT CASE WHEN cio.check_type = 'CHECK_IN' THEN " ++
    "cio.id END) as total_checkins, COUNT(DISTINCT CASE WHEN cio.check_type = " ++
    "'CHECK_OUT' THEN cio.id END) as total_checkouts, MIN(cio.check_time) as " ++
    "first_scan_time, MAX(cio.check_time) as last_scan_time FROM volunteers v " ++
    "JOIN event_volunteers ev ON v.id = ev.volunteer_id LEFT JOIN check_in_out " ++
    "cio ON v.id = cio.scanned_by_volunteer_id AND cio.event_id = $1 WHERE " ++
    "ev.event_id = $1 GROUP BY v.id ORDER BY total_scans DESC"

/-- The text of the constant `checkInOutQuery` (lines 1202-1209). -/
def Sql.checkInOutQuery : String :=
  "SELECT COUNT(*) as total_scans, COUNT(CASE WHEN check_type = 'CHECK_IN' THEN " ++
    "1 END) as total_checkins, COUNT(CASE WHEN check_type = 'CHECK_OUT' THEN 1 " ++
    "END) as total_checkouts FROM check_in_out WHERE event_id = $1"

/-- The text of the statement a `select` of a trace names. -/
def statementText (statement : String) : String :=
  if statement = "registrationsQuery" then Sql.registrationsQuery
  else if statement = "revenueQuery" then Sql.revenueQuery
  else if statement = "feedbackQuery" then Sql.feedbackQuery
  else if statement = "rankingsQuery" then Sql.rankingsQuery
  else if statement = "stallsQuery" then Sql.stallsQuery
  else if statement = "volunteersQuery" then Sql.volunteersQuery
  else if statement = "checkInOutQuery" then Sql.checkInOutQuery
  else ""

/-- A call a handler awaits on a collaborator. -/
inductive Call where
  /-- Call `query(text, params)` of config/db.js: one SQL statement sent to the
  data store -/
  | query (text : String) (params : List Nat)
  /-- A read call of a model, such as `EventModel.findById(id)` -/
  | modelRead (call : String) (arg : Nat)
  /-- A call that writes: a write of a model, the audit sink, an upload -/
  | write (effect : Effect)
  deriving DecidableEq

/-- The call a read of a trace stands for. -/
def ReadCall.toCall (read : ReadCall) : Call :=
  match read with
  | .select statement eventId => .query (statementText statement) [eventId]
  | .model call eventId => .modelRead call eventId

/-- The calls the admin `getEventAnalytics` awaits, in order: the look-up of line
1027 and the statements issued after the status gate. -/
def getEventAnalyticsCalls (db : Db) (id : Nat) : List Call :=
  .modelRead "EventModel.findById" id :: (getEventAnalytics db id).2.map ReadCall.toCall

/-- The calls the handler bound to `EventManagerController.getEventAnalytics`
awaits, in order: the look-up of line 741 and the statements issued after the
ownership check and the status gate. -/
def EventManagerController.getEventAnalyticsCalls (db : Db) (models : ReadModels)
    (eventId managerId : Nat) : List Call :=
  .modelRead "EventModel.findById" eventId ::
    (EventManagerController.getEventAnalytics db models eventId managerId).2.map ReadCall.toCall

/-- The first word of a statement, in capitals. -/
def sqlVerb (text : String) : String :=
  String.mk (((text.toList.dropWhile Char.isWhitespace).takeWhile Char.isAlpha).map Char.toUpper)

/-- Whether a statement is a plain `SELECT`. -/
def isSelect (text : String) : Bool :=
  sqlVerb text == "SELECT"

/-- Whether a call only reads the data store: a `SELECT` sent through `query`
or a read call of a model. -/
def Call.isRead (call : Call) : Bool :=
  match call with
  | .query text _ => isSelect text
  | .modelRead _ _ => true
  | .write _ => false

/-- What one call may do to the data store: a call that only reads leaves it as
it is; a call that writes, or a statement other than a `SELECT`, may leave any
store (the models, the audit sink and the writing statements are not described
here). -/
def Call.Step (db : Db) (call : Call) (after : Db) : Prop :=
  call.isRead = true → after = db

/-- A run of a sequence of calls from store `db` to store `after`. -/
def Runs (db : Db) (calls : List Call) (after : Db) : Prop :=
  match calls with
  | [] => after = db
  | call :: rest => ∃ mid, Call.Step db call mid ∧ Runs mid rest after


/-! ## Properties -/

theorem keyBefore_total (k k' : Int × Int × Nat) : keyBefore k k' ∨ keyBefore k' k := by
  unfold keyBefore
  omega

theorem keyBefore_trans {a b c : Int × Int × Nat} (h₁ : keyBefore a b) (h₂ : keyBefore b c) :
    keyBefore a c := by
  unfold keyBefore at *
  omega

theorem keyBefore_antisymm {a b : Int × Int × Nat} (h₁ : keyBefore a b) (h₂ : keyBefore b a) :
    a = b := by
  unfold keyBefore at *
  obtain ⟨a1, a2, a3⟩ := a
  obtain ⟨b1, b2, b3⟩ := b
  simp only [Prod.mk.injEq] at *
  omega

theorem topStallsOrdered_sorted (db : Db) : (topStallsOrdered db).Sorted stallBefore :=
  List.sorted_insertionSort stallBefore _

theorem topStallsOrdered_perm (db : Db) : (topStallsOrdered db).Perm (topStallsQualifying db) :=
  List.perm_insertionSort stallBefore _

theorem map_entryKey_mapIdx (l : List TopStallRow) :
    (l.mapIdx toTopStallEntry).map entryKey = l.map stallKey := by
  apply List.ext_getElem
  · simp
  · intro i h₁ h₂
    simp [entryKey, toTopStallEntry, stallKey]

/-- Every row of the join comes from a stored stall and copies its columns. -/
theorem mem_topStallsJoin {db : Db} {row : TopStallRow} (h : row ∈ topStallsJoin db) :
    ∃ st ∈ db.stalls, row.stall_id = st.id ∧ row.stall_number = st.stall_number ∧
      row.rank_1_votes = st.rank_1_votes ∧ row.rank_2_votes = st.rank_2_votes ∧
      row.rank_3_votes = st.rank_3_votes ∧ row.weighted_score = st.weighted_score := by
  unfold topStallsJoin at h
  rw [List.mem_flatMap] at h
  obtain ⟨st, hst, hrow⟩ := h
  rw [List.mem_map] at hrow
  obtain ⟨sc, -, rfl⟩ := hrow
  exact ⟨st, hst, rfl, rfl, rfl, rfl, rfl, rfl⟩

/-- Unfolding of a successful `getTopStalls`. -/
theorem getTopStalls_success {db : Db} {reqLimit : Option Int} {data : TopStallsData}
    {message : String} (h : getTopStalls db reqLimit = .successResponse data message) :
    0 ≤ parseIntOr reqLimit 10 ∧
      data.top_stalls =
        ((topStallsOrdered db).take (parseIntOr reqLimit 10).toNat).mapIdx toTopStallEntry := by
  unfold getTopStalls topStallsQuery sqlLimit at h
  by_cases hneg : parseIntOr reqLimit 10 < 0
  · simp [hneg] at h
  · simp only [hneg, if_false] at h
    injection h with hdata _
    subst hdata
    exact ⟨by omega, rfl⟩

/-- C1, as amended: every entry of `top_stalls` reports the vote counters and the
stored `weighted_score` column of one stored stall unchanged, so the reported
`weighted_score` equals `5*rank_1_votes + 3*rank_2_votes + 1*rank_3_votes` of the
entry whenever the stored column of that stall satisfies the formula. -/
theorem getTopStalls_weighted_score_is_stored (db : Db) (reqLimit : Option Int)
    (data : TopStallsData) (message : String)
    (h : getTopStalls db reqLimit = .successResponse data message) :
    ∀ e ∈ data.top_stalls, ∃ st ∈ db.stalls,
      e.stall_id = st.id ∧
      e.ranking_stats.rank_1_votes = st.rank_1_votes ∧
      e.ranking_stats.rank_2_votes = st.rank_2_votes ∧
      e.ranking_stats.rank_3_votes = st.rank_3_votes ∧
      e.ranking_stats.weighted_score = st.weighted_score ∧
      (st.weighted_score =
          weightedScoreFormula st.rank_1_votes st.rank_2_votes st.rank_3_votes →
        e.ranking_stats.weighted_score =
          5 * e.ranking_stats.rank_1_votes + 3 * e.ranking_stats.rank_2_votes
            + 1 * e.ranking_stats.rank_3_votes) := by
  intro e he
  rw [(getTopStalls_success h).2, List.mem_mapIdx] at he
  obtain ⟨i, hi, rfl⟩ := he
  have hmem : ((topStallsOrdered db).take (parseIntOr reqLimit 10).toNat)[i] ∈
      topStallsJoin db := by
    have h₁ := List.mem_of_mem_take (List.getElem_mem hi)
    have h₂ := (topStallsOrdered_perm db).mem_iff.1 h₁
    exact (List.mem_filter.1 h₂).1
  obtain ⟨st, hst, h0, -, h1, h2, h3, hw⟩ := mem_topStallsJoin hmem
  refine ⟨st, hst, h0, h1, h2, h3, hw, ?_⟩
  intro hf
  simp only [toTopStallEntry]
  rw [hw, hf, h1, h2, h3]
  rfl

/-- Witness of C1 (amended): the request `limit=1` on a store whose stored scores
are fresh succeeds, and its single entry obeys the formula. -/
theorem getTopStalls_weighted_score_is_stored_witness :
    getTopStalls freshScoreDb (some 1) =
        .successResponse freshScoreTop "Top stalls retrieved successfully" ∧
    ∀ e ∈ freshScoreTop.top_stalls, ∃ st ∈ freshScoreDb.stalls,
      e.stall_id = st.id ∧
      e.ranking_stats.rank_1_votes = st.rank_1_votes ∧
      e.ranking_stats.rank_2_votes = st.rank_2_votes ∧
      e.ranking_stats.rank_3_votes = st.rank_3_votes ∧
      e.ranking_stats.weighted_score = st.weighted_score ∧
      (st.weighted_score =
          weightedScoreFormula st.rank_1_votes st.rank_2_votes st.rank_3_votes →
        e.ranking_stats.weighted_score =
          5 * e.ranking_stats.rank_1_votes + 3 * e.ranking_stats.rank_2_votes
            + 1 * e.ranking_stats.rank_3_votes) :=
  ⟨by decide,
    getTopStalls_weighted_score_is_stored freshScoreDb (some 1) freshScoreTop
      "Top stalls retrieved successfully" (by decide)⟩

/-- C1 as stated fails: with stored counters `r1 = 3, r2 = 2, r3 = 1` and a stored
`weighted_score` of `0`, `getTopStalls` succeeds and reports `weighted_score = 0`,
not `22`. -/
theorem getTopStalls_weighted_score_counterexample :
    ∃ data message, getTopStalls staleScoreDb none = .successResponse data message ∧
      ∃ e ∈ data.top_stalls,
        e.ranking_stats.rank_1_votes = 3 ∧ e.ranking_stats.rank_2_votes = 2 ∧
        e.ranking_stats.rank_3_votes = 1 ∧ e.ranking_stats.weighted_score = 0 ∧
        e.ranking_stats.weighted_score ≠
          5 * e.ranking_stats.rank_1_votes + 3 * e.ranking_stats.rank_2_votes
            + 1 * e.ranking_stats.rank_3_votes := by
  refine ⟨_, _, rfl, ?_⟩
  decide

/-- C2, as amended: the leaderboard of a successful `getTopStalls` is ordered by
descending `weighted_score`, then descending `rank_1_votes`, then ascending
`stall_number`; and when the stall numbers of the qualifying stalls are pairwise
distinct, that key admits exactly one ordering: every ordering `ORDER BY` allows
yields the same leaderboard. -/
theorem getTopStalls_order_unique_of_distinct_numbers (db : Db) (reqLimit : Option Int)
    (data : TopStallsData) (message : String)
    (h : getTopStalls db reqLimit = .successResponse data message) :
    (data.top_stalls.map entryKey).Sorted keyBefore ∧
      (((topStallsQualifying db).map TopStallRow.stall_number).Nodup →
        ∀ l, IsValidStallOrdering db l →
          data.top_stalls = (l.take (parseIntOr reqLimit 10).toNat).mapIdx toTopStallEntry) := by
  obtain ⟨-, hdata⟩ := getTopStalls_success h
  constructor
  · rw [hdata, map_entryKey_mapIdx]
    have hs : ((topStallsOrdered db).take (parseIntOr reqLimit 10).toNat).Sorted stallBefore :=
      List.Pairwise.sublist (List.take_sublist _ _) (topStallsOrdered_sorted db)
    exact List.pairwise_map.2 hs
  · intro hnodup l hl
    have heq : l = topStallsOrdered db := by
      refine List.Perm.eq_of_sorted ?_ hl.2 (topStallsOrdered_sorted db)
        (hl.1.trans (topStallsOrdered_perm db).symm)
      intro a b ha hb hab hba
      have hkey := keyBefore_antisymm hab hba
      have ha' := hl.1.mem_iff.1 ha
      have hb' := (topStallsOrdered_perm db).mem_iff.1 hb
      apply List.inj_on_of_nodup_map hnodup ha' hb'
      have := congrArg (fun k => k.2.2) hkey
      simpa [stallKey] using this
    rw [hdata, heq]

/-- Witness of C2 (amended) on a store with two stalls of distinct numbers. -/
theorem getTopStalls_order_unique_of_distinct_numbers_witness :
    getTopStalls freshScoreDb (some 1) =
        .successResponse freshScoreTop "Top stalls retrieved successfully" ∧
    ((freshScoreTop.top_stalls.map entryKey).Sorted keyBefore ∧
      (((topStallsQualifying freshScoreDb).map TopStallRow.stall_number).Nodup →
        ∀ l, IsValidStallOrdering freshScoreDb l →
          freshScoreTop.top_stalls =
            (l.take (parseIntOr (some 1) 10).toNat).mapIdx toTopStallEntry)) :=
  ⟨by decide,
    getTopStalls_order_unique_of_distinct_numbers freshScoreDb (some 1) freshScoreTop
      "Top stalls retrieved successfully" (by decide)⟩

/-- C2 as stated fails: two distinct stalls with the same stall number and the
same votes both enter the leaderboard, compare equal under the key in both
directions, and `ORDER BY` admits two different orderings of them. -/
theorem getTopStalls_order_counterexample :
    (∃ data message, getTopStalls tiedStallsDb none = .successResponse data message ∧
      ∃ a ∈ data.top_stalls, ∃ b ∈ data.top_stalls, a.stall_id ≠ b.stall_id ∧
        keyBefore (entryKey a) (entryKey b) ∧ keyBefore (entryKey b) (entryKey a)) ∧
    IsValidStallOrdering tiedStallsDb [tiedRow 1, tiedRow 2] ∧
    IsValidStallOrdering tiedStallsDb [tiedRow 2, tiedRow 1] ∧
    [tiedRow 1, tiedRow 2] ≠ [tiedRow 2, tiedRow 1] := by
  refine ⟨⟨_, _, rfl, ?_⟩, ⟨?_, ?_⟩, ⟨?_, ?_⟩, ?_⟩
  · decide
  · decide
  · decide
  · decide
  · decide
  · decide

/-! ### The school query as nested sums -/

theorem sum_map_flatMap {α β : Type} (l : List α) (f : α → List β) (t : β → Int) :
    ((l.flatMap f).map t).sum = (l.map fun a => ((f a).map t).sum).sum := by
  induction l with
  | nil => rfl
  | cons a l ih => simp [List.flatMap_cons, ih]

theorem flatMap_filter_eq {α β : Type} (l : List α) (f g : α → List β) (q : α → Bool)
    (h : ∀ a ∈ l, f a = if q a then g a else []) :
    l.flatMap f = (l.filter q).flatMap g := by
  induction l with
  | nil => rfl
  | cons a l ih =>
    have ha := h a (List.mem_cons_self _ _)
    have ih' := ih fun b hb => h b (List.mem_cons_of_mem _ hb)
    by_cases hq : q a = true
    · simp [List.flatMap_cons, List.filter_cons, hq, ha, ih']
    · simp [List.flatMap_cons, List.filter_cons, hq, ha, ih']

theorem sum_map_leftJoinMatches {β : Type} (l : List β) (f : Option β → Int) (h : f none = 0) :
    ((leftJoinMatches l).map f).sum = (l.map fun b => f (some b)).sum := by
  cases l with
  | nil => simp [leftJoinMatches, h]
  | cons b l => simp [leftJoinMatches, Function.comp_def]

theorem leftJoinMatches_ne_nil {β : Type} (l : List β) : leftJoinMatches l ≠ [] := by
  cases l <;> simp [leftJoinMatches]

theorem leftJoinMatches_eq_cons {β : Type} (l : List β) :
    ∃ x xs, leftJoinMatches l = x :: xs := by
  cases l with
  | nil => exact ⟨none, [], rfl⟩
  | cons b l => exact ⟨some b, l.map some, rfl⟩

theorem rankingJoin_ne_nil (db : Db) (s : Option Student) : rankingJoin db s ≠ [] := by
  unfold rankingJoin
  obtain ⟨r, rs, hr⟩ := leftJoinMatches_eq_cons (match s with
      | none => []
      | some s => db.rankings.filter fun r => r.student_id == s.id)
  rw [hr, List.flatMap_cons]
  obtain ⟨st, sts, hst⟩ := leftJoinMatches_eq_cons (match r with
      | none => []
      | some r => db.stalls.filter fun st => r.stall_id == st.id)
  rw [hst]
  simp

theorem mem_schoolStudents {db : Db} {sc : School} {s : Student} :
    s ∈ schoolStudents db sc ↔
      s ∈ db.students ∧ s.school_id = some sc.id ∧ s.has_completed_ranking = true := by
  simp [schoolStudents]

/-- The `WHERE` clause keeps exactly the rows of the joined students. -/
theorem filter_completed_schoolRows (db : Db) (sc : School) :
    ((leftJoinMatches (schoolStudents db sc)).flatMap fun s =>
        (rankingJoin db s).map fun p =>
          ({ sc := sc, s := s, r := p.1, st := p.2 } : SchoolJoinRow)).filter completedRow =
      (schoolStudents db sc).flatMap fun s =>
        (rankingJoin db (some s)).map fun p =>
          ({ sc := sc, s := some s, r := p.1, st := p.2 } : SchoolJoinRow) := by
  rw [List.filter_flatMap]
  cases hss : schoolStudents db sc with
  | nil =>
    simp only [leftJoinMatches, List.flatMap_cons, List.flatMap_nil, List.append_nil]
    rw [List.filter_eq_nil_iff]
    intro row hrow
    rw [List.mem_map] at hrow
    obtain ⟨p, -, rfl⟩ := hrow
    simp [completedRow]
  | cons s ss =>
    simp only [leftJoinMatches]
    rw [List.flatMap_map]
    apply List.flatMap_congr
    intro x hx
    rw [List.filter_eq_self]
    intro row hrow
    rw [List.mem_map] at hrow
    obtain ⟨p, -, rfl⟩ := hrow
    rw [← hss] at hx
    simpa [completedRow] using (mem_schoolStudents.1 hx).2.2

/-- The rows of one group, school by school and student by student. -/
theorem schoolGroup_eq (db : Db) (key : Nat × String) :
    schoolGroup db key =
      (db.schools.filter fun sc => (sc.id, sc.school_name) == key).flatMap fun sc =>
        (schoolStudents db sc).flatMap fun s =>
          (rankingJoin db (some s)).map fun p =>
            ({ sc := sc, s := some s, r := p.1, st := p.2 } : SchoolJoinRow) := by
  unfold schoolGroup topSchoolsWhere topSchoolsJoin
  rw [List.filter_flatMap, List.filter_flatMap]
  apply flatMap_filter_eq
  intro sc _
  rw [filter_completed_schoolRows]
  by_cases hk : ((sc.id, sc.school_name) == key) = true
  · rw [if_pos hk, List.filter_eq_self]
    intro row hrow
    simp only [List.mem_flatMap, List.mem_map] at hrow
    obtain ⟨s, -, p, -, rfl⟩ := hrow
    simpa [schoolKey] using hk
  · rw [if_neg hk, List.filter_eq_nil_iff]
    intro row hrow
    simp only [List.mem_flatMap, List.mem_map] at hrow
    obtain ⟨s, -, p, -, rfl⟩ := hrow
    simpa [schoolKey] using hk

theorem scoreTerm_eq_ownTerm : scoreTerm = ownTerm rankPoints := rfl

theorem rankCountTerm_eq_ownTerm (k : Int) :
    rankCountTerm k = ownTerm fun x => if x = some k then 1 else 0 := by
  funext row
  unfold rankCountTerm ownTerm
  by_cases h₁ : ownStall row = true <;> by_cases h₂ : row.r.map Ranking.rank = some k <;>
    simp [h₁, h₂]

theorem sum_map_ite_const {β : Type} (l : List β) (p : β → Bool) (c : Int) :
    (l.map fun x => if p x then c else 0).sum = ((l.filter p).length : Int) * c := by
  induction l with
  | nil => simp
  | cons b l ih =>
    by_cases hp : p b = true
    · simp [List.filter_cons, hp, ih]; ring
    · simp [List.filter_cons, hp, ih]

/-- The rows one student contributes, summed: one product per ranking row. -/
theorem sum_rankingJoin (g : Option Int → Int) (db : Db) (sc : School) (s : Student) :
    ((rankingJoin db (some s)).map fun p =>
        ownTerm g { sc := sc, s := some s, r := p.1, st := p.2 }).sum =
      ((db.rankings.filter fun r => r.student_id == s.id).map fun r =>
        ((ownStallsOf db sc.id r).length : Int) * g (some r.rank)).sum := by
  unfold rankingJoin
  rw [sum_map_flatMap]
  simp only [List.map_map, Function.comp_def]
  rw [sum_map_leftJoinMatches _ _ (by simp [leftJoinMatches, ownTerm, ownStall])]
  apply congrArg
  apply List.map_congr_left
  intro r _
  rw [sum_map_leftJoinMatches _ _ (by simp [ownTerm, ownStall])]
  simp only [ownTerm, ownStall, Option.map_some']
  rw [sum_map_ite_const, List.filter_filter]
  simp only [ownStallsOf, Bool.and_comm]

/-- A guarded sum of one group as a nested sum over schools, students and
ranking rows. -/
theorem groupSum_eq (g : Option Int → Int) (db : Db) (key : Nat × String) :
    ((schoolGroup db key).map (ownTerm g)).sum =
      ((db.schools.filter fun sc => (sc.id, sc.school_name) == key).map fun sc =>
        ((schoolStudents db sc).map fun s =>
          ((db.rankings.filter fun r => r.student_id == s.id).map fun r =>
            ((ownStallsOf db sc.id r).length : Int) * g (some r.rank)).sum).sum).sum := by
  rw [schoolGroup_eq, sum_map_flatMap]
  apply congrArg
  apply List.map_congr_left
  intro sc _
  rw [sum_map_flatMap]
  apply congrArg
  apply List.map_congr_left
  intro s _
  rw [List.map_map]
  exact sum_rankingJoin g db sc s

/-- A group has rows exactly when one of its schools has a joined student. -/
theorem schoolGroup_eq_nil_iff (db : Db) (key : Nat × String) :
    schoolGroup db key = [] ↔
      ∀ sc ∈ db.schools, (sc.id, sc.school_name) = key → schoolStudents db sc = [] := by
  rw [schoolGroup_eq, List.flatMap_eq_nil_iff]
  constructor
  · intro h sc hsc hk
    have := h sc (List.mem_filter.2 ⟨hsc, by simpa using hk⟩)
    rw [List.flatMap_eq_nil_iff] at this
    cases hss : schoolStudents db sc with
    | nil => rfl
    | cons s ss =>
      have h' := this s (by rw [hss]; exact List.mem_cons_self _ _)
      rw [List.map_eq_nil_iff] at h'
      exact absurd h' (rankingJoin_ne_nil db (some s))
  · intro h sc hsc
    rw [List.mem_filter] at hsc
    rw [h sc hsc.1 (by simpa using hsc.2)]
    rfl

theorem sqlSum_congr {xs ys : List Int} (hnil : xs = [] ↔ ys = []) (hsum : xs.sum = ys.sum) :
    sqlSum xs = sqlSum ys := by
  cases xs with
  | nil =>
    have := hnil.1 rfl
    subst this
    rfl
  | cons x xs =>
    cases ys with
    | nil => exact absurd (hnil.2 rfl) (by simp)
    | cons y ys => simp only [sqlSum, hsum]

/-- A ranking row whose student and stall belong to different schools joins to
no stall owned by the student's school. -/
theorem ownStallsOf_eq_nil_of_cross {db : Db} {r : Ranking}
    (hcross : ∀ s ∈ db.students, s.id = r.student_id →
      ∀ st ∈ db.stalls, st.id = r.stall_id → st.school_id ≠ s.school_id)
    {sc : School} {s : Student} (hs : s ∈ schoolStudents db sc) (hid : r.student_id = s.id) :
    ownStallsOf db sc.id r = [] := by
  unfold ownStallsOf
  rw [List.filter_eq_nil_iff]
  intro st hst hmatch
  simp only [Bool.and_eq_true, beq_iff_eq] at hmatch
  obtain ⟨hs₁, hs₂, -⟩ := mem_schoolStudents.1 hs
  exact hcross s hs₁ hid.symm st hst hmatch.1.symm (hmatch.2.trans hs₂.symm)

/-- A guarded sum of a group does not change when a cross-school ranking row is
stored, wherever the row stands in the table. -/
theorem ownTerm_sum_cross (g : Option Int → Int) (db : Db) (pre post : List Ranking)
    (r : Ranking)
    (hcross : ∀ s ∈ db.students, s.id = r.student_id →
      ∀ st ∈ db.stalls, st.id = r.stall_id → st.school_id ≠ s.school_id)
    (key : Nat × String) :
    sqlSum ((schoolGroup (withRankings db (pre ++ r :: post)) key).map (ownTerm g)) =
      sqlSum ((schoolGroup (withRankings db (pre ++ post)) key).map (ownTerm g)) := by
  apply sqlSum_congr
  · rw [List.map_eq_nil_iff, List.map_eq_nil_iff, schoolGroup_eq_nil_iff,
      schoolGroup_eq_nil_iff]
    exact Iff.rfl
  · rw [groupSum_eq, groupSum_eq]
    apply congrArg
    apply List.map_congr_left
    intro sc _
    apply congrArg
    apply List.map_congr_left
    intro s hs
    change (((pre ++ r :: post).filter fun r => r.student_id == s.id).map fun r' =>
        ((ownStallsOf db sc.id r').length : Int) * g (some r'.rank)).sum =
      (((pre ++ post).filter fun r => r.student_id == s.id).map fun r' =>
        ((ownStallsOf db sc.id r').length : Int) * g (some r'.rank)).sum
    by_cases hid : r.student_id = s.id
    · have hnil := ownStallsOf_eq_nil_of_cross hcross hs hid
      simp [List.filter_append, List.filter_cons, hid, hnil]
    · simp [List.filter_append, List.filter_cons, hid]

/-- C3: a ranking row cast by a student for a stall whose school differs from the
student's school adds 0 to `school_score` and to the rank 1, 2 and 3 counts of
every school group, in particular of the student's school and of the stall's
school, whatever its rank value and wherever the row is stored. -/
theorem getTopSchools_cross_school_row_adds_zero (db : Db) (pre post : List Ranking)
    (r : Ranking)
    (hcross : ∀ s ∈ db.students, s.id = r.student_id →
      ∀ st ∈ db.stalls, st.id = r.stall_id → st.school_id ≠ s.school_id)
    (key : Nat × String) :
    schoolScore (withRankings db (pre ++ r :: post)) key =
        schoolScore (withRankings db (pre ++ post)) key ∧
      ∀ k : Int,
        schoolRankCount (withRankings db (pre ++ r :: post)) key k =
          schoolRankCount (withRankings db (pre ++ post)) key k := by
  constructor
  · unfold schoolScore
    rw [scoreTerm_eq_ownTerm]
    exact ownTerm_sum_cross _ db pre post r hcross key
  · intro k
    unfold schoolRankCount
    rw [rankCountTerm_eq_ownTerm]
    exact ownTerm_sum_cross _ db pre post r hcross key

/-- Witness of C3: student 2 of school 2 ranks stall 10 of school 1 first; the
scores and counts of school 1 stay what they were. -/
theorem getTopSchools_cross_school_row_adds_zero_witness :
    (∀ s ∈ twoSchoolsDb.students, s.id = 2 →
      ∀ st ∈ twoSchoolsDb.stalls, st.id = 10 → st.school_id ≠ s.school_id) ∧
    (schoolScore (withRankings twoSchoolsDb
          ([{ student_id := 1, stall_id := 10, rank := 1 }] ++
            { student_id := 2, stall_id := 10, rank := 1 } :: [])) (1, "A") =
        schoolScore (withRankings twoSchoolsDb
          ([{ student_id := 1, stall_id := 10, rank := 1 }] ++ [])) (1, "A") ∧
      ∀ k : Int,
        schoolRankCount (withRankings twoSchoolsDb
            ([{ student_id := 1, stall_id := 10, rank := 1 }] ++
              { student_id := 2, stall_id := 10, rank := 1 } :: [])) (1, "A") k =
          schoolRankCount (withRankings twoSchoolsDb
            ([{ student_id := 1, stall_id := 10, rank := 1 }] ++ [])) (1, "A") k) :=
  ⟨by decide,
    getTopSchools_cross_school_row_adds_zero twoSchoolsDb
      [{ student_id := 1, stall_id := 10, rank := 1 }] []
      { student_id := 2, stall_id := 10, rank := 1 } (by decide) (1, "A")⟩

/-! ### The school score as a sum over ranking rows -/

theorem length_filter_of_nodup_map {β : Type} (f : β → Nat) (P : β → Bool) (v : Nat)
    (hP : ∀ x, P x = true → f x = v) :
    ∀ l : List β, (l.map f).Nodup →
      ((l.filter P).length : Int) = if l.any P then 1 else 0
  | [], _ => by simp
  | a :: l, hn => by
    rw [List.map_cons, List.nodup_cons] at hn
    have ih := length_filter_of_nodup_map f P v hP l hn.2
    by_cases ha : P a = true
    · have hnone : l.filter P = [] := by
        rw [List.filter_eq_nil_iff]
        intro x hx hpx
        apply hn.1
        rw [hP a ha, ← hP x hpx]
        exact List.mem_map_of_mem f hx
      simp [List.filter_cons, ha, hnone]
    · simp only [List.filter_cons, ha, List.any_cons, Bool.false_or]
      simpa using ih

theorem sum_filter_swap {α β : Type} (p : α → β → Bool) (h : β → Int) (l₁ : List α) :
    ∀ l₂ : List β,
      (l₁.map fun a => ((l₂.filter fun b => p a b).map h).sum).sum =
        (l₂.map fun b => ((l₁.filter fun a => p a b).length : Int) * h b).sum
  | [] => by simp
  | b :: l₂ => by
    have ih := sum_filter_swap p h l₁ l₂
    rw [List.map_cons, List.sum_cons, ← ih, ← sum_map_ite_const, ← List.sum_map_add]
    apply congrArg
    apply List.map_congr_left
    intro a _
    by_cases hp : p a b = true <;> simp [List.filter_cons, hp]

theorem filter_eq_singleton_of_nodup_map {β : Type} (f : β → Nat) (P : β → Bool) (a : β)
    (ha : P a = true) (hP : ∀ x, P x = true → f x = f a) :
    ∀ l : List β, (l.map f).Nodup → a ∈ l → l.filter P = [a]
  | [], _, hmem => by simp at hmem
  | x :: l, hn, hmem => by
    rw [List.map_cons, List.nodup_cons] at hn
    rcases List.mem_cons.1 hmem with rfl | hmem'
    · have hnone : l.filter P = [] := by
        rw [List.filter_eq_nil_iff]
        intro y hy hpy
        apply hn.1
        rw [← hP y hpy]
        exact List.mem_map_of_mem f hy
      simp [List.filter_cons, ha, hnone]
    · have hx : ¬ P x = true := by
        intro hpx
        apply hn.1
        rw [hP x hpx]
        exact List.mem_map_of_mem f hmem'
      simp only [List.filter_cons, hx, if_false]
      exact filter_eq_singleton_of_nodup_map f P a ha hP l hn.2 hmem'

theorem filter_key_eq_singleton {db : Db} (hschools : (db.schools.map School.id).Nodup)
    {sc : School} (hsc : sc ∈ db.schools) :
    (db.schools.filter fun sc' => (sc'.id, sc'.school_name) == (sc.id, sc.school_name)) =
      [sc] := by
  apply filter_eq_singleton_of_nodup_map School.id _ sc (by simp) _ _ hschools hsc
  intro x hx
  simp only [beq_iff_eq, Prod.mk.injEq] at hx
  exact hx.1

/-- Under the primary keys of `schools`, `students` and `stalls`, the guarded sum
of a school's group is a sum over the ranking rows. -/
theorem groupSum_eq_sum_rankings (g : Option Int → Int) (db : Db)
    (hschools : (db.schools.map School.id).Nodup)
    (hstudents : (db.students.map Student.id).Nodup)
    (hstalls : (db.stalls.map Stall.id).Nodup)
    {sc : School} (hsc : sc ∈ db.schools) :
    ((schoolGroup db (sc.id, sc.school_name)).map (ownTerm g)).sum =
      (db.rankings.map fun r =>
        if castByCompletedStudentOf db sc.id r && ranksStallOf db sc.id r then g (some r.rank)
        else 0).sum := by
  rw [groupSum_eq, filter_key_eq_singleton hschools hsc]
  simp only [List.map_cons, List.map_nil, List.sum_cons, List.sum_nil, add_zero]
  rw [sum_filter_swap (fun (s : Student) (r : Ranking) => r.student_id == s.id)]
  apply congrArg
  apply List.map_congr_left
  intro r _
  have h₁ : (((schoolStudents db sc).filter fun s => r.student_id == s.id).length : Int) =
      if castByCompletedStudentOf db sc.id r then 1 else 0 := by
    unfold schoolStudents castByCompletedStudentOf
    rw [List.filter_filter]
    have hpred : (fun s : Student => (r.student_id == s.id) &&
        (s.school_id == some sc.id && s.has_completed_ranking)) =
        fun s => s.id == r.student_id && (s.school_id == some sc.id && s.has_completed_ranking) := by
      funext s
      rw [Bool.beq_comm]
    rw [hpred]
    exact length_filter_of_nodup_map Student.id _ r.student_id
      (fun s hs => by simp only [Bool.and_eq_true, beq_iff_eq] at hs; exact hs.1) _ hstudents
  have h₂ : ((ownStallsOf db sc.id r).length : Int) =
      if ranksStallOf db sc.id r then 1 else 0 := by
    unfold ownStallsOf ranksStallOf
    have hpred : (fun st : Stall => (r.stall_id == st.id) && (st.school_id == some sc.id)) =
        fun st => st.id == r.stall_id && st.school_id == some sc.id := by
      funext st
      rw [Bool.beq_comm]
    rw [hpred]
    exact length_filter_of_nodup_map Stall.id _ r.stall_id
      (fun st hs => by simp only [Bool.and_eq_true, beq_iff_eq] at hs; exact hs.1) _ hstalls
  rw [h₁, h₂]
  by_cases hc : castByCompletedStudentOf db sc.id r = true <;>
    by_cases hr : ranksStallOf db sc.id r = true <;> simp [hc, hr]

/-- Unfolding of a successful `getTopSchools`. -/
theorem getTopSchools_success {db : Db} {reqLimit : Option Int} {data : TopSchoolsData}
    {message : String} (h : getTopSchools db reqLimit = .successResponse data message) :
    0 ≤ parseIntOr reqLimit 10 ∧
      data.top_schools =
        (((topSchoolsGrouped db).insertionSort schoolBefore).take
          (parseIntOr reqLimit 10).toNat).mapIdx toTopSchoolEntry := by
  unfold getTopSchools topSchoolsQuery sqlLimit at h
  by_cases hneg : parseIntOr reqLimit 10 < 0
  · simp [hneg] at h
  · simp only [hneg, if_false] at h
    injection h with hdata _
    subst hdata
    exact ⟨by omega, rfl⟩

/-- Every group key is the key of a stored school with a joined student. -/
theorem mem_schoolKeys {db : Db} {key : Nat × String} (h : key ∈ schoolKeys db) :
    ∃ sc ∈ db.schools, (sc.id, sc.school_name) = key ∧ schoolStudents db sc ≠ [] := by
  unfold schoolKeys at h
  rw [List.mem_dedup, List.mem_map] at h
  obtain ⟨row, hrow, hkey⟩ := h
  have hne : schoolGroup db key ≠ [] := by
    intro hnil
    have hmem : row ∈ schoolGroup db key := by
      unfold schoolGroup
      exact List.mem_filter.2 ⟨hrow, by simpa using hkey⟩
    rw [hnil] at hmem
    simp at hmem
  rw [Ne, schoolGroup_eq_nil_iff] at hne
  push_neg at hne
  exact hne

/-- Every entry of `top_schools` renders one aggregated group. -/
theorem mem_top_schools {db : Db} {reqLimit : Option Int} {data : TopSchoolsData}
    {message : String} (h : getTopSchools db reqLimit = .successResponse data message)
    {e : TopSchoolEntry} (he : e ∈ data.top_schools) :
    ∃ key ∈ schoolKeys db, ∃ row, schoolAggregate db key = some row ∧
      e.school_id = row.school_id ∧ e.school_name = row.school_name ∧
      e.total_score = row.school_score ∧
      e.students_participated = row.total_students_ranked := by
  rw [(getTopSchools_success h).2, List.mem_mapIdx] at he
  obtain ⟨i, hi, rfl⟩ := he
  have h₁ := List.mem_of_mem_take (List.getElem_mem hi)
  have h₂ := (List.perm_insertionSort schoolBefore _).mem_iff.1 h₁
  unfold topSchoolsGrouped at h₂
  rw [List.mem_filterMap] at h₂
  obtain ⟨key, hkey, hagg⟩ := h₂
  exact ⟨key, hkey, _, hagg, rfl, rfl, rfl, rfl⟩

/-- What `schoolAggregate` stores in the row of a group. -/
theorem schoolAggregate_eq_some {db : Db} {key : Nat × String} {row : TopSchoolRow}
    (h : schoolAggregate db key = some row) :
    schoolScore db key = some row.school_score ∧ 0 < row.school_score ∧
      row.school_id = key.1 ∧ row.school_name = key.2 ∧
      row.total_students_ranked = schoolStudentsRanked db key := by
  unfold schoolAggregate at h
  cases hs : schoolScore db key with
  | none => simp [hs] at h
  | some score =>
    simp only [hs] at h
    by_cases hpos : 0 < score
    · simp only [hpos, if_true, Option.some.injEq] at h
      subst h
      exact ⟨rfl, hpos, rfl, rfl, rfl⟩
    · simp [hpos] at h

/-- The school score of a stored school, under the primary keys. -/
theorem schoolScore_eq (db : Db)
    (hschools : (db.schools.map School.id).Nodup)
    (hstudents : (db.students.map Student.id).Nodup)
    (hstalls : (db.stalls.map Stall.id).Nodup)
    {sc : School} (hsc : sc ∈ db.schools) (hne : schoolStudents db sc ≠ []) :
    schoolScore db (sc.id, sc.school_name) = some (sameSchoolCompletedPoints db sc.id) := by
  have hgroup : schoolGroup db (sc.id, sc.school_name) ≠ [] := by
    rw [Ne, schoolGroup_eq_nil_iff]
    push_neg
    exact ⟨sc, hsc, rfl, hne⟩
  have hsum := groupSum_eq_sum_rankings rankPoints db hschools hstudents hstalls hsc
  unfold schoolScore
  rw [scoreTerm_eq_ownTerm]
  cases hrows : (schoolGroup db (sc.id, sc.school_name)).map (ownTerm rankPoints) with
  | nil => exact absurd (List.map_eq_nil_iff.1 hrows) hgroup
  | cons x xs =>
    rw [hrows] at hsum
    simp only [sqlSum, hsum, sameSchoolCompletedPoints]

/-- C4, as amended: under the primary keys of `schools`, `students` and `stalls`,
the `school_score` of every school that has a student with
`has_completed_ranking = true` is the sum, over every ranking row cast by such a
student of that school for a stall of that same school, of the rank's point value
(5, 3, 1 for ranks 1, 2, 3 and 0 otherwise); a school without such a student gets
no row and that sum is 0; and every `total_score` in `top_schools` is that sum. -/
theorem getTopSchools_school_score_completed (db : Db)
    (hschools : (db.schools.map School.id).Nodup)
    (hstudents : (db.students.map Student.id).Nodup)
    (hstalls : (db.stalls.map Stall.id).Nodup) :
    (∀ sc ∈ db.schools, schoolStudents db sc ≠ [] →
        schoolScore db (sc.id, sc.school_name) = some (sameSchoolCompletedPoints db sc.id)) ∧
    (∀ sc ∈ db.schools, schoolStudents db sc = [] →
        schoolScore db (sc.id, sc.school_name) = none ∧
          sameSchoolCompletedPoints db sc.id = 0) ∧
    (∀ reqLimit data message, getTopSchools db reqLimit = .successResponse data message →
        ∀ e ∈ data.top_schools, e.total_score = sameSchoolCompletedPoints db e.school_id) := by
  refine ⟨fun sc hsc hne => schoolScore_eq db hschools hstudents hstalls hsc hne, ?_, ?_⟩
  · intro sc hsc hnil
    constructor
    · have hgroup : schoolGroup db (sc.id, sc.school_name) = [] := by
        rw [schoolGroup_eq_nil_iff]
        intro sc' hsc' hkey
        have hsingle := filter_key_eq_singleton hschools hsc
        have hmem : sc' ∈ db.schools.filter fun x =>
            (x.id, x.school_name) == (sc.id, sc.school_name) :=
          List.mem_filter.2 ⟨hsc', by simpa using hkey⟩
        rw [hsingle, List.mem_singleton] at hmem
        rw [hmem]
        exact hnil
      unfold schoolScore
      rw [hgroup]
      rfl
    · unfold sameSchoolCompletedPoints
      apply List.sum_eq_zero
      intro x hx
      rw [List.mem_map] at hx
      obtain ⟨r, -, rfl⟩ := hx
      have hnone : castByCompletedStudentOf db sc.id r = false := by
        unfold castByCompletedStudentOf
        rw [List.any_eq_false]
        intro s hs hmatch
        simp only [Bool.and_eq_true, beq_iff_eq] at hmatch
        have : s ∈ schoolStudents db sc := mem_schoolStudents.2 ⟨hs, hmatch.2.1, hmatch.2.2⟩
        rw [hnil] at this
        simp at this
      simp [hnone]
  · intro reqLimit data message h e he
    obtain ⟨key, hkey, row, hagg, hid, -, hscore, -⟩ := mem_top_schools h he
    obtain ⟨hs, -, hrid, -, -⟩ := schoolAggregate_eq_some hagg
    obtain ⟨sc, hsc, rfl, hne⟩ := mem_schoolKeys hkey
    have := schoolScore_eq db hschools hstudents hstalls hsc hne
    rw [hs, Option.some.injEq] at this
    rw [hscore, this, hid, hrid]

/-- Witness of C4 (amended) on a store with two schools. -/
theorem getTopSchools_school_score_completed_witness :
    ((twoSchoolsDb.schools.map School.id).Nodup ∧
      (twoSchoolsDb.students.map Student.id).Nodup ∧
      (twoSchoolsDb.stalls.map Stall.id).Nodup) ∧
    schoolScore twoSchoolsDb (1, "A") = some (sameSchoolCompletedPoints twoSchoolsDb 1) ∧
    sameSchoolCompletedPoints twoSchoolsDb 1 = 5 :=
  ⟨⟨by decide, by decide, by decide⟩,
    (getTopSchools_school_score_completed twoSchoolsDb (by decide) (by decide) (by decide)).1
      { id := 1, school_name := "A" } (by decide) (by decide),
    by decide⟩

/-- C4 as stated fails: the row of a student of school 1 for a stall of school 1
is worth 5 points in the sum over every same-school ranking row, yet the
`school_score` computed for school 1 is 0 and the school is not listed, because
the voting student's `has_completed_ranking` flag is not set. -/
theorem getTopSchools_school_score_counterexample :
    ((pendingStudentDb.schools.map School.id).Nodup ∧
      (pendingStudentDb.students.map Student.id).Nodup ∧
      (pendingStudentDb.stalls.map Stall.id).Nodup) ∧
    sameSchoolPoints pendingStudentDb 1 = 5 ∧
    schoolScore pendingStudentDb (1, "A") = some 0 ∧
    getTopSchools pendingStudentDb none =
      .successResponse { top_schools := [], overall_stats := schoolOverallStats pendingStudentDb }
        "Top schools retrieved successfully" := by
  refine ⟨⟨?_, ?_, ?_⟩, ?_, ?_, ?_⟩ <;> decide

/-- C5: whatever the data and the limit, every school listed in `top_schools` by
`getTopSchools` has `total_score > 0`; a school whose total is 0 is never listed.
The handler answers with such a list for every limit the data store accepts
(`parseInt(limit) || 10` not negative). -/
theorem getTopSchools_total_score_pos (db : Db) (reqLimit : Option Int) :
    (0 ≤ parseIntOr reqLimit 10 →
      ∃ data, getTopSchools db reqLimit =
        .successResponse data "Top schools retrieved successfully") ∧
    (∀ data message, getTopSchools db reqLimit = .successResponse data message →
      ∀ e ∈ data.top_schools, 0 < e.total_score) := by
  constructor
  · intro hlimit
    have hneg : ¬ parseIntOr reqLimit 10 < 0 := by omega
    simp only [getTopSchools, topSchoolsQuery, sqlLimit, hneg, if_false]
    exact ⟨_, rfl⟩
  · intro data message h e he
    obtain ⟨key, -, row, hagg, -, -, hscore, -⟩ := mem_top_schools h he
    rw [hscore]
    exact (schoolAggregate_eq_some hagg).2.1

/-- Witness of C5: school 3 of `threeSchoolsDb` has a total of 0 and is left out. -/
theorem getTopSchools_total_score_pos_witness :
    getTopSchools threeSchoolsDb none =
        .successResponse threeSchoolsTop "Top schools retrieved successfully" ∧
    schoolScore threeSchoolsDb (3, "C") = some 0 ∧
    ∀ e ∈ threeSchoolsTop.top_schools, 0 < e.total_score :=
  ⟨by decide, by decide,
    (getTopSchools_total_score_pos threeSchoolsDb none).2 threeSchoolsTop
      "Top schools retrieved successfully" (by decide)⟩

theorem dedup_length_eq_of_mem_iff {l₁ l₂ : List Nat} (h : ∀ x, x ∈ l₁ ↔ x ∈ l₂) :
    l₁.dedup.length = l₂.dedup.length := by
  rw [← List.card_toFinset, ← List.card_toFinset]
  apply congrArg
  ext x
  simp [h x]

/-- Expression `COUNT(DISTINCT s.id)` of a group counts the students of the school whose
`has_completed_ranking` flag is set. -/
theorem schoolStudentsRanked_eq {db : Db} {key : Nat × String} (hkey : key ∈ schoolKeys db) :
    schoolStudentsRanked db key = completedStudentsOf db key.1 := by
  obtain ⟨sc, hsc, rfl, -⟩ := mem_schoolKeys hkey
  unfold schoolStudentsRanked completedStudentsOf
  apply congrArg
  apply dedup_length_eq_of_mem_iff
  intro x
  rw [schoolGroup_eq]
  simp only [List.mem_filterMap, List.mem_flatMap, List.mem_map, List.mem_filter]
  constructor
  · rintro ⟨row, ⟨sc', ⟨-, hk⟩, s, hs, p, -, rfl⟩, hx⟩
    simp only [beq_iff_eq, Prod.mk.injEq] at hk
    simp only [Option.map_some', Option.some.injEq] at hx
    obtain ⟨hs₁, hs₂, hs₃⟩ := mem_schoolStudents.1 hs
    exact ⟨s, ⟨hs₁, by simp [hs₂, hs₃, hk.1]⟩, hx⟩
  · rintro ⟨s, ⟨hs₁, hs₂⟩, hx⟩
    simp only [Bool.and_eq_true, beq_iff_eq] at hs₂
    obtain ⟨p, ps, hp⟩ := List.exists_cons_of_ne_nil (rankingJoin_ne_nil db (some s))
    refine ⟨{ sc := sc, s := some s, r := p.1, st := p.2 },
      ⟨sc, ⟨hsc, by simp⟩, s, mem_schoolStudents.2 ⟨hs₁, hs₂.1, hs₂.2⟩, p, ?_, rfl⟩, ?_⟩
    · rw [hp]
      exact List.mem_cons_self _ _
    · simpa using hx

theorem map_schoolEntry_mapIdx (l : List TopSchoolRow) :
    ((l.mapIdx toTopSchoolEntry).map fun e => (e.total_score, e.students_participated)) =
      l.map fun row => (row.school_score, row.total_students_ranked) := by
  apply List.ext_getElem
  · simp
  · intro i h₁ h₂
    simp [toTopSchoolEntry]

/-- C6: the `top_schools` list of a successful `getTopSchools` is sorted by
descending `total_score` and, among equal scores, by descending
`students_participated`; `students_participated` is the number of distinct
students of that school with `has_completed_ranking = true`; and the entry at
index `i` has `position = i + 1`. -/
theorem getTopSchools_sorted_by_score_then_students (db : Db) (reqLimit : Option Int)
    (data : TopSchoolsData) (message : String)
    (h : getTopSchools db reqLimit = .successResponse data message) :
    data.top_schools.Sorted schoolEntryBefore ∧
      (∀ e ∈ data.top_schools, e.students_participated = completedStudentsOf db e.school_id) ∧
      (∀ (i : Nat) (hi : i < data.top_schools.length), (data.top_schools[i]).position = i + 1) := by
  refine ⟨?_, ?_, ?_⟩
  · have hsorted : (((topSchoolsGrouped db).insertionSort schoolBefore).take
        (parseIntOr reqLimit 10).toNat).Sorted schoolBefore :=
      List.Pairwise.sublist (List.take_sublist _ _) (List.sorted_insertionSort schoolBefore _)
    have hkeys : (data.top_schools.map fun e => (e.total_score, e.students_participated)).Pairwise
        (fun (k k' : Int × Int) => k'.1 < k.1 ∨ (k.1 = k'.1 ∧ k'.2 ≤ k.2)) := by
      rw [(getTopSchools_success h).2, map_schoolEntry_mapIdx]
      exact List.pairwise_map.2 hsorted
    exact (List.pairwise_map
      (f := fun e : TopSchoolEntry => (e.total_score, e.students_participated))
      (R := fun (k k' : Int × Int) => k'.1 < k.1 ∨ (k.1 = k'.1 ∧ k'.2 ≤ k.2))).1 hkeys
  · intro e he
    obtain ⟨key, hkey, row, hagg, hid, -, -, hstudents⟩ := mem_top_schools h he
    obtain ⟨-, -, hrid, -, hcount⟩ := schoolAggregate_eq_some hagg
    rw [hstudents, hcount, schoolStudentsRanked_eq hkey, hid, hrid]
  · obtain ⟨tops, stats⟩ := data
    have hdata : tops = _ := (getTopSchools_success h).2
    subst hdata
    intro i hi
    show ((List.mapIdx toTopSchoolEntry _)[i]).position = i + 1
    rw [List.getElem_mapIdx]
    rfl

/-- Witness of C6 on a store with two scoring schools. -/
theorem getTopSchools_sorted_by_score_then_students_witness :
    getTopSchools threeSchoolsDb (some 5) =
        .successResponse threeSchoolsTop "Top schools retrieved successfully" ∧
    (threeSchoolsTop.top_schools.Sorted schoolEntryBefore ∧
      (∀ e ∈ threeSchoolsTop.top_schools,
        e.students_participated = completedStudentsOf threeSchoolsDb e.school_id) ∧
      (∀ (i : Nat) (hi : i < threeSchoolsTop.top_schools.length),
        (threeSchoolsTop.top_schools[i]).position = i + 1)) :=
  ⟨by decide,
    getTopSchools_sorted_by_score_then_students threeSchoolsDb (some 5) threeSchoolsTop
      "Top schools retrieved successfully" (by decide)⟩

/-! ### Lifecycle guards -/

theorem activeStallCount_withStall (db : Db) (st : Stall) (eventId : Nat)
    (hev : st.event_id = eventId) (hact : st.is_active = true) :
    activeStallCount (withStall db st) eventId = activeStallCount db eventId + 1 := by
  simp [activeStallCount, withStall, List.filter_cons, hev, hact]

/-- Handler `submitEventForApproval` on an owned event, guard by guard. -/
theorem submitEventForApproval_owned (db : Db) (eventId managerId : Nat) (event : Event)
    (hfound : findById db eventId = some event)
    (howner : event.created_by_manager_id = managerId) :
    (submissionReady db eventId event →
      submitEventForApproval db eventId managerId =
        (.successResponse () "Event submitted for admin approval successfully",
          [ .eventUpdate eventId (submitUpdateData event),
            submitAudit event eventId managerId (activeStallCount db eventId)
              (volunteerCount db eventId) ])) ∧
    (¬ submissionReady db eventId event →
      ∃ reason, submitEventForApproval db eventId managerId = (.errorResponse reason 400, [])) := by
  unfold submissionReady
  constructor
  · rintro ⟨hstatus, hbanner, hstalls, hvols⟩
    simp only [submitEventForApproval, hfound]
    split_ifs with h₁ h₂ h₃ h₄ h₅
    · exact absurd howner h₁
    · have h₂' : ¬event.status = "DRAFT" ∧ ¬event.status = "REJECTED" := by simpa using h₂
      rcases hstatus with h | h
      · exact absurd h h₂'.1
      · exact absurd h h₂'.2
    · simp [hbanner] at h₃
    · omega
    · omega
    · rfl
  · intro hnot
    simp only [submitEventForApproval, hfound]
    split_ifs with h₁ h₂ h₃ h₄ h₅
    · exact absurd howner h₁
    · exact ⟨_, rfl⟩
    · exact ⟨_, rfl⟩
    · exact ⟨_, rfl⟩
    · exact ⟨_, rfl⟩
    · exfalso
      apply hnot
      refine ⟨?_, by simpa using h₃, Nat.pos_of_ne_zero h₄, Nat.pos_of_ne_zero h₅⟩
      by_contra hc
      apply h₂
      have hc' : ¬event.status = "DRAFT" ∧ ¬event.status = "REJECTED" :=
        ⟨fun h => hc (Or.inl h), fun h => hc (Or.inr h)⟩
      simpa using hc'

/-- C7: for an existing event owned by the caller, `submitEventForApproval`
succeeds if and only if the status is `DRAFT` or `REJECTED`, a banner image URL is
present, and the event has at least one active stall and one assigned volunteer;
on success it writes status `PENDING_APPROVAL`; in every failing case it answers
400 with no update and no audit record. With zero active stalls it fails whatever
the banner and the volunteers, and once one active stall is stored the identical
call succeeds. -/
theorem submitEventForApproval_succeeds_iff_guards (db : Db) (eventId managerId : Nat)
    (event : Event) (hfound : findById db eventId = some event)
    (howner : event.created_by_manager_id = managerId) :
    ((submitEventForApproval db eventId managerId).1 =
        .successResponse () "Event submitted for admin approval successfully" ↔
      submissionReady db eventId event) ∧
    (submissionReady db eventId event →
      (∃ audit, (submitEventForApproval db eventId managerId).2 =
        [.eventUpdate eventId (submitUpdateData event), audit]) ∧
      ("status", JsValue.str "PENDING_APPROVAL") ∈ submitUpdateData event) ∧
    (¬ submissionReady db eventId event →
      ∃ reason, submitEventForApproval db eventId managerId = (.errorResponse reason 400, [])) ∧
    (activeStallCount db eventId = 0 →
      (∃ reason, submitEventForApproval db eventId managerId = (.errorResponse reason 400, [])) ∧
      ((event.status = "DRAFT" ∨ event.status = "REJECTED") →
        jsTruthy event.banner_image_url = true → 0 < volunteerCount db eventId →
        ∀ st : Stall, st.event_id = eventId → st.is_active = true →
          (submitEventForApproval (withStall db st) eventId managerId).1 =
            .successResponse () "Event submitted for admin approval successfully")) := by
  obtain ⟨hyes, hno⟩ := submitEventForApproval_owned db eventId managerId event hfound howner
  refine ⟨⟨?_, fun hr => by rw [hyes hr]⟩, ?_, hno, ?_⟩
  · intro hsucc
    by_contra hnot
    obtain ⟨reason, herr⟩ := hno hnot
    rw [herr] at hsucc
    cases hsucc
  · intro hr
    refine ⟨⟨_, by rw [hyes hr]⟩, ?_⟩
    unfold submitUpdateData
    split_ifs <;> simp
  · intro hzero
    refine ⟨hno fun hr => ?_, ?_⟩
    · have := hr.2.2.1
      omega
    · intro hstatus hbanner hvols st hev hact
      have hfound' : findById (withStall db st) eventId = some event := hfound
      have hready : submissionReady (withStall db st) eventId event := by
        refine ⟨hstatus, hbanner, ?_, hvols⟩
        rw [activeStallCount_withStall db st eventId hev hact]
        omega
      rw [(submitEventForApproval_owned (withStall db st) eventId managerId event hfound'
        howner).1 hready]

/-- Witness of C7: the draft event of `lifecycleDb` has a banner and a volunteer
but no active stall. -/
theorem submitEventForApproval_succeeds_iff_guards_witness :
    (findById lifecycleDb 1 = some draftEvent ∧ draftEvent.created_by_manager_id = 7) ∧
    (∃ reason, submitEventForApproval lifecycleDb 1 7 = (.errorResponse reason 400, [])) ∧
    (submitEventForApproval (withStall lifecycleDb { id := 11, stall_number := 3, event_id := 1 })
        1 7).1 = .successResponse () "Event submitted for admin approval successfully" :=
  ⟨⟨by decide, by decide⟩,
    ((submitEventForApproval_succeeds_iff_guards lifecycleDb 1 7 draftEvent (by decide)
      (by decide)).2.2.2 (by decide)).1,
    ((submitEventForApproval_succeeds_iff_guards lifecycleDb 1 7 draftEvent (by decide)
      (by decide)).2.2.2 (by decide)).2 (by decide) (by decide) (by decide)
      { id := 11, stall_number := 3, event_id := 1 } (by decide) (by decide)⟩

/-- C8: on a successful `submitEventForApproval` the handler issues exactly one
write to the event, `EventModel.update(eventId, updateData)`, followed by the
audit record; `updateData` is exactly `{status: PENDING_APPROVAL}` when the prior
status was `DRAFT` and exactly `{status: PENDING_APPROVAL,
admin_rejection_reason: null}` when it was `REJECTED`. -/
theorem submitEventForApproval_written_fields (db : Db) (eventId managerId : Nat)
    (message : String) (effects : List Effect)
    (h : submitEventForApproval db eventId managerId = (.successResponse () message, effects)) :
    ∃ event, findById db eventId = some event ∧
      ((event.status = "DRAFT" ∧
          effects =
            [ .eventUpdate eventId [("status", .str "PENDING_APPROVAL")],
              submitAudit event eventId managerId (activeStallCount db eventId)
                (volunteerCount db eventId) ]) ∨
        (event.status = "REJECTED" ∧
          effects =
            [ .eventUpdate eventId
                [("status", .str "PENDING_APPROVAL"), ("admin_rejection_reason", .null)],
              submitAudit event eventId managerId (activeStallCount db eventId)
                (volunteerCount db eventId) ])) := by
  cases hfound : findById db eventId with
  | none =>
    simp [submitEventForApproval, hfound] at h
  | some event =>
    refine ⟨event, rfl, ?_⟩
    by_cases howner : event.created_by_manager_id = managerId
    · obtain ⟨hyes, hno⟩ := submitEventForApproval_owned db eventId managerId event hfound howner
      by_cases hr : submissionReady db eventId event
      · rw [hyes hr] at h
        injection h with _ heff
        subst heff
        rcases hr.1 with hs | hs
        · left
          refine ⟨hs, ?_⟩
          simp [submitUpdateData, hs]
        · right
          refine ⟨hs, ?_⟩
          simp [submitUpdateData, hs]
      · obtain ⟨reason, herr⟩ := hno hr
        rw [herr] at h
        cases h
    · simp [submitEventForApproval, hfound, howner] at h

/-- Witness of C8: resubmitting the rejected event of `lifecycleDb` clears the
stored rejection reason. -/
theorem submitEventForApproval_written_fields_witness :
    submitEventForApproval lifecycleDb 2 7 =
        (.successResponse () "Event submitted for admin approval successfully",
          [ .eventUpdate 2 [("status", .str "PENDING_APPROVAL"), ("admin_rejection_reason", .null)],
            submitAudit rejectedEvent 2 7 1 1 ]) ∧
    ∃ event, findById lifecycleDb 2 = some event ∧
      ((event.status = "DRAFT" ∧
          [ Effect.eventUpdate 2
              [("status", .str "PENDING_APPROVAL"), ("admin_rejection_reason", .null)],
            submitAudit rejectedEvent 2 7 1 1 ] =
            [ .eventUpdate 2 [("status", .str "PENDING_APPROVAL")],
              submitAudit event 2 7 (activeStallCount lifecycleDb 2)
                (volunteerCount lifecycleDb 2) ]) ∨
        (event.status = "REJECTED" ∧
          [ Effect.eventUpdate 2
              [("status", .str "PENDING_APPROVAL"), ("admin_rejection_reason", .null)],
            submitAudit rejectedEvent 2 7 1 1 ] =
            [ .eventUpdate 2
                [("status", .str "PENDING_APPROVAL"), ("admin_rejection_reason", .null)],
              submitAudit event 2 7 (activeStallCount lifecycleDb 2)
                (volunteerCount lifecycleDb 2) ])) :=
  ⟨by decide,
    submitEventForApproval_written_fields lifecycleDb 2 7
      "Event submitted for admin approval successfully" _ (by decide)⟩

/-- C9, as amended: when the event model reports the event as already approved,
`approveEvent` answers with status 409 and `success: false`, message "Event was
already approved", carrying the current event with its `already_approved` marker;
likewise `rejectEvent`, given an accepted reason, answers an already-rejected
event with status 409, `success: false`, message "Event was already rejected" and
the event with its `already_rejected` marker. Neither answer is success-shaped. -/
theorem approve_reject_repeat_answers_conflict
    (approveByAdmin : Nat → Nat → ModelResult)
    (rejectByAdmin : Nat → Nat → String → ModelResult)
    (id adminId : Nat) (reason : String) (approved rejected : ModelEvent)
    (hreason : rejectionReasonRefused (some reason) = false)
    (happroved : approveByAdmin id adminId = .resolved (some approved))
    (hmarkA : approved.already_approved = true)
    (hrejected : rejectByAdmin id adminId reason = .resolved (some rejected))
    (hmarkR : rejected.already_rejected = true) :
    approveEvent approveByAdmin id adminId =
        (.json 409 false "Event was already approved" approved,
          [.approveByAdmin id adminId]) ∧
      (approveEvent approveByAdmin id adminId).1.successShaped = false ∧
    rejectEvent rejectByAdmin id adminId (some reason) =
        (.json 409 false "Event was already rejected" rejected,
          [.rejectByAdmin id adminId reason]) ∧
      (rejectEvent rejectByAdmin id adminId (some reason)).1.successShaped = false := by
  have ha : approveEvent approveByAdmin id adminId =
      (.json 409 false "Event was already approved" approved, [.approveByAdmin id adminId]) := by
    simp [approveEvent, happroved, hmarkA]
  have hr : rejectEvent rejectByAdmin id adminId (some reason) =
      (.json 409 false "Event was already rejected" rejected,
        [.rejectByAdmin id adminId reason]) := by
    simp [rejectEvent, hreason, hrejected, hmarkR]
  refine ⟨ha, ?_, hr, ?_⟩
  · rw [ha]; rfl
  · rw [hr]; rfl

/-- Witness of C9 (amended) with a model that reports the event as resolved. -/
theorem approve_reject_repeat_answers_conflict_witness :
    approveEvent (fun _ _ => alreadyResolvedModel) 1 9 =
        (.json 409 false "Event was already approved"
            { event := { draftEvent with status := "APPROVED" },
              already_approved := true, already_rejected := true },
          [.approveByAdmin 1 9]) ∧
      (approveEvent (fun _ _ => alreadyResolvedModel) 1 9).1.successShaped = false ∧
    rejectEvent (fun _ _ _ => alreadyResolvedModel) 1 9 (some "Venue is not available") =
        (.json 409 false "Event was already rejected"
            { event := { draftEvent with status := "APPROVED" },
              already_approved := true, already_rejected := true },
          [.rejectByAdmin 1 9 "Venue is not available"]) ∧
      (rejectEvent (fun _ _ _ => alreadyResolvedModel) 1 9
        (some "Venue is not available")).1.successShaped = false :=
  approve_reject_repeat_answers_conflict (fun _ _ => alreadyResolvedModel)
    (fun _ _ _ => alreadyResolvedModel) 1 9 "Venue is not available" _ _
    (by decide) rfl rfl rfl rfl

/-- C9 as stated fails: on an event the model reports as already approved,
`approveEvent` answers with status 409 and `success: false`, which is not a
success-shaped response. -/
theorem approveEvent_repeat_counterexample :
    ∃ data, (approveEvent (fun _ _ => alreadyResolvedModel) 1 9).1 =
        .json 409 false "Event was already approved" data ∧
      data.already_approved = true ∧
      (approveEvent (fun _ _ => alreadyResolvedModel) 1 9).1.successShaped = false :=
  ⟨_, rfl, rfl, rfl⟩

/-- C10, as amended: `rejectEvent` fails with the 400 error "Rejection reason must
be at least 10 characters" if and only if `rejection_reason` is missing or its
length after `trim()` (in UTF-16 code units) is below 10; in that case
`rejectByAdmin` is not invoked; and for every reason whose trimmed length is at
least 10, `rejectByAdmin` is invoked once, with the reason as supplied. -/
theorem rejectEvent_reason_guard (rejectByAdmin : Nat → Nat → String → ModelResult)
    (id adminId : Nat) (rejection_reason : Option String) :
    ((rejectEvent rejectByAdmin id adminId rejection_reason).1 =
        .errorResponse "Rejection reason must be at least 10 characters" 400 ↔
      (rejection_reason = none ∨
        ∃ reason, rejection_reason = some reason ∧ jsLength (jsTrim reason) < 10)) ∧
    ((rejection_reason = none ∨
        ∃ reason, rejection_reason = some reason ∧ jsLength (jsTrim reason) < 10) →
      (rejectEvent rejectByAdmin id adminId rejection_reason).2 = []) ∧
    (∀ reason, rejection_reason = some reason → 10 ≤ jsLength (jsTrim reason) →
      (rejectEvent rejectByAdmin id adminId rejection_reason).2 =
        [.rejectByAdmin id adminId reason]) := by
  cases rejection_reason with
  | none => simp [rejectEvent]
  | some reason =>
    have hne : 10 ≤ jsLength (jsTrim reason) → jsTruthy (some reason) = true := by
      intro hlen
      by_contra hfalsy
      have : reason = "" := by simpa [jsTruthy] using hfalsy
      subst this
      revert hlen
      decide
    by_cases hshort : jsLength (jsTrim reason) < 10
    · have hrefused : rejectionReasonRefused (some reason) = true := by
        simp [rejectionReasonRefused, hshort]
      simp only [rejectEvent, hrefused, if_true]
      refine ⟨⟨fun _ => Or.inr ⟨reason, rfl, hshort⟩, fun _ => by trivial⟩, fun _ => by trivial, ?_⟩
      intro reason' hsome hlen
      injection hsome with hsome
      subst hsome
      omega
    · have hlen : 10 ≤ jsLength (jsTrim reason) := by omega
      have hrefused : rejectionReasonRefused (some reason) = false := by
        simp [rejectionReasonRefused, hne hlen, hshort]
      have hnotshort : ¬ (∃ reason', some reason = some reason' ∧
          jsLength (jsTrim reason') < 10) := by
        rintro ⟨reason', hsome, hlt⟩
        injection hsome with hsome
        subst hsome
        exact hshort hlt
      simp only [rejectEvent, hrefused]
      refine ⟨⟨?_, ?_⟩, ?_, ?_⟩
      · intro herr
        exfalso
        cases hres : rejectByAdmin id adminId reason with
        | threw => simp [hres] at herr
        | resolved value =>
          cases value with
          | none => simp [hres] at herr
          | some ev =>
            by_cases hmark : ev.already_rejected = true <;> simp [hres, hmark] at herr
      · rintro (h | h)
        · cases h
        · exact absurd h hnotshort
      · rintro (h | h)
        · cases h
        · exact absurd h hnotshort
      · intro reason' hsome _
        injection hsome with hsome
        subst hsome
        cases hres : rejectByAdmin id adminId reason with
        | threw => simp
        | resolved value =>
          cases value with
          | none => simp
          | some ev => by_cases hmark : ev.already_rejected = true <;> simp [hmark]

/-- Witness of C10 (amended): a reason of 22 characters reaches the model
unchanged. -/
theorem rejectEvent_reason_guard_witness :
    (rejectEvent (fun _ _ _ => alreadyResolvedModel) 1 9 (some "Venue is not available")).2 =
      [.rejectByAdmin 1 9 "Venue is not available"] :=
  (rejectEvent_reason_guard (fun _ _ _ => alreadyResolvedModel) 1 9
    (some "Venue is not available")).2.2 "Venue is not available" rfl (by decide)

/-- C10 as stated fails: the reason "short" followed by five blanks has 10
characters, yet `rejectEvent` answers with the 400 error and does not invoke
`rejectByAdmin`. -/
theorem rejectEvent_reason_counterexample :
    "short     ".length = 10 ∧ jsLength "short     " = 10 ∧
    rejectEvent (fun _ _ _ => alreadyResolvedModel) 1 9 (some "short     ") =
      (.errorResponse "Rejection reason must be at least 10 characters" 400, []) := by
  refine ⟨?_, ?_, ?_⟩ <;> decide

/-! ### Update, delete and the ownership check -/

/-- Handler `updateEvent` on an owned event: refused on a locked status, applied otherwise. -/
theorem updateEvent_owned (db : Db) (update : Nat → List (String × JsValue) → Option Event)
    (eventId managerId : Nat) (body : List (String × JsValue)) (event : Event)
    (hfound : findById db eventId = some event)
    (howner : event.created_by_manager_id = managerId) :
    (updateLocked event.status →
      updateEvent db update eventId managerId body =
        (.errorResponse "Cannot update event that is active, completed, or archived" 400, [])) ∧
    (¬ updateLocked event.status →
      (update eventId body = none →
        updateEvent db update eventId managerId body =
          (.errorResponse "Cannot read properties of null (reading 'event_name')" 500,
            [.eventUpdate eventId body])) ∧
      (∀ updated, update eventId body = some updated →
        updateEvent db update eventId managerId body =
          (.successResponse updated "Event updated successfully",
            [.eventUpdate eventId body, updateAudit updated eventId managerId body]))) := by
  have hcontains : ["ACTIVE", "COMPLETED", "ARCHIVED"].contains event.status = true ↔
      updateLocked event.status := by
    simp [updateLocked]
  constructor
  · intro hlocked
    simp only [updateEvent, hfound]
    rw [if_neg (by simpa using howner), if_pos (hcontains.2 hlocked)]
  · intro hfree
    have hfree' : ¬ ["ACTIVE", "COMPLETED", "ARCHIVED"].contains event.status = true :=
      fun h => hfree (hcontains.1 h)
    constructor
    · intro hnone
      simp only [updateEvent, hfound]
      rw [if_neg (by simpa using howner), if_neg hfree', hnone]
    · intro updated hsome
      simp only [updateEvent, hfound]
      rw [if_neg (by simpa using howner), if_neg hfree', hsome]

/-- On an owned event outside the locked statuses `updateEvent` always starts by
calling `EventModel.update(eventId, req.body)`. -/
theorem updateEvent_owned_writes (db : Db)
    (update : Nat → List (String × JsValue) → Option Event)
    (eventId managerId : Nat) (body : List (String × JsValue)) (event : Event)
    (hfound : findById db eventId = some event)
    (howner : event.created_by_manager_id = managerId)
    (hfree : ¬ updateLocked event.status) :
    ∃ rest, (updateEvent db update eventId managerId body).2 =
      .eventUpdate eventId body :: rest := by
  obtain ⟨hnone, hsome⟩ :=
    (updateEvent_owned db update eventId managerId body event hfound howner).2 hfree
  cases hres : update eventId body with
  | none => exact ⟨[], by rw [hnone hres]⟩
  | some updated => exact ⟨_, by rw [hsome updated hres]⟩

/-- Handler `deleteEvent` on an owned event. -/
theorem deleteEvent_owned (db : Db) (eventId managerId : Nat) (event : Event)
    (hfound : findById db eventId = some event)
    (howner : event.created_by_manager_id = managerId) :
    deleteEvent db eventId managerId =
      (.successResponse () "Event cancelled successfully",
        [.eventDelete eventId, deleteAudit event eventId managerId]) := by
  simp only [deleteEvent, hfound]
  rw [if_neg (by simpa using howner)]

/-- C11: for an owned event and every request body, `updateEvent` on status
`ACTIVE`, `COMPLETED` or `ARCHIVED` answers 400 with no write and no audit
record; on status `DRAFT` the same update passes the guard and is applied:
`EventModel.update(eventId, req.body)` is called, and with the updated row the
handler emits the audit record and answers with success. -/
theorem updateEvent_lock (db : Db) (update : Nat → List (String × JsValue) → Option Event)
    (eventId managerId : Nat) (body : List (String × JsValue)) (event : Event)
    (hfound : findById db eventId = some event)
    (howner : event.created_by_manager_id = managerId) :
    ((event.status = "ACTIVE" ∨ event.status = "COMPLETED" ∨ event.status = "ARCHIVED") →
      updateEvent db update eventId managerId body =
        (.errorResponse "Cannot update event that is active, completed, or archived" 400, [])) ∧
    (event.status = "DRAFT" →
      (∃ rest, (updateEvent db update eventId managerId body).2 =
        .eventUpdate eventId body :: rest) ∧
      (∀ updated, update eventId body = some updated →
        updateEvent db update eventId managerId body =
          (.successResponse updated "Event updated successfully",
            [.eventUpdate eventId body, updateAudit updated eventId managerId body]))) := by
  obtain ⟨hlocked, hfree⟩ := updateEvent_owned db update eventId managerId body event hfound howner
  refine ⟨hlocked, fun hdraft => ?_⟩
  have hnot : ¬ updateLocked event.status := by
    rw [hdraft]
    decide
  exact ⟨updateEvent_owned_writes db update eventId managerId body event hfound howner hnot,
    (hfree hnot).2⟩

/-- Witness of C11: renaming the active event 4 of `statusDb` is refused, renaming
the draft event 1 is applied. -/
theorem updateEvent_lock_witness :
    updateEvent statusDb (storingUpdate statusDb) 4 7 [("event_name", .str "Expo")] =
      (.errorResponse "Cannot update event that is active, completed, or archived" 400, []) ∧
    updateEvent statusDb (storingUpdate statusDb) 1 7 [("event_name", .str "Expo")] =
      (.successResponse
          { id := 1, event_name := "Expo", created_by_manager_id := 7, status := "DRAFT" }
          "Event updated successfully",
        [ .eventUpdate 1 [("event_name", .str "Expo")],
          updateAudit { id := 1, event_name := "Expo", created_by_manager_id := 7,
                        status := "DRAFT" } 1 7 [("event_name", .str "Expo")] ]) :=
  ⟨(updateEvent_lock statusDb (storingUpdate statusDb) 4 7 [("event_name", .str "Expo")]
      { id := 4, event_name := "Active", created_by_manager_id := 7, status := "ACTIVE" }
      (by decide) (by decide)).1 (by decide),
    ((updateEvent_lock statusDb (storingUpdate statusDb) 1 7 [("event_name", .str "Expo")]
      { id := 1, event_name := "Draft", created_by_manager_id := 7, status := "DRAFT" }
      (by decide) (by decide)).2 (by decide)).2 _ (by decide)⟩

/-- C12, as amended: for an owned event `updateEvent` refuses the update, with a
400 error and no write, exactly when the status is `ACTIVE`, `COMPLETED` or
`ARCHIVED`; for every other status, `DRAFT`, `PENDING_APPROVAL` and `REJECTED` as
well as `APPROVED` and `CANCELLED`, it calls `EventModel.update` with the request
body. -/
theorem updateEvent_refused_iff_locked (db : Db)
    (update : Nat → List (String × JsValue) → Option Event)
    (eventId managerId : Nat) (body : List (String × JsValue)) (event : Event)
    (hfound : findById db eventId = some event)
    (howner : event.created_by_manager_id = managerId) :
    (updateEvent db update eventId managerId body =
        (.errorResponse "Cannot update event that is active, completed, or archived" 400, []) ↔
      (event.status = "ACTIVE" ∨ event.status = "COMPLETED" ∨ event.status = "ARCHIVED")) ∧
    ((updateEvent db update eventId managerId body).2 = [] ↔
      (event.status = "ACTIVE" ∨ event.status = "COMPLETED" ∨ event.status = "ARCHIVED")) ∧
    (event.status ∈ ["DRAFT", "PENDING_APPROVAL", "REJECTED", "APPROVED", "CANCELLED"] →
      ∃ rest, (updateEvent db update eventId managerId body).2 =
        .eventUpdate eventId body :: rest) := by
  obtain ⟨hlocked, -⟩ := updateEvent_owned db update eventId managerId body event hfound howner
  have hwrites := updateEvent_owned_writes db update eventId managerId body event hfound howner
  refine ⟨⟨fun h => ?_, hlocked⟩, ⟨fun h => ?_, fun h => by rw [hlocked h]⟩, fun h => ?_⟩
  · by_contra hfree
    obtain ⟨rest, hrest⟩ := hwrites hfree
    rw [h] at hrest
    cases hrest
  · by_contra hfree
    obtain ⟨rest, hrest⟩ := hwrites hfree
    rw [h] at hrest
    cases hrest
  · apply hwrites
    intro hl
    unfold updateLocked at hl
    simp only [List.mem_cons, List.mem_singleton, List.not_mem_nil, or_false] at h
    rcases h with h | h | h | h | h <;> rw [h] at hl <;> revert hl <;> decide

/-- Witness of C12 (amended): the pending event 2 of `statusDb` is updated. -/
theorem updateEvent_refused_iff_locked_witness :
    ∃ rest, (updateEvent statusDb (storingUpdate statusDb) 2 7
        [("event_name", .str "Expo")]).2 =
      .eventUpdate 2 [("event_name", .str "Expo")] :: rest :=
  (updateEvent_refused_iff_locked statusDb (storingUpdate statusDb) 2 7
    [("event_name", .str "Expo")]
    { id := 2, event_name := "Pending", created_by_manager_id := 7,
      status := "PENDING_APPROVAL" } (by decide) (by decide)).2.2 (by decide)

/-- C12 as stated fails: the update of the `APPROVED` event 3 of `statusDb` by its
owner is not refused; `EventModel.update` is called with the body and the
handler answers with success. -/
theorem updateEvent_approved_counterexample :
    findById statusDb 3 =
      some { id := 3, event_name := "Approved", created_by_manager_id := 7,
             status := "APPROVED" } ∧
    updateEvent statusDb (storingUpdate statusDb) 3 7 [("event_name", .str "Expo")] =
      (.successResponse
          { id := 3, event_name := "Expo", created_by_manager_id := 7, status := "APPROVED" }
          "Event updated successfully",
        [ .eventUpdate 3 [("event_name", .str "Expo")],
          updateAudit { id := 3, event_name := "Expo", created_by_manager_id := 7,
                        status := "APPROVED" } 3 7 [("event_name", .str "Expo")] ]) := by
  constructor <;> decide

/-- C13, as amended: `deleteEvent` has no status guard; for every event owned by
the caller, whatever its status, `ACTIVE` included, it calls `EventModel.delete`,
emits the `EVENT_DELETED` audit record and answers with success. -/
theorem deleteEvent_any_status (db : Db) (eventId managerId : Nat) (event : Event)
    (hfound : findById db eventId = some event)
    (howner : event.created_by_manager_id = managerId) :
    deleteEvent db eventId managerId =
      (.successResponse () "Event cancelled successfully",
        [ .eventDelete eventId,
          .auditEvent "EVENT_DELETED" managerId "EVENT_MANAGER" "EVENT" eventId
            [ ("event_name", .str event.event_name), ("event_code", .str event.event_code) ] ]) :=
  deleteEvent_owned db eventId managerId event hfound howner

/-- Witness of C13 (amended) on the draft event of `statusDb`. -/
theorem deleteEvent_any_status_witness :
    deleteEvent statusDb 1 7 =
      (.successResponse () "Event cancelled successfully",
        [ .eventDelete 1,
          .auditEvent "EVENT_DELETED" 7 "EVENT_MANAGER" "EVENT" 1
            [ ("event_name", .str "Draft"), ("event_code", .str "") ] ]) :=
  deleteEvent_any_status statusDb 1 7
    { id := 1, event_name := "Draft", created_by_manager_id := 7, status := "DRAFT" }
    (by decide) (by decide)

/-- C13 as stated fails: `deleteEvent` on the `ACTIVE` event 4 of `statusDb`,
called by its owner, calls `EventModel.delete`, emits the `EVENT_DELETED` audit
record and answers with success. -/
theorem deleteEvent_active_counterexample :
    findById statusDb 4 =
      some { id := 4, event_name := "Active", created_by_manager_id := 7, status := "ACTIVE" } ∧
    deleteEvent statusDb 4 7 =
      (.successResponse () "Event cancelled successfully",
        [ .eventDelete 4,
          .auditEvent "EVENT_DELETED" 7 "EVENT_MANAGER" "EVENT" 4
            [ ("event_name", .str "Active"), ("event_code", .str "") ] ]) := by
  constructor <;> decide

/-! ### The analytics gate -/

theorem analyticsRefused_eq_false_iff (status : String) :
    analyticsRefused status = false ↔ analyticsAllowed status := by
  unfold analyticsRefused analyticsAllowed
  by_cases h₁ : status = "APPROVED" <;> by_cases h₂ : status = "ACTIVE" <;>
    by_cases h₃ : status = "COMPLETED" <;> simp [h₁, h₂, h₃]

/-- The class binds `getEventAnalytics` to its second definition. -/
theorem managerGetEventAnalytics_eq_second :
    EventManagerController.getEventAnalytics =
      EventManagerController.getEventAnalyticsSecond := rfl

/-- The admin handler on an existing event. -/
theorem getEventAnalytics_found (db : Db) (id : Nat) (event : Event)
    (hfound : findById db id = some event) :
    (analyticsAllowed event.status →
      getEventAnalytics db id =
        (.successResponse (analyticsReport db event id) "", analyticsReads id)) ∧
    (¬ analyticsAllowed event.status →
      getEventAnalytics db id =
        (.errorResponse "Analytics are only available for approved events" 400, [])) := by
  constructor
  · intro h
    simp only [getEventAnalytics, hfound, (analyticsRefused_eq_false_iff _).2 h]
    rfl
  · intro h
    have hrefused : analyticsRefused event.status = true := by
      cases hr : analyticsRefused event.status with
      | true => rfl
      | false => exact absurd ((analyticsRefused_eq_false_iff _).1 hr) h
    simp only [getEventAnalytics, hfound, hrefused]
    rfl

/-- The bound manager handler on an existing event of the caller. -/
theorem managerGetEventAnalytics_owned (db : Db) (models : ReadModels)
    (eventId managerId : Nat) (event : Event)
    (hfound : findById db eventId = some event)
    (howner : event.created_by_manager_id = managerId) :
    (analyticsAllowed event.status →
      EventManagerController.getEventAnalytics db models eventId managerId =
        (.successResponse (.report (analyticsReport db event eventId)) "",
          analyticsReads eventId)) ∧
    (¬ analyticsAllowed event.status →
      EventManagerController.getEventAnalytics db models eventId managerId =
        (.errorResponse "Analytics are only available for approved events" 400, [])) := by
  rw [managerGetEventAnalytics_eq_second]
  constructor
  · intro h
    simp only [EventManagerController.getEventAnalyticsSecond, hfound]
    rw [if_neg (by simpa using howner)]
    simp only [(analyticsRefused_eq_false_iff _).2 h]
    rfl
  · intro h
    have hrefused : analyticsRefused event.status = true := by
      cases hr : analyticsRefused event.status with
      | true => rfl
      | false => exact absurd ((analyticsRefused_eq_false_iff _).1 hr) h
    simp only [EventManagerController.getEventAnalyticsSecond, hfound]
    rw [if_neg (by simpa using howner)]
    simp only [hrefused]
    rfl

/-- C14: for every existing event, the admin `getEventAnalytics` answers with the
analytics report if and only if the status is `APPROVED`, `ACTIVE` or
`COMPLETED`, and for every other status with the 400 error, having issued no
analytics query; the same holds, for an event of the caller, of the handler bound
to `EventManagerController.getEventAnalytics`, which is the second definition of
that name in the class. -/
theorem getEventAnalytics_status_gate (db : Db) (models : ReadModels)
    (eventId managerId : Nat) (event : Event)
    (hfound : findById db eventId = some event)
    (howner : event.created_by_manager_id = managerId) :
    (((∃ report, (getEventAnalytics db eventId).1 = .successResponse report "") ↔
        (event.status = "APPROVED" ∨ event.status = "ACTIVE" ∨ event.status = "COMPLETED")) ∧
      ((event.status = "APPROVED" ∨ event.status = "ACTIVE" ∨ event.status = "COMPLETED") →
        getEventAnalytics db eventId =
          (.successResponse (analyticsReport db event eventId) "", analyticsReads eventId)) ∧
      (¬ (event.status = "APPROVED" ∨ event.status = "ACTIVE" ∨ event.status = "COMPLETED") →
        getEventAnalytics db eventId =
          (.errorResponse "Analytics are only available for approved events" 400, []))) ∧
    (((∃ report, (EventManagerController.getEventAnalytics db models eventId managerId).1 =
          .successResponse report "") ↔
        (event.status = "APPROVED" ∨ event.status = "ACTIVE" ∨ event.status = "COMPLETED")) ∧
      ((event.status = "APPROVED" ∨ event.status = "ACTIVE" ∨ event.status = "COMPLETED") →
        EventManagerController.getEventAnalytics db models eventId managerId =
          (.successResponse (.report (analyticsReport db event eventId)) "",
            analyticsReads eventId)) ∧
      (¬ (event.status = "APPROVED" ∨ event.status = "ACTIVE" ∨ event.status = "COMPLETED") →
        EventManagerController.getEventAnalytics db models eventId managerId =
          (.errorResponse "Analytics are only available for approved events" 400, []))) ∧
    EventManagerController.getEventAnalytics = EventManagerController.getEventAnalyticsSecond := by
  obtain ⟨ha₁, ha₂⟩ := getEventAnalytics_found db eventId event hfound
  obtain ⟨hm₁, hm₂⟩ :=
    managerGetEventAnalytics_owned db models eventId managerId event hfound howner
  refine ⟨⟨⟨?_, fun h => ⟨_, by rw [ha₁ h]⟩⟩, ha₁, ha₂⟩,
    ⟨⟨?_, fun h => ⟨_, by rw [hm₁ h]⟩⟩, hm₁, hm₂⟩, rfl⟩
  · rintro ⟨report, hreport⟩
    by_contra hnot
    rw [ha₂ hnot] at hreport
    cases hreport
  · rintro ⟨report, hreport⟩
    by_contra hnot
    rw [hm₂ hnot] at hreport
    cases hreport

/-- Witness of C14: the analytics of the draft event 1 of `statusDb` are refused
on both surfaces, those of the approved event 3 are served. -/
theorem getEventAnalytics_status_gate_witness :
    getEventAnalytics statusDb 1 =
        (.errorResponse "Analytics are only available for approved events" 400, []) ∧
    EventManagerController.getEventAnalytics statusDb nullModels 1 7 =
        (.errorResponse "Analytics are only available for approved events" 400, []) ∧
    (∃ report, (getEventAnalytics statusDb 3).1 = .successResponse report "") ∧
    (∃ report, (EventManagerController.getEventAnalytics statusDb nullModels 3 7).1 =
        .successResponse report "") :=
  ⟨(getEventAnalytics_status_gate statusDb nullModels 1 7
      { id := 1, event_name := "Draft", created_by_manager_id := 7, status := "DRAFT" }
      (by decide) (by decide)).1.2.2 (by decide),
    (getEventAnalytics_status_gate statusDb nullModels 1 7
      { id := 1, event_name := "Draft", created_by_manager_id := 7, status := "DRAFT" }
      (by decide) (by decide)).2.1.2.2 (by decide),
    (getEventAnalytics_status_gate statusDb nullModels 3 7
      { id := 3, event_name := "Approved", created_by_manager_id := 7, status := "APPROVED" }
      (by decide) (by decide)).1.1.2 (by decide),
    (getEventAnalytics_status_gate statusDb nullModels 3 7
      { id := 3, event_name := "Approved", created_by_manager_id := 7, status := "APPROVED" }
      (by decide) (by decide)).2.1.1.2 (by decide)⟩

/-- C15: every event-manager operation on a single event answers a non-existent
event with 404, before any ownership check, and an existing event created by
another manager with 403; in both cases it issues no update, no delete, no audit
record and no read, and the answer carries no event data. -/
theorem manager_operations_ownership (db : Db) (models : ReadModels)
    (update : Nat → List (String × JsValue) → Option Event)
    (eventId managerId : Nat) (body : List (String × JsValue))
    (registration_status payment_status : Option String) (page limit : Option Int) :
    (findById db eventId = none →
      getEventDetails db models eventId managerId = (.errorResponse "Event not found" 404, []) ∧
      updateEvent db update eventId managerId body = (.errorResponse "Event not found" 404, []) ∧
      deleteEvent db eventId managerId = (.errorResponse "Event not found" 404, []) ∧
      getEventRegistrations db models eventId managerId registration_status payment_status
        page limit = (.errorResponse "Event not found" 404, []) ∧
      EventManagerController.getEventAnalytics db models eventId managerId =
        (.errorResponse "Event not found" 404, []) ∧
      submitEventForApproval db eventId managerId = (.errorResponse "Event not found" 404, [])) ∧
    (∀ event, findById db eventId = some event → event.created_by_manager_id ≠ managerId →
      getEventDetails db models eventId managerId =
        (.errorResponse "Unauthorized access to this event" 403, []) ∧
      updateEvent db update eventId managerId body =
        (.errorResponse "Unauthorized access to this event" 403, []) ∧
      deleteEvent db eventId managerId =
        (.errorResponse "Unauthorized access to this event" 403, []) ∧
      getEventRegistrations db models eventId managerId registration_status payment_status
        page limit = (.errorResponse "Unauthorized access to this event" 403, []) ∧
      EventManagerController.getEventAnalytics db models eventId managerId =
        (.errorResponse "Unauthorized access to this event" 403, []) ∧
      submitEventForApproval db eventId managerId =
        (.errorResponse "Unauthorized access to this event" 403, [])) := by
  rw [managerGetEventAnalytics_eq_second]
  constructor
  · intro hnone
    simp [getEventDetails, updateEvent, deleteEvent, getEventRegistrations,
      EventManagerController.getEventAnalyticsSecond, submitEventForApproval, hnone]
  · intro event hfound hother
    simp [getEventDetails, updateEvent, deleteEvent, getEventRegistrations,
      EventManagerController.getEventAnalyticsSecond, submitEventForApproval, hfound, hother]

/-- Witness of C15: manager 8 is refused on the draft event of manager 7. -/
theorem manager_operations_ownership_witness :
    getEventDetails statusDb nullModels 1 8 =
        (.errorResponse "Unauthorized access to this event" 403, []) ∧
    updateEvent statusDb (storingUpdate statusDb) 1 8 [("status", .str "ACTIVE")] =
        (.errorResponse "Unauthorized access to this event" 403, []) ∧
    deleteEvent statusDb 1 8 = (.errorResponse "Unauthorized access to this event" 403, []) ∧
    getEventRegistrations statusDb nullModels 1 8 none none none none =
        (.errorResponse "Unauthorized access to this event" 403, []) ∧
    EventManagerController.getEventAnalytics statusDb nullModels 1 8 =
        (.errorResponse "Unauthorized access to this event" 403, []) ∧
    submitEventForApproval statusDb 1 8 =
        (.errorResponse "Unauthorized access to this event" 403, []) :=
  (manager_operations_ownership statusDb nullModels (storingUpdate statusDb) 1 8
    [("status", .str "ACTIVE")] none none none none).2
    { id := 1, event_name := "Draft", created_by_manager_id := 7, status := "DRAFT" }
    (by decide) (by decide)

/-- C16, as amended: on an event whose status is `ARCHIVED` or `CANCELLED`,
`submitEventForApproval` writes nothing, `updateEvent` writes nothing when the
status is `ARCHIVED`, and no operation writes for a caller who is not the
creator; for the creator, `updateEvent` on a `CANCELLED` event calls
`EventModel.update` with the request body and `deleteEvent` calls
`EventModel.delete` on either status. -/
theorem terminal_status_writes (db : Db)
    (update : Nat → List (String × JsValue) → Option Event)
    (eventId managerId : Nat) (body : List (String × JsValue)) (event : Event)
    (hfound : findById db eventId = some event)
    (hterminal : event.status = "ARCHIVED" ∨ event.status = "CANCELLED") :
    (submitEventForApproval db eventId managerId).2 = [] ∧
    (event.status = "ARCHIVED" → (updateEvent db update eventId managerId body).2 = []) ∧
    (event.created_by_manager_id ≠ managerId →
      (updateEvent db update eventId managerId body).2 = [] ∧
      (deleteEvent db eventId managerId).2 = []) ∧
    (event.created_by_manager_id = managerId →
      (event.status = "CANCELLED" →
        ∃ rest, (updateEvent db update eventId managerId body).2 =
          .eventUpdate eventId body :: rest) ∧
      (deleteEvent db eventId managerId).2 =
        [.eventDelete eventId, deleteAudit event eventId managerId]) := by
  have hother : event.created_by_manager_id ≠ managerId →
      (updateEvent db update eventId managerId body).2 = [] ∧
      (deleteEvent db eventId managerId).2 = [] := by
    intro hne
    simp [updateEvent, deleteEvent, hfound, hne]
  refine ⟨?_, ?_, hother, ?_⟩
  · by_cases howner : event.created_by_manager_id = managerId
    · have hnot : ¬ submissionReady db eventId event := by
        intro hready
        have hstatus := hready.1
        rcases hterminal with h | h <;> rw [h] at hstatus <;> revert hstatus <;> decide
      obtain ⟨reason, hsubmit⟩ :=
        (submitEventForApproval_owned db eventId managerId event hfound howner).2 hnot
      rw [hsubmit]
    · simp [submitEventForApproval, hfound, howner]
  · intro harchived
    by_cases howner : event.created_by_manager_id = managerId
    · rw [(updateEvent_owned db update eventId managerId body event hfound howner).1
        (Or.inr (Or.inr harchived))]
    · exact (hother howner).1
  · intro howner
    refine ⟨fun hcancelled => ?_, ?_⟩
    · apply updateEvent_owned_writes db update eventId managerId body event hfound howner
      rw [hcancelled]
      decide
    · rw [deleteEvent_owned db eventId managerId event hfound howner]

/-- Witness of C16 (amended): submitting the archived event 6 of `statusDb` writes
nothing. -/
theorem terminal_status_writes_witness :
    (submitEventForApproval statusDb 6 7).2 = [] :=
  (terminal_status_writes statusDb (storingUpdate statusDb) 6 7 []
    { id := 6, event_name := "Archived", created_by_manager_id := 7, status := "ARCHIVED" }
    (by decide) (by decide)).1

/-- C16 as stated fails: the creator's `updateEvent` on the `CANCELLED` event 7 of
`statusDb` writes the request body, here a new status, and the creator's
`deleteEvent` on the `ARCHIVED` event 6 calls `EventModel.delete`. -/
theorem terminal_status_counterexample :
    updateEvent statusDb (storingUpdate statusDb) 7 7 [("status", .str "DRAFT")] =
      (.successResponse
          { id := 7, event_name := "Cancelled", created_by_manager_id := 7, status := "DRAFT" }
          "Event updated successfully",
        [ .eventUpdate 7 [("status", .str "DRAFT")],
          updateAudit { id := 7, event_name := "Cancelled", created_by_manager_id := 7,
                        status := "DRAFT" } 7 7 [("status", .str "DRAFT")] ]) ∧
    deleteEvent statusDb 6 7 =
      (.successResponse () "Event cancelled successfully",
        [ .eventDelete 6,
          deleteAudit { id := 6, event_name := "Archived", created_by_manager_id := 7,
                        status := "ARCHIVED" } 6 7 ]) := by
  constructor <;> decide

/-! ### Rounding to doubles -/

theorem roundDouble_zero : roundDouble 0 = 0 := by
  simp [roundDouble]

theorem roundHalfEven_intCast (n : ℤ) : roundHalfEven (n : ℚ) = n := by
  simp [roundHalfEven]

theorem abs_roundHalfEven_sub_le (q : ℚ) : |(roundHalfEven q : ℚ) - q| ≤ 1 / 2 := by
  have h1 := Int.floor_le q
  have h2 := Int.lt_floor_add_one q
  unfold roundHalfEven
  split_ifs with ha hb hc
  · rw [abs_le]; constructor <;> linarith
  · rw [abs_le]; push_cast; constructor <;> linarith
  · rw [abs_le]; constructor <;> linarith
  · rw [abs_le]; push_cast; constructor <;> linarith

theorem roundHalfEven_eq_of_abs_sub_lt (q : ℚ) (m : ℤ) (h : |q - m| < 1 / 2) :
    roundHalfEven q = m := by
  have hle := abs_roundHalfEven_sub_le q
  rw [abs_lt] at h
  rw [abs_le] at hle
  have hlt : |((roundHalfEven q - m : ℤ) : ℚ)| < 1 := by
    rw [abs_lt]; push_cast; constructor <;> linarith
  have : |roundHalfEven q - m| < 1 := by exact_mod_cast hlt
  have := Int.abs_lt_one_iff.1 this
  omega


theorem log_two_eq {x : ℚ} {e : ℤ} (hx : 0 < x) (hlo : (2 : ℚ) ^ e ≤ x)
    (hhi : x < (2 : ℚ) ^ (e + 1)) : Int.log 2 x = e := by
  have h1 : e ≤ Int.log 2 x :=
    (Int.zpow_le_iff_le_log (by norm_num) hx).1 (by simpa using hlo)
  have h2 : Int.log 2 x < e + 1 :=
    (Int.lt_zpow_iff_log_lt (by norm_num) hx).1 (by simpa using hhi)
  omega

theorem two_zpow_log_le {x : ℚ} (hx : x ≠ 0) : (2 : ℚ) ^ Int.log 2 |x| ≤ |x| := by
  simpa using Int.zpow_log_le_self (b := 2) (r := |x|) (by norm_num) (abs_pos.2 hx)

theorem lt_two_zpow_log_succ (x : ℚ) : |x| < (2 : ℚ) ^ (Int.log 2 |x| + 1) := by
  simpa using Int.lt_zpow_succ_log_self (b := 2) (by norm_num) |x|

theorem roundDouble_eq {x : ℚ} {e m : ℤ} (hlo : (2 : ℚ) ^ e ≤ |x|)
    (hhi : |x| < (2 : ℚ) ^ (e + 1)) (hm : |x / 2 ^ (e - 52) - m| < 1 / 2) :
    roundDouble x = m * 2 ^ (e - 52) := by
  have hpos : 0 < |x| := lt_of_lt_of_le (by positivity) hlo
  have hx : x ≠ 0 := abs_pos.1 hpos
  have hlog : Int.log 2 |x| = e := log_two_eq hpos hlo hhi
  unfold roundDouble
  rw [if_neg hx, hlog, roundHalfEven_eq_of_abs_sub_lt _ m hm]

theorem abs_roundDouble_sub_le (x : ℚ) : |roundDouble x - x| ≤ 2 ^ (-53 : ℤ) * |x| := by
  by_cases hx : x = 0
  · simp [hx, roundDouble_zero]
  · unfold roundDouble
    rw [if_neg hx]
    set e := Int.log 2 |x| with he
    have hulp : (0 : ℚ) < 2 ^ (e - 52) := by positivity
    have hq := abs_roundHalfEven_sub_le (x / 2 ^ (e - 52))
    have heq : (roundHalfEven (x / 2 ^ (e - 52)) : ℚ) * 2 ^ (e - 52) - x =
        ((roundHalfEven (x / 2 ^ (e - 52)) : ℚ) - x / 2 ^ (e - 52)) * 2 ^ (e - 52) := by
      field_simp
    rw [heq, abs_mul, abs_of_pos hulp]
    have hle : (2 : ℚ) ^ e ≤ |x| := two_zpow_log_le hx
    have hsplit : (2 : ℚ) ^ (e - 52) = 2 ^ (-52 : ℤ) * 2 ^ e := by
      rw [← zpow_add₀ (by norm_num : (2 : ℚ) ≠ 0)]
      congr 1
      ring
    calc |(roundHalfEven (x / 2 ^ (e - 52)) : ℚ) - x / 2 ^ (e - 52)| * 2 ^ (e - 52)
        ≤ 1 / 2 * 2 ^ (e - 52) := by
          exact mul_le_mul_of_nonneg_right hq hulp.le
      _ = 2 ^ (-53 : ℤ) * 2 ^ e := by
          rw [hsplit]
          norm_num
          ring
      _ ≤ 2 ^ (-53 : ℤ) * |x| := by
          exact mul_le_mul_of_nonneg_left hle (by positivity)

theorem roundDouble_of_repr (m k : ℤ) (hm : |m| ≤ 2 ^ 53) :
    roundDouble ((m : ℚ) * 2 ^ k) = (m : ℚ) * 2 ^ k := by
  by_cases hm0 : m = 0
  · simp [hm0, roundDouble_zero]
  have h2 : (2 : ℚ) ≠ 0 := by norm_num
  have hx : (m : ℚ) * 2 ^ k ≠ 0 := mul_ne_zero (by exact_mod_cast hm0) (by positivity)
  have habs : |(m : ℚ) * 2 ^ k| = |(m : ℚ)| * 2 ^ k := by
    rw [abs_mul, abs_of_pos (by positivity : (0 : ℚ) < 2 ^ k)]
  have hmq : |(m : ℚ)| ≤ 2 ^ 53 := by exact_mod_cast hm
  set e := Int.log 2 |(m : ℚ) * 2 ^ k| with he
  have hlo : (2 : ℚ) ^ e ≤ |(m : ℚ)| * 2 ^ k := habs ▸ two_zpow_log_le hx
  have hint : ∃ n : ℤ, (m : ℚ) * 2 ^ k / 2 ^ (e - 52) = n := by
    have hle : (2 : ℚ) ^ e ≤ 2 ^ (53 + k) := by
      calc (2 : ℚ) ^ e ≤ |(m : ℚ)| * 2 ^ k := hlo
        _ ≤ 2 ^ 53 * 2 ^ k := mul_le_mul_of_nonneg_right hmq (by positivity)
        _ = 2 ^ (53 + k) := by
          rw [zpow_add₀ h2]
          norm_num
    have he53 : e ≤ 53 + k := (zpow_le_zpow_iff_right₀ (by norm_num : (1 : ℚ) < 2)).1 hle
    rcases lt_or_eq_of_le he53 with hlt | heq
    · refine ⟨m * 2 ^ (k - e + 52).toNat, ?_⟩
      have hj : ((k - e + 52).toNat : ℤ) = k - e + 52 := Int.toNat_of_nonneg (by omega)
      push_cast
      rw [← zpow_natCast, hj, mul_div_assoc, ← zpow_sub₀ h2]
      congr 2
      ring
    · have hge : (2 : ℚ) ^ 53 ≤ |(m : ℚ)| := by
        have : (2 : ℚ) ^ 53 * 2 ^ k ≤ |(m : ℚ)| * 2 ^ k := by
          calc (2 : ℚ) ^ 53 * 2 ^ k = 2 ^ (53 + k) := by
                rw [zpow_add₀ h2]
                norm_num
            _ = 2 ^ e := by rw [heq]
            _ ≤ |(m : ℚ)| * 2 ^ k := hlo
        exact le_of_mul_le_mul_right this (by positivity)
      have habsm : |m| = 2 ^ 53 := le_antisymm hm (by exact_mod_cast hge)
      refine ⟨m / 2, ?_⟩
      have hdiv : (2 : ℤ) ∣ m := by
        rcases abs_eq (by norm_num : (0 : ℤ) ≤ 2 ^ 53) |>.1 habsm with h | h <;>
          rw [h] <;> norm_num
      rw [Int.cast_div hdiv (by norm_num), heq]
      have : (53 + k - 52 : ℤ) = k + 1 := by ring
      rw [this, zpow_add₀ h2]
      field_simp
      ring
  obtain ⟨n, hn⟩ := hint
  unfold roundDouble
  rw [if_neg hx, ← he, hn, roundHalfEven_intCast, ← hn]
  field_simp

theorem roundDouble_roundDouble (x : ℚ) : roundDouble (roundDouble x) = roundDouble x := by
  by_cases hx : x = 0
  · simp [hx, roundDouble_zero]
  have hval : roundDouble x =
      (roundHalfEven (x / 2 ^ (Int.log 2 |x| - 52)) : ℚ) * 2 ^ (Int.log 2 |x| - 52) := by
    unfold roundDouble
    rw [if_neg hx]
  rw [hval]
  apply roundDouble_of_repr
  set e := Int.log 2 |x| with he
  have hulp : (0 : ℚ) < 2 ^ (e - 52) := by positivity
  have hq := abs_roundHalfEven_sub_le (x / 2 ^ (e - 52))
  have hhi : |x / 2 ^ (e - 52)| < 2 ^ 53 := by
    rw [abs_div, abs_of_pos hulp, div_lt_iff₀ hulp]
    calc |x| < 2 ^ (e + 1) := lt_two_zpow_log_succ x
      _ = 2 ^ 53 * 2 ^ (e - 52) := by
        rw [show (e + 1 : ℤ) = 53 + (e - 52) by ring, zpow_add₀ (by norm_num : (2 : ℚ) ≠ 0)]
        norm_num
  have hlt : |(roundHalfEven (x / 2 ^ (e - 52)) : ℚ)| < 2 ^ 53 + 1 := by
    have := abs_sub_abs_le_abs_sub (roundHalfEven (x / 2 ^ (e - 52)) : ℚ) (x / 2 ^ (e - 52))
    linarith
  have hlt' : |roundHalfEven (x / 2 ^ (e - 52))| < 2 ^ 53 + 1 := by exact_mod_cast hlt
  omega

/-! ### Check-in statistics and session pairing -/

theorem toFixed2_zero : toFixed2 0 = 0 := by
  norm_num [toFixed2]

theorem abs_toFixed2_sub_le (x : ℚ) : |toFixed2 x - x| ≤ 1 / 200 := by
  unfold toFixed2
  split_ifs with h
  · have h1 := Int.floor_le (-x * 100 + 1 / 2)
    have h2 := Int.lt_floor_add_one (-x * 100 + 1 / 2)
    rw [abs_le]
    constructor <;> linarith
  · have h1 := Int.floor_le (x * 100 + 1 / 2)
    have h2 := Int.lt_floor_add_one (x * 100 + 1 / 2)
    rw [abs_le]
    constructor <;> linarith

theorem unitRoundoff_pos : 0 < unitRoundoff := by
  unfold unitRoundoff; positivity

/-- One rounding after an approximation -/
theorem abs_roundDouble_sub_le_of_approx {y z W K : ℚ}
    (h : |y - z| ≤ (K - 1) * W) (hz : |z| ≤ W) :
    |roundDouble y - z| ≤ (K * (1 + unitRoundoff) - 1) * W := by
  have hrd := abs_roundDouble_sub_le y
  have hy : |y| ≤ K * W := by
    have := abs_sub_abs_le_abs_sub y z
    linarith
  have hu := unitRoundoff_pos
  have h1 : |roundDouble y - z| ≤ |roundDouble y - y| + |y - z| := abs_sub_le _ _ _
  have h2 : unitRoundoff * |y| ≤ unitRoundoff * (K * W) :=
    mul_le_mul_of_nonneg_left hy hu.le
  unfold unitRoundoff at *
  nlinarith

theorem abs_div_sub_div_le {y z W K c : ℚ} (hc : 0 < c) (h : |y - z| ≤ (K - 1) * W) :
    |y / c - z / c| ≤ (K - 1) * (W / c) := by
  rw [← sub_div, abs_div, abs_of_pos hc, ← mul_div_assoc]
  exact div_le_div_of_nonneg_right h hc.le

/-- The double `(checkOut - checkIn) / 1000 / 60` is within three roundings of
the exact length in minutes. -/
theorem abs_durationMinutes_sub_le (r : CheckInRecord) :
    |durationMinutes r - exactMinutes r| ≤
      ((1 + unitRoundoff) ^ 3 - 1) * |exactMinutes r| := by
  unfold durationMinutes exactMinutes
  set t : ℚ := ((r.check_out_time.getD 0 - r.check_in_time : Int) : ℚ) with ht
  have h0 : |t - t| ≤ ((1 : ℚ) - 1) * |t| := by simp
  have h1 := abs_roundDouble_sub_le_of_approx h0 le_rfl
  have h1' : |roundDouble t / 1000 - t / 1000| ≤ (1 * (1 + unitRoundoff) - 1) * (|t| / 1000) :=
    abs_div_sub_div_le (by norm_num) h1
  have hz1 : |t / 1000| ≤ |t| / 1000 := by rw [abs_div]; norm_num
  have h2 := abs_roundDouble_sub_le_of_approx h1' hz1
  have h2' : |roundDouble (roundDouble t / 1000) / 60 - t / 1000 / 60| ≤
      (1 * (1 + unitRoundoff) * (1 + unitRoundoff) - 1) * (|t| / 1000 / 60) :=
    abs_div_sub_div_le (by norm_num) h2
  have hz2 : |t / 1000 / 60| ≤ |t| / 1000 / 60 := by rw [abs_div, abs_div]; norm_num
  have h3 := abs_roundDouble_sub_le_of_approx h2' hz2
  have e1 : t / 60000 = t / 1000 / 60 := by ring
  have e2 : |t / 60000| = |t| / 1000 / 60 := by rw [abs_div]; norm_num; ring
  rw [e1, ← e1, e2]
  rw [e1]
  calc |roundDouble (roundDouble (roundDouble t / 1000) / 60) - t / 1000 / 60|
      ≤ (1 * (1 + unitRoundoff) * (1 + unitRoundoff) * (1 + unitRoundoff) - 1) *
          (|t| / 1000 / 60) := h3
    _ = ((1 + unitRoundoff) ^ 3 - 1) * (|t| / 1000 / 60) := by ring

/-- The running sum of `reduce((a, b) => a + b, ...)` stays within one more
rounding per term of the exact sum. -/
theorem abs_foldl_sub_le (l : List CheckInRecord) :
    ∀ (s Z W K : ℚ), (1 + unitRoundoff) ^ 3 ≤ K → |s - Z| ≤ (K - 1) * W → |Z| ≤ W →
      |(l.map durationMinutes).foldl (fun a b => roundDouble (a + b)) s -
          (Z + (l.map exactMinutes).sum)| ≤
        (K * (1 + unitRoundoff) ^ l.length - 1) * (W + (l.map fun r => |exactMinutes r|).sum) := by
  induction l with
  | nil =>
    intro s Z W K _ h _
    simpa using h
  | cons r l ih =>
    intro s Z W K hK h hZ
    have hu := unitRoundoff_pos
    have hK1 : 1 ≤ K := by
      have : (1 : ℚ) ≤ (1 + unitRoundoff) ^ 3 := one_le_pow₀ (by linarith)
      linarith
    have hW : 0 ≤ W := le_trans (abs_nonneg _) hZ
    have hdur := abs_durationMinutes_sub_le r
    have hsum : |s + durationMinutes r - (Z + exactMinutes r)| ≤
        (K - 1) * (W + |exactMinutes r|) := by
      have h1 : |s + durationMinutes r - (Z + exactMinutes r)| ≤
          |s - Z| + |durationMinutes r - exactMinutes r| := by
        have : s + durationMinutes r - (Z + exactMinutes r) =
            (s - Z) + (durationMinutes r - exactMinutes r) := by ring
        rw [this]
        exact abs_add _ _
      have h2 : ((1 + unitRoundoff) ^ 3 - 1) * |exactMinutes r| ≤ (K - 1) * |exactMinutes r| :=
        mul_le_mul_of_nonneg_right (by linarith) (abs_nonneg _)
      linarith
    have hZ' : |Z + exactMinutes r| ≤ W + |exactMinutes r| :=
      le_trans (abs_add _ _) (by linarith)
    have hstep := abs_roundDouble_sub_le_of_approx hsum hZ'
    have hK' : (1 + unitRoundoff) ^ 3 ≤ K * (1 + unitRoundoff) := by nlinarith
    have := ih (roundDouble (s + durationMinutes r)) (Z + exactMinutes r)
      (W + |exactMinutes r|) (K * (1 + unitRoundoff)) hK' hstep hZ'
    simp only [List.map_cons, List.foldl_cons, List.sum_cons, List.length_cons]
    calc _ ≤ (K * (1 + unitRoundoff) * (1 + unitRoundoff) ^ l.length - 1) *
          (W + |exactMinutes r| + (l.map fun r => |exactMinutes r|).sum) := by
            simpa [add_assoc] using this
      _ = (K * (1 + unitRoundoff) ^ (l.length + 1) - 1) *
          (W + (|exactMinutes r| + (l.map fun r => |exactMinutes r|).sum)) := by ring

theorem abs_sum_le_sum_abs_map {α : Type} (f : α → ℚ) (l : List α) :
    |(l.map f).sum| ≤ (l.map fun a => |f a|).sum := by
  induction l with
  | nil => simp
  | cons a l ih =>
    simp only [List.map_cons, List.sum_cons]
    exact le_trans (abs_add _ _) (by linarith)

theorem sum_exactMinutes (l : List CheckInRecord) :
    (l.map exactMinutes).sum =
      (l.map fun r => ((r.check_out_time.getD 0 - r.check_in_time : Int) : ℚ)).sum / 60000 := by
  induction l with
  | nil => simp
  | cons r l ih =>
    rw [List.map_cons, List.sum_cons, ih, List.map_cons, List.sum_cons]
    unfold exactMinutes
    ring

theorem sum_abs_exactMinutes (l : List CheckInRecord) :
    (l.map fun r => |exactMinutes r|).sum =
      (l.map fun r => |((r.check_out_time.getD 0 - r.check_in_time : Int) : ℚ)|).sum / 60000 := by
  induction l with
  | nil => simp
  | cons r l ih =>
    rw [List.map_cons, List.sum_cons, ih, List.map_cons, List.sum_cons]
    unfold exactMinutes
    rw [abs_div]
    norm_num
    ring

/-- The guarded division of `getStats` always yields a finite number, within
`n + 4` roundings of the exact mean of the `n` completed visits. -/
theorem avgDuration_completedDurations (records : List CheckInRecord) :
    ∃ avg, avgDuration (completedDurations records) = some avg ∧
      |avg - meanCompletedMinutes records| ≤
        ((1 + unitRoundoff) ^ ((completedDurations records).length + 4) - 1) *
          meanAbsCompletedMinutes records := by
  unfold avgDuration completedDurations meanCompletedMinutes meanAbsCompletedMinutes
  cases hc : records.filter (fun r => r.check_out_time.isSome) with
  | nil => exact ⟨0, by simp, by simp⟩
  | cons r rest =>
    have hlen : ((List.map durationMinutes (r :: rest)).length : ℚ) ≠ 0 := by
      simp only [List.length_map, List.length_cons]
      positivity
    have hpos : 0 < (List.map durationMinutes (r :: rest)).length := by simp
    rw [if_pos hpos]
    unfold jsDiv
    rw [if_neg hlen]
    refine ⟨_, rfl, ?_⟩
    have hu := unitRoundoff_pos
    have hn : (0 : ℚ) < ((r :: rest).length : ℚ) := by
      simp only [List.length_cons]
      positivity
    have hsum := abs_foldl_sub_le (r :: rest) 0 0 0 ((1 + unitRoundoff) ^ 3) le_rfl
      (by simp) (by simp)
    rw [zero_add, zero_add] at hsum
    have hdiv := abs_div_sub_div_le hn hsum
    have hz : |((r :: rest).map exactMinutes).sum / ((r :: rest).length : ℚ)| ≤
        ((r :: rest).map fun r => |exactMinutes r|).sum / ((r :: rest).length : ℚ) := by
      rw [abs_div, abs_of_pos hn]
      exact div_le_div_of_nonneg_right (abs_sum_le_sum_abs_map _ _) hn.le
    have hrd := abs_roundDouble_sub_le_of_approx hdiv hz
    rw [sum_exactMinutes, sum_abs_exactMinutes] at hrd
    simp only [List.length_map, if_neg (List.cons_ne_nil r rest)]
    calc _ ≤ ((1 + unitRoundoff) ^ 3 * (1 + unitRoundoff) ^ (r :: rest).length *
            (1 + unitRoundoff) - 1) * _ := hrd
      _ = _ := by ring

theorem roundDouble_intCast (n : ℤ) (h : |n| ≤ 2 ^ 53) : roundDouble (n : ℚ) = n := by
  simpa using roundDouble_of_repr n 0 h

/-- The double `60300 / 1000 / 60` lies below 1.005. -/
theorem durationMinutes_oneVisit :
    durationMinutes { student_id := 4, stall_id := 9, check_in_time := 0,
                      check_out_time := some 60300 } =
      1131529406376837 / 1125899906842624 := by
  have h1 : roundDouble ((60300 : ℤ) : ℚ) = 60300 := by
    simpa using roundDouble_intCast 60300 (by norm_num)
  have h2 : roundDouble (60300 / 1000) = ((8486470547826278 : ℤ) : ℚ) * 2 ^ ((5 : ℤ) - 52) :=
    roundDouble_eq (by norm_num [abs_of_pos]) (by norm_num [abs_of_pos])
      (by rw [abs_lt]; norm_num)
  have h3 : roundDouble (((8486470547826278 : ℤ) : ℚ) * 2 ^ ((5 : ℤ) - 52) / 60) =
      ((4526117625507348 : ℤ) : ℚ) * 2 ^ ((0 : ℤ) - 52) :=
    roundDouble_eq (by norm_num [abs_of_pos]) (by norm_num [abs_of_pos])
      (by rw [abs_lt]; norm_num)
  simp only [durationMinutes, Option.getD_some, sub_zero, h1, h2, h3]
  norm_num

theorem getStats_oneVisit :
    getStats oneVisit =
      .successResponse
        { total_check_ins := 1, active_check_ins := 0, completed_check_ins := 1,
          average_duration_minutes := some 1 } "" := by
  have hrepr : roundDouble (1131529406376837 / 1125899906842624 : ℚ) =
      1131529406376837 / 1125899906842624 := by
    have h := roundDouble_of_repr 4526117625507348 (-52) (by norm_num)
    norm_num at h ⊢
    exact h
  have hone : roundDouble 1 = 1 := by
    simpa using roundDouble_intCast 1 (by norm_num)
  simp only [getStats, oneVisit, completedDurations, avgDuration, jsDiv, parseFloat,
    List.filter_cons, List.filter_nil, Option.isSome_some, if_true, Bool.not_true,
    Bool.false_eq_true, if_false, List.map_cons, List.map_nil, List.length_cons,
    List.length_nil, List.foldl_cons, List.foldl_nil, durationMinutes_oneVisit, zero_add]
  norm_num [hrepr, toFixed2, hone]

theorem parseFloat_zero : parseFloat 0 = 0 := roundDouble_zero

/-- Every record is counted once, as active or as completed. -/
theorem length_eq_active_add_completed (records : List CheckInRecord) :
    records.length = (records.filter fun r => !r.check_out_time.isSome).length +
      (records.filter fun r => r.check_out_time.isSome).length := by
  induction records with
  | nil => rfl
  | cons r rest ih =>
    cases hout : r.check_out_time <;>
      simp only [List.filter_cons, hout, Option.isSome_none, Option.isSome_some,
        Bool.not_false, Bool.not_true, if_true, if_false, List.length_cons,
        Bool.false_eq_true] <;> omega

/-- For every list of records the answer of `getStats`, with the double mean it
rounds. -/
theorem getStats_eq (records : List CheckInRecord) :
    ∃ avg, avgDuration (completedDurations records) = some avg ∧
      getStats records =
        .successResponse
          { total_check_ins := records.length
            active_check_ins := (records.filter fun r => !r.check_out_time.isSome).length
            completed_check_ins := (completedDurations records).length
            average_duration_minutes := some (parseFloat (toFixed2 avg)) } "" := by
  obtain ⟨avg, havg, -⟩ := avgDuration_completedDurations records
  refine ⟨avg, havg, ?_⟩
  unfold getStats
  simp only [havg, Option.map_some']
  simp [completedDurations]

/-- C18, as stated, fails: for one visit of 60300 milliseconds the exact mean is
1.005 minutes, which rounds to 1.01, while `getStats` reports 1: the double
`60300 / 1000 / 60` lies below 1.005. -/
theorem getStats_average_duration_counterexample :
    getStats oneVisit =
        .successResponse
          { total_check_ins := 1, active_check_ins := 0, completed_check_ins := 1,
            average_duration_minutes := some 1 } "" ∧
      meanCompletedMinutes oneVisit = 201 / 200 ∧
      toFixed2 (meanCompletedMinutes oneVisit) = 101 / 100 := by
  refine ⟨getStats_oneVisit, ?_, ?_⟩ <;>
    norm_num [meanCompletedMinutes, oneVisit, toFixed2, List.filter_cons]

/-- C18, amended: for every list of check-in records `getStats` answers with
success and reports `average_duration_minutes` as `parseFloat(avg.toFixed(2))`
of the mean `avg` it computes in double arithmetic over exactly the records that
have a `check_out_time`; `avg` is within `n + 4` roundings of the exact mean of
these `n` visits, so the decimal reported is within 1/200 plus that error of the
exact mean; it reports 0 when no record has a `check_out_time`, and the division
always has a divisor other than zero, so the reported value is a finite number. -/
theorem getStats_average_duration (records : List CheckInRecord) :
    ∃ stats avg, getStats records = .successResponse stats "" ∧
      avgDuration (completedDurations records) = some avg ∧
      stats.average_duration_minutes = some (parseFloat (toFixed2 avg)) ∧
      |avg - meanCompletedMinutes records| ≤
        ((1 + unitRoundoff) ^ ((completedDurations records).length + 4) - 1) *
          meanAbsCompletedMinutes records ∧
      |toFixed2 avg - meanCompletedMinutes records| ≤
        1 / 200 + ((1 + unitRoundoff) ^ ((completedDurations records).length + 4) - 1) *
          meanAbsCompletedMinutes records ∧
      ((∀ r ∈ records, r.check_out_time = none) → stats.average_duration_minutes = some 0) ∧
      stats.completed_check_ins = (completedDurations records).length ∧
      stats.total_check_ins = stats.active_check_ins + stats.completed_check_ins := by
  obtain ⟨avg, havg, hbound⟩ := avgDuration_completedDurations records
  obtain ⟨avg', havg', hstats⟩ := getStats_eq records
  have heq : avg' = avg := Option.some.inj (havg'.symm.trans havg)
  subst heq
  refine ⟨_, avg', hstats, havg, rfl, hbound, ?_, ?_, rfl, ?_⟩
  · have h1 := abs_toFixed2_sub_le avg'
    have h2 : |toFixed2 avg' - meanCompletedMinutes records| ≤
        |toFixed2 avg' - avg'| + |avg' - meanCompletedMinutes records| := abs_sub_le _ _ _
    linarith
  · intro hnone
    have hfilter : records.filter (fun r => r.check_out_time.isSome) = [] := by
      rw [List.filter_eq_nil_iff]
      intro r hr
      simp [hnone r hr]
    have hzero : avg' = 0 := by
      have : avgDuration (completedDurations records) = some 0 := by
        simp [avgDuration, completedDurations, hfilter]
      exact Option.some.inj (havg.symm.trans this)
    show some (parseFloat (toFixed2 avg')) = some 0
    rw [hzero, toFixed2_zero, parseFloat_zero]
  · show records.length = (records.filter fun r => !r.check_out_time.isSome).length +
      (completedDurations records).length
    unfold completedDurations
    rw [List.length_map]
    exact length_eq_active_add_completed records

/-- The double mean of `twoVisits` is 1.5 minutes, reported as it is. -/
theorem getStats_twoVisits :
    getStats twoVisits =
      .successResponse
        { total_check_ins := 2, active_check_ins := 1, completed_check_ins := 1,
          average_duration_minutes := some (3 / 2) } "" := by
  have h1 : roundDouble ((90000 : ℤ) : ℚ) = 90000 := by
    simpa using roundDouble_intCast 90000 (by norm_num)
  have h2 : roundDouble (90 : ℚ) = 90 := by
    simpa using roundDouble_intCast 90 (by norm_num)
  have h3 : roundDouble (3 / 2 : ℚ) = 3 / 2 := by
    have h := roundDouble_of_repr 3 (-1) (by norm_num)
    norm_num at h ⊢
    exact h
  have hdur : durationMinutes ⟨4, 9, 0, some 90000⟩ = 3 / 2 := by
    simp only [durationMinutes, Option.getD_some, sub_zero, h1]
    norm_num [h2, h3]
  simp only [getStats, twoVisits, completedDurations, avgDuration, jsDiv, parseFloat,
    List.filter_cons, List.filter_nil, Option.isSome_some, Option.isSome_none, if_true,
    Bool.not_true, Bool.not_false, Bool.false_eq_true, if_false, List.map_cons, List.map_nil,
    List.length_cons, List.length_nil, List.foldl_cons, List.foldl_nil, hdur, zero_add]
  norm_num [h3, toFixed2]

/-- Witness of C18 on two visits, one completed after 90 seconds and one open:
the report is 1.5 minutes. -/
theorem getStats_average_duration_witness :
    (∃ stats avg, getStats twoVisits = .successResponse stats "" ∧
      avgDuration (completedDurations twoVisits) = some avg ∧
      stats.average_duration_minutes = some (parseFloat (toFixed2 avg)) ∧
      |avg - meanCompletedMinutes twoVisits| ≤
        ((1 + unitRoundoff) ^ ((completedDurations twoVisits).length + 4) - 1) *
          meanAbsCompletedMinutes twoVisits ∧
      |toFixed2 avg - meanCompletedMinutes twoVisits| ≤
        1 / 200 + ((1 + unitRoundoff) ^ ((completedDurations twoVisits).length + 4) - 1) *
          meanAbsCompletedMinutes twoVisits ∧
      ((∀ r ∈ twoVisits, r.check_out_time = none) → stats.average_duration_minutes = some 0) ∧
      stats.completed_check_ins = (completedDurations twoVisits).length ∧
      stats.total_check_ins = stats.active_check_ins + stats.completed_check_ins) ∧
    getStats twoVisits =
      .successResponse
        { total_check_ins := 2, active_check_ins := 1, completed_check_ins := 1,
          average_duration_minutes := some (3 / 2) } "" :=
  ⟨getStats_average_duration twoVisits, getStats_twoVisits⟩

theorem completedCount_append_open (sessions : List CheckInRecord) (r : CheckInRecord)
    (hopen : r.check_out_time = none) :
    completedCount (sessions ++ [r]) = completedCount sessions := by
  simp [completedCount, List.filter_append, List.filter_cons, hopen]

/-- A `CHECK_OUT` at `t` finds a session to close exactly when one is open that
was opened strictly before `t`. -/
theorem closeSession_eq_none_iff (t : Int) (sessions : List CheckInRecord) :
    closeSession t sessions = none ↔
      ¬ ∃ r ∈ sessions, r.check_out_time = none ∧ r.check_in_time < t := by
  induction sessions with
  | nil => simp [closeSession]
  | cons r rest ih =>
    unfold closeSession
    by_cases hr : r.check_out_time = none ∧ r.check_in_time < t
    · rw [if_pos hr]
      simp only [reduceCtorEq, false_iff, not_not]
      exact ⟨r, List.mem_cons_self _ _, hr⟩
    · rw [if_neg hr, Option.map_eq_none', ih]
      constructor
      · rintro hnone ⟨x, hx, hopen⟩
        rcases List.mem_cons.1 hx with rfl | hx'
        · exact hr hopen
        · exact hnone ⟨x, hx', hopen⟩
      · rintro hnone ⟨x, hx, hopen⟩
        exact hnone ⟨x, List.mem_cons_of_mem _ hx, hopen⟩

/-- Closing a session completes exactly one more visit. -/
theorem completedCount_closeSession (t : Int) :
    ∀ (sessions closed : List CheckInRecord), closeSession t sessions = some closed →
      completedCount closed = completedCount sessions + 1
  | [], closed, h => by simp [closeSession] at h
  | r :: rest, closed, h => by
    unfold closeSession at h
    by_cases hr : r.check_out_time = none ∧ r.check_in_time < t
    · rw [if_pos hr] at h
      injection h with h
      subst h
      simp [completedCount, List.filter_cons, hr.1]
    · rw [if_neg hr] at h
      cases hrest : closeSession t rest with
      | none => simp [hrest] at h
      | some closed' =>
        rw [hrest] at h
        injection h with h
        subst h
        have ih := completedCount_closeSession t rest closed' hrest
        unfold completedCount at ih ⊢
        by_cases hout : r.check_out_time.isSome = true
        · simp only [List.filter_cons, hout, if_true, List.length_cons, ih]
        · simp only [List.filter_cons, hout, if_false, ih, Bool.false_eq_true]

/-- C17: under the session pairing of the specification, the scan stream
`[CHECK_IN@t1, CHECK_OUT@t2, CHECK_IN@t3]` of one (student, stall) pair with
`t1 < t2 < t3` yields one completed session from `t1` to `t2` and one open
session from `t3`, which `getStats` reports as one completed check-in and one
active check-in, with the length of the completed one as the average: the double
`(t2 - t1) / 1000 / 60` printed with two decimals, which is within 1/200 plus
three roundings of `(t2 - t1) / 60000` minutes. In general a scan
completes one more session exactly when it is a `CHECK_OUT` that strictly
follows an unmatched `CHECK_IN`, and no session otherwise. -/
theorem session_pairing_in_out_in (t1 t2 t3 : Int) (h12 : t1 < t2) (_h23 : t2 < t3) :
    reconstructSessions (inOutIn t1 t2 t3) =
        [ { student_id := 4, stall_id := 9, check_in_time := t1, check_out_time := some t2 },
          { student_id := 4, stall_id := 9, check_in_time := t3, check_out_time := none } ] ∧
    completedDurations (reconstructSessions (inOutIn t1 t2 t3)) =
        [ roundDouble (roundDouble (roundDouble ((t2 - t1 : Int) : ℚ) / 1000) / 60) ] ∧
    getStats (reconstructSessions (inOutIn t1 t2 t3)) =
        .successResponse
          { total_check_ins := 2, active_check_ins := 1, completed_check_ins := 1,
            average_duration_minutes :=
              some (parseFloat (toFixed2
                (roundDouble (roundDouble (roundDouble ((t2 - t1 : Int) : ℚ) / 1000) / 60)))) }
          "" ∧
    |toFixed2 (roundDouble (roundDouble (roundDouble ((t2 - t1 : Int) : ℚ) / 1000) / 60)) -
        ((t2 - t1 : Int) : ℚ) / 60000| ≤
      1 / 200 + ((1 + unitRoundoff) ^ 3 - 1) * (((t2 - t1 : Int) : ℚ) / 60000) ∧
    (∀ (sessions : List CheckInRecord) (scan : Scan),
      ((scan.check_type = "CHECK_OUT" ∧
          ∃ r ∈ sessions, r.check_out_time = none ∧ r.check_in_time < scan.check_time) →
        completedCount (applyScan sessions scan) = completedCount sessions + 1) ∧
      (¬ (scan.check_type = "CHECK_OUT" ∧
          ∃ r ∈ sessions, r.check_out_time = none ∧ r.check_in_time < scan.check_time) →
        completedCount (applyScan sessions scan) = completedCount sessions)) := by
  have hsessions : reconstructSessions (inOutIn t1 t2 t3) =
      [ { student_id := 4, stall_id := 9, check_in_time := t1, check_out_time := some t2 },
        { student_id := 4, stall_id := 9, check_in_time := t3, check_out_time := none } ] := by
    simp [reconstructSessions, inOutIn, applyScan, closeSession, h12]
  refine ⟨hsessions, ?_, ?_, ?_, ?_⟩
  · rw [hsessions]
    simp [completedDurations, durationMinutes, List.filter_cons]
  · rw [hsessions]
    simp [getStats, completedDurations, durationMinutes, avgDuration, jsDiv, List.filter_cons,
      roundDouble_roundDouble]
  · have hdur := abs_durationMinutes_sub_le
      { student_id := 4, stall_id := 9, check_in_time := t1, check_out_time := some t2 }
    have hfix := abs_toFixed2_sub_le
      (roundDouble (roundDouble (roundDouble ((t2 - t1 : Int) : ℚ) / 1000) / 60))
    have hpos : (0 : ℚ) ≤ ((t2 - t1 : Int) : ℚ) / 60000 := by
      have : (0 : ℚ) ≤ ((t2 - t1 : Int) : ℚ) := by exact_mod_cast (by omega : 0 ≤ t2 - t1)
      positivity
    simp only [durationMinutes, exactMinutes, Option.getD_some, abs_of_nonneg hpos] at hdur
    have htri := abs_sub_le
      (toFixed2 (roundDouble (roundDouble (roundDouble ((t2 - t1 : Int) : ℚ) / 1000) / 60)))
      (roundDouble (roundDouble (roundDouble ((t2 - t1 : Int) : ℚ) / 1000) / 60))
      (((t2 - t1 : Int) : ℚ) / 60000)
    linarith
  · intro sessions scan
    constructor
    · rintro ⟨hout, hopen⟩
      have hin : ¬ scan.check_type = "CHECK_IN" := by
        rw [hout]
        decide
      cases hclose : closeSession scan.check_time sessions with
      | none => exact absurd hopen ((closeSession_eq_none_iff _ _).1 hclose)
      | some closed =>
        simp only [applyScan, hin, hout, if_false, if_true, hclose, Option.getD_some]
        exact completedCount_closeSession _ _ _ hclose
    · intro hnot
      unfold applyScan
      by_cases hin : scan.check_type = "CHECK_IN"
      · rw [if_pos hin]
        exact completedCount_append_open _ _ rfl
      · rw [if_neg hin]
        by_cases hout : scan.check_type = "CHECK_OUT"
        · rw [if_pos hout]
          have hnone : closeSession scan.check_time sessions = none :=
            (closeSession_eq_none_iff _ _).2 fun h => hnot ⟨hout, h⟩
          rw [hnone]
          rfl
        · rw [if_neg hout]

/-- The double `120000 / 1000 / 60` is 2, printed as `2.00`. -/
theorem two_minutes :
    parseFloat (toFixed2
      (roundDouble (roundDouble (roundDouble ((120000 - 0 : Int) : ℚ) / 1000) / 60))) = 2 := by
  have h1 : roundDouble ((120000 : ℤ) : ℚ) = 120000 := by
    simpa using roundDouble_intCast 120000 (by norm_num)
  have h2 : roundDouble (120 : ℚ) = 120 := by
    simpa using roundDouble_intCast 120 (by norm_num)
  have h3 : roundDouble (2 : ℚ) = 2 := by
    simpa using roundDouble_intCast 2 (by norm_num)
  simp only [sub_zero, h1, parseFloat]
  norm_num [h2, h3, toFixed2]

/-- Witness of C17 with `t1 = 0`, `t2 = 120000` and `t3 = 300000` milliseconds:
one completed check-in of 2 minutes and one active check-in. -/
theorem session_pairing_in_out_in_witness :
    getStats (reconstructSessions (inOutIn 0 120000 300000)) =
        .successResponse
          { total_check_ins := 2, active_check_ins := 1, completed_check_ins := 1,
            average_duration_minutes :=
              some (parseFloat (toFixed2
                (roundDouble (roundDouble (roundDouble ((120000 - 0 : Int) : ℚ) / 1000) /
                  60)))) } "" ∧
      parseFloat (toFixed2
        (roundDouble (roundDouble (roundDouble ((120000 - 0 : Int) : ℚ) / 1000) / 60))) = 2 :=
  ⟨(session_pairing_in_out_in 0 120000 300000 (by decide) (by decide)).2.2.1, two_minutes⟩

/-! ### Volunteer productivity -/

theorem parseIntOr_some_zero (n : Int) : parseIntOr (some n) 0 = n := by
  unfold parseIntOr
  split
  · rename_i h; cases h
  · rename_i h; injection h with h; exact h.symm
  · rename_i m _ h; injection h with h; exact h.symm

theorem foldl_min_replicate (a : Int) (xs : List Int) (h : ∀ x ∈ xs, x = a) :
    xs.foldl min a = a := by
  induction xs with
  | nil => rfl
  | cons x xs ih =>
    have hx : x = a := h x (List.mem_cons_self _ _)
    rw [List.foldl_cons, hx, min_self]
    exact ih fun y hy => h y (List.mem_cons_of_mem _ hy)

theorem foldl_max_replicate (a : Int) (xs : List Int) (h : ∀ x ∈ xs, x = a) :
    xs.foldl max a = a := by
  induction xs with
  | nil => rfl
  | cons x xs ih =>
    have hx : x = a := h x (List.mem_cons_self _ _)
    rw [List.foldl_cons, hx, max_self]
    exact ih fun y hy => h y (List.mem_cons_of_mem _ hy)

/-- Over rows that all carry the same time, `MIN` and `MAX` agree. -/
theorem sqlMin_eq_sqlMax_of_const (a : Int) (xs : List Int) (h : ∀ x ∈ xs, x = a) :
    sqlMin xs = sqlMax xs := by
  cases xs with
  | nil => rfl
  | cons x xs =>
    have hx : x = a := h x (List.mem_cons_self _ _)
    have hrest : ∀ y ∈ xs, y = a := fun y hy => h y (List.mem_cons_of_mem _ hy)
    simp only [sqlMin, sqlMax, hx, foldl_min_replicate a xs hrest,
      foldl_max_replicate a xs hrest]

theorem mem_leftJoinMatches_some {β : Type} {l : List β} {b : β}
    (h : some b ∈ leftJoinMatches l) : b ∈ l := by
  cases l with
  | nil => simp [leftJoinMatches] at h
  | cons x xs => simpa [leftJoinMatches] using h

/-- Every scan joined to a volunteer is a stored scan. -/
theorem mem_groupScans_volunteerGroup {db : Db} {eventId volunteerId : Nat} {c : Scan}
    (h : c ∈ groupScans (volunteerGroup db eventId volunteerId)) : c ∈ db.check_in_out := by
  unfold groupScans at h
  rw [List.mem_filterMap] at h
  obtain ⟨row, hrow, hc⟩ := h
  unfold volunteerGroup volunteersJoin at hrow
  have hrow' := (List.mem_filter.1 (List.mem_filter.1 hrow).1).1
  simp only [List.mem_flatMap, List.mem_map] at hrow'
  obtain ⟨v, -, ev, -, cio, hcio, rfl⟩ := hrow'
  simp only at hc
  subst hc
  exact (List.mem_filter.1 (mem_leftJoinMatches_some hcio)).1

/-- Every row of `volunteersQuery` aggregates the group of one volunteer. -/
theorem mem_volunteersQuery {db : Db} {eventId : Nat} {row : VolunteerRow}
    (h : row ∈ volunteersQuery db eventId) :
    ∃ volunteerId first rest, volunteerGroup db eventId volunteerId = first :: rest ∧
      row = volunteerAggregate first rest := by
  unfold volunteersQuery at h
  have h' := (List.perm_insertionSort volunteerBefore _).mem_iff.1 h
  rw [List.mem_filterMap] at h'
  obtain ⟨volunteerId, -, hagg⟩ := h'
  cases hgroup : volunteerGroup db eventId volunteerId with
  | nil => simp [hgroup] at hagg
  | cons first rest =>
    simp only [hgroup, Option.some.injEq] at hagg
    exact ⟨volunteerId, first, rest, hgroup, hagg.symm⟩

/-- A volunteer with exactly one distinct scan has equal first and last scan
times, the scan identifier being the primary key of `check_in_out`. -/
theorem first_eq_last_of_one_scan {db : Db} (hscans : (db.check_in_out.map Scan.id).Nodup)
    {eventId : Nat} {row : VolunteerRow} (h : row ∈ volunteersQuery db eventId)
    (hone : row.total_scans = 1) : row.first_scan_time = row.last_scan_time := by
  obtain ⟨volunteerId, first, rest, hgroup, rfl⟩ := mem_volunteersQuery h
  simp only [volunteerAggregate] at hone ⊢
  have hlen : ((groupScans (first :: rest)).map Scan.id).dedup.length = 1 := by
    exact_mod_cast hone
  obtain ⟨a, ha⟩ := List.length_eq_one.1 hlen
  have hid : ∀ c ∈ groupScans (first :: rest), c.id = a := by
    intro c hc
    have : c.id ∈ ((groupScans (first :: rest)).map Scan.id).dedup :=
      List.mem_dedup.2 (List.mem_map_of_mem _ hc)
    rw [ha] at this
    simpa using this
  cases hscan : groupScans (first :: rest) with
  | nil => rfl
  | cons c cs =>
    apply sqlMin_eq_sqlMax_of_const c.check_time
    intro t ht
    rw [List.mem_map] at ht
    obtain ⟨c', hc', rfl⟩ := ht
    have hc'mem : c' ∈ groupScans (first :: rest) := by rw [hscan]; exact hc'
    have hcmem : c ∈ groupScans (first :: rest) := by rw [hscan]; exact List.mem_cons_self _ _
    have heq : c' = c := by
      apply List.inj_on_of_nodup_map hscans
      · exact mem_groupScans_volunteerGroup (by rw [hgroup]; exact hc'mem)
      · exact mem_groupScans_volunteerGroup (by rw [hgroup]; exact hcmem)
      · rw [hid c' hc'mem, hid c hcmem]
    rw [heq]

/-- The guards of lines 1178 and 1181 on the values they protect. -/
theorem volunteerActivity_guards (totalScans : Int) (first last : Option Int) :
    ((volunteerActivity totalScans first last).1 = 0 →
        (volunteerActivity totalScans first last).2 = some 0) ∧
      (volunteerActivity totalScans first last).2.isSome = true ∧
      (totalScans ≤ 0 → volunteerActivity totalScans first last = (0, some 0)) ∧
      (first = last → volunteerActivity totalScans first last = (0, some 0)) := by
  unfold volunteerActivity
  cases first with
  | none => simp
  | some f =>
    cases last with
    | none => simp
    | some l =>
      simp only
      by_cases hpos : 0 < totalScans
      · simp only [hpos, if_true]
        by_cases hactive : 0 < parseFloat (toFixed2
            (roundDouble (roundDouble ((l - f : Int) : ℚ) / (1000 * 60 * 60))))
        · simp only [hactive, if_true]
          have hne : parseFloat (toFixed2
              (roundDouble (roundDouble ((l - f : Int) : ℚ) / (1000 * 60 * 60)))) ≠ 0 :=
            ne_of_gt hactive
          refine ⟨fun h => absurd h hne, ?_, fun h => absurd hpos (by omega), ?_⟩
          · simp only [jsDiv, if_neg hne, Option.map_some', Option.isSome_some]
          · intro hfl
            injection hfl with hfl
            subst hfl
            simp [toFixed2_zero, roundDouble_zero, parseFloat_zero] at hactive
        · simp only [hactive, if_false]
          refine ⟨fun _ => trivial, rfl, fun h => absurd hpos (by omega), ?_⟩
          intro hfl
          injection hfl with hfl
          subst hfl
          simp [toFixed2_zero, roundDouble_zero, parseFloat_zero]
      · simp [hpos]

/-- Every entry built from a row of `volunteersQuery` obeys the guards. -/
theorem volunteerGuards_of_mem {db : Db} (hscans : (db.check_in_out.map Scan.id).Nodup)
    {eventId : Nat} {row : VolunteerRow} (h : row ∈ volunteersQuery db eventId) :
    VolunteerGuards (toVolunteerEntry row) := by
  obtain ⟨hzero, hsome, hnonpos, hsame⟩ :=
    volunteerActivity_guards row.total_scans row.first_scan_time row.last_scan_time
  unfold VolunteerGuards
  simp only [toVolunteerEntry, parseIntOr_some_zero]
  refine ⟨fun hlt => ?_, hzero, hsome⟩
  by_cases hone : row.total_scans = 1
  · rw [hsame (first_eq_last_of_one_scan hscans h hone)]
    exact ⟨rfl, rfl⟩
  · rw [hnonpos (by omega)]
    exact ⟨rfl, rfl⟩

/-- The report of a successful admin `getEventAnalytics`. -/
theorem getEventAnalytics_success {db : Db} {id : Nat} {report : AnalyticsReport}
    {message : String} (h : (getEventAnalytics db id).1 = .successResponse report message) :
    ∃ event, findById db id = some event ∧ report = analyticsReport db event id := by
  unfold getEventAnalytics at h
  cases hfound : findById db id with
  | none => simp [hfound] at h
  | some event =>
    simp only [hfound] at h
    by_cases hrefused : analyticsRefused event.status = true
    · simp [hrefused] at h
    · simp only [hrefused, if_false] at h
      injection h with hreport _
      exact ⟨event, rfl, hreport.symm⟩

/-- The report of a successful bound manager `getEventAnalytics`. -/
theorem managerGetEventAnalytics_success {db : Db} {models : ReadModels}
    {eventId managerId : Nat} {data : ManagerAnalytics} {message : String}
    (h : (EventManagerController.getEventAnalytics db models eventId managerId).1 =
      .successResponse data message) :
    ∃ event, findById db eventId = some event ∧
      data = .report (analyticsReport db event eventId) := by
  rw [managerGetEventAnalytics_eq_second] at h
  unfold EventManagerController.getEventAnalyticsSecond at h
  cases hfound : findById db eventId with
  | none => simp [hfound] at h
  | some event =>
    simp only [hfound] at h
    by_cases howner : event.created_by_manager_id ≠ managerId
    · simp [howner] at h
    · simp only [howner, if_false] at h
      by_cases hrefused : analyticsRefused event.status = true
      · simp [hrefused] at h
      · simp only [hrefused, if_false] at h
        injection h with hreport _
        exact ⟨event, rfl, hreport.symm⟩

/-- C19: in the analytics report of either surface, the scan identifier being the
primary key of `check_in_out`, every volunteer entry with fewer than two scans
reports `active_hours = 0` and `average_scans_per_hour = 0`; every entry reports
`average_scans_per_hour = 0` whenever its `active_hours` is 0; and
`average_scans_per_hour` is always a finite number, `total_scans` being divided
by `active_hours` only when that is positive. -/
theorem analytics_volunteer_guards (db : Db)
    (hscans : (db.check_in_out.map Scan.id).Nodup) (models : ReadModels)
    (eventId managerId : Nat) :
    (∀ report message, (getEventAnalytics db eventId).1 = .successResponse report message →
      ∀ e ∈ report.volunteers,
        (e.total_scans < 2 → e.active_hours = 0 ∧ e.average_scans_per_hour = some 0) ∧
        (e.active_hours = 0 → e.average_scans_per_hour = some 0) ∧
        e.average_scans_per_hour.isSome = true) ∧
    (∀ report message,
      (EventManagerController.getEventAnalytics db models eventId managerId).1 =
        .successResponse (.report report) message →
      ∀ e ∈ report.volunteers,
        (e.total_scans < 2 → e.active_hours = 0 ∧ e.average_scans_per_hour = some 0) ∧
        (e.active_hours = 0 → e.average_scans_per_hour = some 0) ∧
        e.average_scans_per_hour.isSome = true) := by
  have hall : ∀ event, ∀ e ∈ (analyticsReport db event eventId).volunteers,
      VolunteerGuards e := by
    intro event e he
    simp only [analyticsReport, List.mem_map] at he
    obtain ⟨row, hrow, rfl⟩ := he
    exact volunteerGuards_of_mem hscans hrow
  constructor
  · intro report message h e he
    obtain ⟨event, -, rfl⟩ := getEventAnalytics_success h
    exact hall event e he
  · intro report message h e he
    obtain ⟨event, -, hdata⟩ := managerGetEventAnalytics_success h
    injection hdata with hdata
    subst hdata
    exact hall event e he

/-- Two scans 90 minutes apart: 1.5 active hours and the double `2 / 1.5`
printed as `1.33`. -/
theorem volunteerActivity_ninety_minutes :
    volunteerActivity 2 (some 0) (some 5400000) = (3 / 2, some (parseFloat (133 / 100))) := by
  have h1 : roundDouble (5400000 : ℚ) = 5400000 := by
    simpa using roundDouble_intCast 5400000 (by norm_num)
  have h2 : roundDouble (3 / 2 : ℚ) = 3 / 2 := by
    have h := roundDouble_of_repr 3 (-1) (by norm_num)
    norm_num at h ⊢
    exact h
  have h3 : roundDouble (4 / 3 : ℚ) = 6004799503160661 / 4503599627370496 := by
    have h : roundDouble (4 / 3 : ℚ) = ((6004799503160661 : ℤ) : ℚ) * 2 ^ ((0 : ℤ) - 52) :=
      roundDouble_eq (by norm_num [abs_of_pos]) (by norm_num [abs_of_pos])
        (by rw [abs_lt]; norm_num)
    rw [h]
    norm_num
  norm_num [volunteerActivity, parseFloat, jsDiv, h1, h2, h3, toFixed2]

/-- Two scans 54 seconds apart: the double `54000 / 3600000` lies below 0.015
and is printed as `0.01`, and `2 / 0.01` is 200. -/
theorem volunteerActivity_fifty_four_seconds :
    volunteerActivity 2 (some 0) (some 54000) = (parseFloat (1 / 100), some 200) := by
  have h1 : roundDouble (54000 : ℚ) = 54000 := by
    simpa using roundDouble_intCast 54000 (by norm_num)
  have h2 : roundDouble (3 / 200 : ℚ) = 1080863910568919 / 72057594037927936 := by
    have h : roundDouble (3 / 200 : ℚ) = ((8646911284551352 : ℤ) : ℚ) * 2 ^ ((-7 : ℤ) - 52) :=
      roundDouble_eq (by norm_num [abs_of_pos]) (by norm_num [abs_of_pos])
        (by rw [abs_lt]; norm_num)
    rw [h]
    norm_num
  have h3 : roundDouble (1 / 100 : ℚ) = 5764607523034235 / 576460752303423488 := by
    have h : roundDouble (1 / 100 : ℚ) = ((5764607523034235 : ℤ) : ℚ) * 2 ^ ((-7 : ℤ) - 52) :=
      roundDouble_eq (by norm_num [abs_of_pos]) (by norm_num [abs_of_pos])
        (by rw [abs_lt]; norm_num)
    rw [h]
    norm_num
  have h4 : roundDouble (1152921504606846976 / 5764607523034235 : ℚ) = 200 := by
    have h : roundDouble (1152921504606846976 / 5764607523034235 : ℚ) =
        ((7036874417766400 : ℤ) : ℚ) * 2 ^ ((7 : ℤ) - 52) :=
      roundDouble_eq (by norm_num [abs_of_pos]) (by norm_num [abs_of_pos])
        (by rw [abs_lt]; norm_num)
    rw [h]
    norm_num
  have h200 : roundDouble (200 : ℚ) = 200 := by
    simpa using roundDouble_intCast 200 (by norm_num)
  norm_num [volunteerActivity, parseFloat, jsDiv, h1, h2, h3, h4, h200, toFixed2]

/-- Witness of C19 on `scansDb`: volunteer 2 scanned once and volunteer 3 never;
volunteer 1 scanned twice, 90 minutes apart. -/
theorem analytics_volunteer_guards_witness :
    (scansDb.check_in_out.map Scan.id).Nodup ∧
    (getEventAnalytics scansDb 3).1 =
      .successResponse (analyticsReport scansDb
        { id := 3, event_name := "Approved", created_by_manager_id := 7, status := "APPROVED" }
        3) "" ∧
    (∀ e ∈ (analyticsReport scansDb
        { id := 3, event_name := "Approved", created_by_manager_id := 7, status := "APPROVED" }
        3).volunteers,
      (e.total_scans < 2 → e.active_hours = 0 ∧ e.average_scans_per_hour = some 0) ∧
      (e.active_hours = 0 → e.average_scans_per_hour = some 0) ∧
      e.average_scans_per_hour.isSome = true) ∧
    volunteerActivity 2 (some 0) (some 5400000) = (3 / 2, some (parseFloat (133 / 100))) :=
  ⟨by decide, rfl,
    (analytics_volunteer_guards scansDb (by decide) nullModels 3 7).1 _ "" rfl,
    volunteerActivity_ninety_minutes⟩

/-! ### Leaderboards without ranking rows -/

/-- Every qualifying row comes from a stored stall with a positive stored vote
total. -/
theorem mem_topStallsQualifying {db : Db} {row : TopStallRow}
    (h : row ∈ topStallsQualifying db) :
    ∃ st ∈ db.stalls, row.stall_id = st.id ∧
      0 < st.rank_1_votes + st.rank_2_votes + st.rank_3_votes := by
  unfold topStallsQualifying at h
  rw [List.mem_filter] at h
  obtain ⟨hjoin, hpos⟩ := h
  unfold topStallsJoin at hjoin
  rw [List.mem_flatMap] at hjoin
  obtain ⟨st, hst, hrow⟩ := hjoin
  rw [List.mem_map] at hrow
  obtain ⟨sc, -, rfl⟩ := hrow
  exact ⟨st, hst, rfl, by simpa using hpos⟩

/-- Without ranking rows no school group has a positive score. -/
theorem topSchoolsGrouped_eq_nil_of_no_rankings (db : Db) (hr : db.rankings = []) :
    topSchoolsGrouped db = [] := by
  unfold topSchoolsGrouped
  rw [List.filterMap_eq_nil_iff]
  intro key _
  have hsum : ((schoolGroup db key).map (ownTerm rankPoints)).sum = 0 := by
    rw [groupSum_eq, hr]
    simp
  unfold schoolAggregate schoolScore
  rw [scoreTerm_eq_ownTerm]
  cases hrows : (schoolGroup db key).map (ownTerm rankPoints) with
  | nil => rfl
  | cons x xs =>
    rw [hrows] at hsum
    simp only [sqlSum, hsum]
    rfl

/-- With an empty `rankings` table the vote breakdown of `getTopStalls` is
`parseInt(null)`, which is `NaN`, in each of its three fields. -/
theorem stallOverallStats_breakdown_of_no_rankings (db : Db) (hr : db.rankings = []) :
    (stallOverallStats db).breakdown =
      { rank_1_votes := none, rank_2_votes := none, rank_3_votes := none } := by
  simp [stallOverallStats, rankVoteSum, hr, sqlSum]

/-- Every stored stall with a positive stored vote total has a qualifying row. -/
theorem exists_mem_topStallsQualifying {db : Db} {st : Stall} (hst : st ∈ db.stalls)
    (hpos : 0 < st.rank_1_votes + st.rank_2_votes + st.rank_3_votes) :
    ∃ row ∈ topStallsQualifying db, row.stall_id = st.id := by
  obtain ⟨sc, rest, hsc⟩ :=
    leftJoinMatches_eq_cons (db.schools.filter fun sc => st.school_id == some sc.id)
  refine ⟨{ stall_id := st.id, stall_number := st.stall_number, stall_name := st.stall_name,
            description := st.description, location := st.location,
            school_id := sc.map School.id, school_name := sc.map School.school_name,
            rank_1_votes := st.rank_1_votes, rank_2_votes := st.rank_2_votes,
            rank_3_votes := st.rank_3_votes, weighted_score := st.weighted_score,
            total_votes := st.rank_1_votes + st.rank_2_votes + st.rank_3_votes }, ?_, rfl⟩
  unfold topStallsQualifying topStallsJoin
  rw [List.mem_filter]
  refine ⟨List.mem_flatMap.2 ⟨st, hst, List.mem_map.2 ⟨sc, ?_, rfl⟩⟩, by simpa using hpos⟩
  rw [hsc]
  exact List.mem_cons_self _ _

/-- C20, as amended: when no ranking rows exist and the limit is not negative,
`getTopSchools` and `getTopStalls` answer with success. The school leaderboard is
empty and its `total_stalls_ranked` is 0; `total_students_participated` and
`total_schools_participated` count the students flagged `has_completed_ranking`
and are 0 when there is none. The stall leaderboard lists, up to the limit, the
stalls whose stored vote counters have a positive total: every listed stall has
one, the list has as many entries as there are such rows, capped by the limit,
and when these rows are within the limit every such stall is listed; so it is
empty when no stall has one. `total_stalls_ranked` and `total_students_voted`
are 0. -/
theorem leaderboards_without_rankings (db : Db) (hr : db.rankings = [])
    (reqLimit : Option Int) (hlimit : 0 ≤ parseIntOr reqLimit 10) :
    getTopSchools db reqLimit =
        .successResponse { top_schools := [], overall_stats := schoolOverallStats db }
          "Top schools retrieved successfully" ∧
    (schoolOverallStats db).total_stalls_ranked = some 0 ∧
    (schoolOverallStats db).total_students_participated =
      some (((completedStudents db).map Student.id).dedup.length : Int) ∧
    (completedStudents db = [] →
      (schoolOverallStats db).total_students_participated = some 0 ∧
      (schoolOverallStats db).total_schools_participated = some 0) ∧
    ∃ data, getTopStalls db reqLimit =
        .successResponse data "Top stalls retrieved successfully" ∧
      data.overall_stats.total_stalls_ranked = some 0 ∧
      data.overall_stats.total_students_voted = some 0 ∧
      (∀ e ∈ data.top_stalls, ∃ st ∈ db.stalls, e.stall_id = st.id ∧
        0 < st.rank_1_votes + st.rank_2_votes + st.rank_3_votes) ∧
      data.top_stalls.length =
        min (parseIntOr reqLimit 10).toNat (topStallsQualifying db).length ∧
      ((topStallsQualifying db).length ≤ (parseIntOr reqLimit 10).toNat →
        ∀ st ∈ db.stalls, 0 < st.rank_1_votes + st.rank_2_votes + st.rank_3_votes →
          ∃ e ∈ data.top_stalls, e.stall_id = st.id) ∧
      ((∀ st ∈ db.stalls, st.rank_1_votes + st.rank_2_votes + st.rank_3_votes ≤ 0) →
        data.top_stalls = []) := by
  have hneg : ¬ parseIntOr reqLimit 10 < 0 := by omega
  have hentries : ∀ e ∈ ((topStallsOrdered db).take (parseIntOr reqLimit 10).toNat).mapIdx
      toTopStallEntry, ∃ st ∈ db.stalls, e.stall_id = st.id ∧
        0 < st.rank_1_votes + st.rank_2_votes + st.rank_3_votes := by
    intro e he
    rw [List.mem_mapIdx] at he
    obtain ⟨i, hi, rfl⟩ := he
    have h₁ := List.mem_of_mem_take (List.getElem_mem hi)
    exact mem_topStallsQualifying ((topStallsOrdered_perm db).mem_iff.1 h₁)
  refine ⟨?_, ?_, ?_, ?_,
    ⟨{ top_stalls :=
          ((topStallsOrdered db).take (parseIntOr reqLimit 10).toNat).mapIdx toTopStallEntry
       overall_stats := stallOverallStats db }, ?_, ?_, ?_, hentries, ?_, ?_, ?_⟩⟩
  · simp only [getTopSchools, topSchoolsQuery, sqlLimit, hneg, if_false,
      topSchoolsGrouped_eq_nil_of_no_rankings db hr, List.insertionSort, List.take_nil,
      List.mapIdx_nil]
  · simp [schoolOverallStats, hr]
  · simp [schoolOverallStats]
  · intro hnone
    simp [schoolOverallStats, hnone]
  · simp only [getTopStalls, topStallsQuery, sqlLimit, hneg, if_false]
  · simp [stallOverallStats, hr]
  · simp [stallOverallStats, hr]
  · simp only [List.length_mapIdx, List.length_take, (topStallsOrdered_perm db).length_eq]
  · intro hlen st hst hpos
    obtain ⟨row, hrow, hid⟩ := exists_mem_topStallsQualifying hst hpos
    have hmem : row ∈ (topStallsOrdered db).take (parseIntOr reqLimit 10).toNat := by
      rw [List.take_of_length_le (by rw [(topStallsOrdered_perm db).length_eq]; exact hlen)]
      exact (topStallsOrdered_perm db).mem_iff.2 hrow
    obtain ⟨i, hi, hget⟩ := List.getElem_of_mem hmem
    exact ⟨toTopStallEntry i row, List.mem_mapIdx.2 ⟨i, hi, by rw [hget]⟩, hid⟩
  · intro hzero
    cases hlist : ((topStallsOrdered db).take (parseIntOr reqLimit 10).toNat).mapIdx
        toTopStallEntry with
    | nil => rfl
    | cons e rest =>
      obtain ⟨st, hst, -, hpos⟩ := hentries e (by rw [hlist]; exact List.mem_cons_self _ _)
      have := hzero st hst
      omega

/-- Witness of C20 (amended) on `noRankingsDb`, which has no ranking row, a stall
with stored vote counters and one flagged student: the school leaderboard is
empty with one participating student, and the stall leaderboard lists stall 10. -/
theorem leaderboards_without_rankings_witness :
    getTopSchools noRankingsDb none =
        .successResponse { top_schools := [], overall_stats := schoolOverallStats noRankingsDb }
          "Top schools retrieved successfully" ∧
    (schoolOverallStats noRankingsDb).total_stalls_ranked = some 0 ∧
    (schoolOverallStats noRankingsDb).total_students_participated = some 1 ∧
    (∃ data, getTopStalls noRankingsDb none =
        .successResponse data "Top stalls retrieved successfully" ∧
      data.overall_stats.total_stalls_ranked = some 0 ∧
      data.overall_stats.total_students_voted = some 0 ∧
      data.top_stalls.length = 1 ∧
      ∃ e ∈ data.top_stalls, e.stall_id = 10) := by
  obtain ⟨hschools, hranked, hstudents, -, data, hstalls, h1, h2, -, hlen, hall, -⟩ :=
    leaderboards_without_rankings noRankingsDb rfl none (by decide)
  refine ⟨hschools, hranked, ?_, data, hstalls, h1, h2, ?_, ?_⟩
  · rw [hstudents]
    decide
  · rw [hlen]
    decide
  · exact hall (by decide)
      { id := 10, stall_number := 1, school_id := some 1, rank_1_votes := 2,
        weighted_score := 10 } (by decide) (by decide)

/-- C20 as stated fails: `noRankingsDb` has no ranking rows, yet `getTopStalls`
lists its stall, whose stored vote counters are positive, and `getTopSchools`
reports one participating student and one participating school. -/
theorem leaderboards_without_rankings_counterexample :
    noRankingsDb.rankings = [] ∧
    (∃ data message, getTopStalls noRankingsDb none = .successResponse data message ∧
      data.top_stalls ≠ []) ∧
    (∃ data message, getTopSchools noRankingsDb none = .successResponse data message ∧
      data.overall_stats.total_students_participated = some 1 ∧
      data.overall_stats.total_schools_participated = some 1) := by
  refine ⟨rfl, ⟨_, _, rfl, ?_⟩, ⟨_, _, rfl, ?_, ?_⟩⟩ <;> decide

/-! ## `createEvent` -/

/-- The date checks pass exactly on the payloads whose dates are valid. -/
theorem dateError_eq_none_iff (newDate : String → Option Int) (eventData : EventData) :
    dateError newDate eventData = none ↔ DatesValid newDate eventData := by
  unfold dateError DatesValid
  cases dateOf newDate eventData.start_date <;> cases dateOf newDate eventData.end_date <;>
    cases dateOf newDate eventData.registration_start_date <;>
    cases dateOf newDate eventData.registration_end_date <;> simp
  split_ifs <;> simp <;> omega

/-- A payload passes the validation exactly when each of the six checks passes. -/
theorem validateEventData_eq_none_iff (newDate : String → Option Int) (eventData : EventData) :
    validateEventData newDate eventData = none ↔
      requiredError eventData = none ∧ eventCodeError eventData = none ∧
        eventTypeError eventData = none ∧ priceError eventData = none ∧
        dateError newDate eventData = none ∧ capacityError eventData = none := by
  unfold validateEventData
  cases requiredError eventData <;> cases eventCodeError eventData <;>
    cases eventTypeError eventData <;> cases priceError eventData <;>
    cases dateError newDate eventData <;> simp

/-- A request that fails the validation is answered with the validation error
and issues no call, once the manager has passed the account gate. -/
theorem createEvent_invalid (db : Db) (c : CreateCollaborators) (managerId : Nat)
    (eventData : EventData) (manager : EventManager) (msg : String)
    (hm : EventManagerModel.findById db managerId = some manager)
    (happroved : manager.is_approved_by_admin = true) (hactive : manager.is_active = true)
    (hmsg : validateEventData c.newDate eventData = some msg) :
    createEvent db c managerId eventData = (.validationErrorResponse [msg], []) := by
  unfold createEvent
  simp only [hm, happroved, hactive, hmsg, Bool.not_true, Bool.false_eq_true, if_false]

/-- A request that fails the validation issues no call, whoever sends it. -/
theorem createEvent_invalid_calls (db : Db) (c : CreateCollaborators) (managerId : Nat)
    (eventData : EventData) (msg : String)
    (hmsg : validateEventData c.newDate eventData = some msg) :
    (createEvent db c managerId eventData).2 = [] := by
  unfold createEvent
  cases EventManagerModel.findById db managerId with
  | none => rfl
  | some manager =>
    simp only [hmsg]
    split_ifs <;> rfl

/-- C23: a payload that passes the validation of `createEvent` has four dates
that parse, with `start_date < end_date`, `registration_start_date <
registration_end_date` and `registration_end_date <= start_date`; a payload that
violates one of these makes the handler issue no call at all, so no event is
created, and the manager who has passed the account gate is answered with a
validation error. -/
theorem createEvent_dates (db : Db) (c : CreateCollaborators) (managerId : Nat)
    (eventData : EventData) :
    (validateEventData c.newDate eventData = none → DatesValid c.newDate eventData) ∧
      (¬ DatesValid c.newDate eventData →
        (createEvent db c managerId eventData).2 = [] ∧
          ∀ manager, EventManagerModel.findById db managerId = some manager →
            manager.is_approved_by_admin = true → manager.is_active = true →
            ∃ msg, createEvent db c managerId eventData = (.validationErrorResponse [msg], [])) := by
  refine ⟨fun h => ?_, fun h => ?_⟩
  · exact (dateError_eq_none_iff _ _).1 ((validateEventData_eq_none_iff _ _).1 h).2.2.2.2.1
  · have hmsg : ∃ msg, validateEventData c.newDate eventData = some msg := by
      cases hv : validateEventData c.newDate eventData with
      | some msg => exact ⟨msg, rfl⟩
      | none =>
        exact absurd ((dateError_eq_none_iff _ _).1
          ((validateEventData_eq_none_iff _ _).1 hv).2.2.2.2.1) h
    obtain ⟨msg, hmsg⟩ := hmsg
    exact ⟨createEvent_invalid_calls db c managerId eventData msg hmsg,
      fun manager hm happroved hactive =>
        ⟨msg, createEvent_invalid db c managerId eventData manager msg hm happroved hactive hmsg⟩⟩

/-- The free expo passes with valid dates; with registration open into the event
the request of manager 7 is refused and nothing is created. -/
theorem createEvent_dates_witness :
    DatesValid sampleDate freeExpo ∧
      (createEvent oneManagerDb uploadsDown 7 lateRegistration).2 = [] ∧
      ∃ msg, createEvent oneManagerDb uploadsDown 7 lateRegistration =
        (.validationErrorResponse [msg], []) :=
  ⟨(createEvent_dates oneManagerDb uploadsDown 7 freeExpo).1 (by decide),
    ((createEvent_dates oneManagerDb uploadsDown 7 lateRegistration).2
      (fun h => by
        have := (dateError_eq_none_iff sampleDate lateRegistration).2 h
        revert this; decide)).1,
    ((createEvent_dates oneManagerDb uploadsDown 7 lateRegistration).2
      (fun h => by
        have := (dateError_eq_none_iff sampleDate lateRegistration).2 h
        revert this; decide)).2 { id := 7, full_name := "Asha", email := "asha@sgtu.in" }
      (by decide) (by decide) (by decide)⟩

/-- C24, as stated, fails: the free expo sent with a price of 500 passes the
validation, and the handler hands the payload with that price to the model. -/
theorem free_event_with_price_counterexample :
    validateEventData sampleDate pricedFreeExpo = none ∧ ¬ PriceMatchesType pricedFreeExpo ∧
      createEvent oneManagerDb uploadsDown 7 pricedFreeExpo =
        (.successResponseWith (storedEvent pricedFreeExpo 7)
            "Event created successfully. Status: DRAFT" 201,
          [.eventCreate pricedFreeExpo 7, createAudit (storedEvent pricedFreeExpo 7) 7 []]) := by
  refine ⟨by decide, ?_, by decide⟩
  intro h
  have hpaid := h.1 ⟨500, rfl, by norm_num⟩
  revert hpaid
  decide

/-- C24, amended: a payload that passes the validation of `createEvent` is of
type `FREE` or `PAID`, and a `PAID` payload carries a price greater than 0 and
at most 100000. -/
theorem createEvent_paid_price (newDate : String → Option Int) (eventData : EventData)
    (h : validateEventData newDate eventData = none) :
    (eventData.event_type = some "FREE" ∨ eventData.event_type = some "PAID") ∧
      (eventData.event_type = some "PAID" →
        ∃ price, eventData.price = some price ∧ 0 < price ∧ price ≤ 100000) := by
  obtain ⟨-, -, htype, hprice, -, -⟩ := (validateEventData_eq_none_iff _ _).1 h
  refine ⟨?_, fun hpaid => ?_⟩
  · unfold eventTypeError at htype
    by_contra hne
    rw [if_neg hne] at htype
    exact absurd htype (by simp)
  · unfold priceError at hprice
    rw [if_pos hpaid] at hprice
    cases hp : eventData.price with
    | none => rw [hp] at hprice; exact absurd hprice (by simp)
    | some price =>
      rw [hp] at hprice
      refine ⟨price, rfl, ?_, ?_⟩
      · by_contra hle
        simp only [if_pos (not_lt.1 hle)] at hprice
        exact absurd hprice (by simp)
      · by_contra hgt
        have hpos : ¬ price ≤ 0 := by
          intro hle
          simp only [if_pos hle] at hprice
          exact absurd hprice (by simp)
        simp only [if_neg hpos, if_pos (not_le.1 hgt)] at hprice
        exact absurd hprice (by simp)

/-- The paid expo at 250 passes the validation. -/
theorem createEvent_paid_price_witness :
    (paidExpo.event_type = some "FREE" ∨ paidExpo.event_type = some "PAID") ∧
      (paidExpo.event_type = some "PAID" →
        ∃ price, paidExpo.price = some price ∧ 0 < price ∧ price ≤ 100000) :=
  createEvent_paid_price sampleDate paidExpo (by
    rw [validateEventData_eq_none_iff]
    refine ⟨by decide, by decide, by decide, ?_, by decide, by decide⟩
    norm_num [priceError, paidExpo, freeExpo])

/-- C30: a valid request with a banner image whose upload throws is answered
with status 500 after `EventModel.create` has resolved to the stored event; no
call removes the event, and the same request sent again is refused because the
code now exists. -/
theorem createEvent_upload_failure_keeps_event :
    createEvent oneManagerDb uploadsDown 7 bannerExpo =
        (.errorResponse "Failed to upload event images. Please try again." 500,
          [.eventCreate bannerExpo 7, .uploadEventBanner "iVBORw0KGgo=" 1]) ∧
      uploadsDown.create bannerExpo 7 = .ok (storedEvent bannerExpo 7) ∧
      eventDeletions (createEvent oneManagerDb uploadsDown 7 bannerExpo).2 = [] ∧
      createEvent { oneManagerDb with events := [storedEvent bannerExpo 7] } uploadsDown 7
          bannerExpo = (.errorResponse "Event code already exists" 400, []) :=
  ⟨by decide, rfl, by decide, by decide⟩

/-- The branch with images ends in the answer of the inner `catch` or in the
answer with status 201. -/
theorem finishWithImages_outcome (c : CreateCollaborators) (managerId eventId : Nat)
    (bannerUrl : String) (imageUrl : Option String) (calls : List Effect) :
    (finishWithImages c managerId eventId bannerUrl imageUrl calls).1 = uploadFailed ∨
      ∃ event msg, (finishWithImages c managerId eventId bannerUrl imageUrl calls).1 =
        .successResponseWith event msg 201 := by
  unfold finishWithImages
  cases c.findCreated eventId with
  | none => exact Or.inl rfl
  | some event => exact Or.inr ⟨event, _, rfl⟩

/-- The branch with images ends in the answer of the inner `catch` or in the
answer with status 201. -/
theorem createWithImages_outcome (c : CreateCollaborators) (managerId : Nat)
    (eventData : EventData) :
    (createWithImages c managerId eventData).1 = uploadFailed ∨
      ∃ event msg, (createWithImages c managerId eventData).1 =
        .successResponseWith event msg 201 := by
  unfold createWithImages
  dsimp only
  cases hc : c.create { eventData with banner_image_url := none, image_url := none } managerId with
  | error _ => exact Or.inl rfl
  | ok tempEvent =>
    dsimp only
    cases hb : c.uploadEventBanner (eventData.banner_image_base64.getD "") tempEvent.id with
    | none => exact Or.inl rfl
    | some bannerUrl =>
      dsimp only
      split_ifs
      · cases hi : c.uploadEventImage (eventData.image_base64.getD "") tempEvent.id with
        | none => exact Or.inl rfl
        | some imageUrl => exact finishWithImages_outcome _ _ _ _ _ _
      · exact finishWithImages_outcome _ _ _ _ _ _

/-- An answer of `createEvent` that is a validation error or an error with
status 400 or 403 comes with no call issued: the handler refused the request
before it reached `EventModel.create`. -/
theorem createEvent_refused_calls (db : Db) (c : CreateCollaborators) (managerId : Nat)
    (eventData : EventData)
    (h : (∃ errors, (createEvent db c managerId eventData).1 = .validationErrorResponse errors) ∨
      (∃ msg, (createEvent db c managerId eventData).1 = .errorResponse msg 400) ∨
      (∃ msg, (createEvent db c managerId eventData).1 = .errorResponse msg 403)) :
    (createEvent db c managerId eventData).2 = [] := by
  unfold createEvent at h ⊢
  cases hm : EventManagerModel.findById db managerId with
  | none => rfl
  | some manager =>
    simp only [hm] at h ⊢
    cases h1 : manager.is_approved_by_admin with
    | false => simp only [h1, Bool.not_false, ↓reduceIte]
    | true =>
      simp only [h1, Bool.not_true, Bool.false_eq_true, ↓reduceIte] at h ⊢
      cases h2 : manager.is_active with
      | false => simp only [h2, Bool.not_false, ↓reduceIte]
      | true =>
        simp only [h2, Bool.not_true, Bool.false_eq_true, ↓reduceIte] at h ⊢
        cases hv : validateEventData c.newDate eventData with
        | some msg => rfl
        | none =>
          simp only [hv] at h ⊢
          cases h3 : (EventModel.findByCode db (eventData.event_code.getD "")).isSome with
          | true => simp only [↓reduceIte]
          | false =>
            simp only [h3, Bool.false_eq_true, ↓reduceIte] at h ⊢
            exfalso
            by_cases h4 : jsTruthy eventData.banner_image_base64 = true
            · simp only [h4, ↓reduceIte] at h
              rcases createWithImages_outcome c managerId eventData with hf | ⟨event, msg, hs⟩
              · rw [hf] at h
                revert h
                simp [uploadFailed]
              · rw [hs] at h
                revert h
                simp
            · simp only [h4, ↓reduceIte] at h
              cases hc : c.create eventData managerId with
              | error message =>
                rw [hc] at h
                revert h
                simp
              | ok event =>
                rw [hc] at h
                revert h
                simp

/-! ## `deleteEventManager` -/

/-- Expression `parseInt(n) || 0` keeps the sign of an integer. -/
theorem parseIntOr_some_pos (n : Int) : parseIntOr (some n) 0 > 0 ↔ n > 0 := by
  unfold parseIntOr
  split
  · rename_i h; exact absurd h (by simp)
  · rename_i h; cases h; simp
  · rename_i m h1 h2; cases h2; rfl

/-- The count of active events of a manager is positive exactly when the manager
has an event of status `ACTIVE`. -/
theorem activeEventCount_pos (db : Db) (id : Nat) :
    parseIntOr (some (activeEventCount db id : Int)) 0 > 0 ↔
      ∃ e ∈ db.events, e.created_by_manager_id = id ∧ e.status = "ACTIVE" := by
  rw [parseIntOr_some_pos]
  unfold activeEventCount
  simp only [gt_iff_lt, Nat.cast_pos, List.length_pos_iff_exists_mem, List.mem_filter,
    Bool.and_eq_true, beq_iff_eq]

/-- The `DELETE` of a manager that does not exist leaves the store as it was. -/
theorem deleteManagerRows_absent (db : Db) (id : Nat)
    (h : ¬ ∃ m ∈ db.event_managers, m.id = id) :
    deleteManagerRows db id = ([], db) := by
  unfold deleteManagerRows
  have h1 : (db.event_managers.filter fun m => m.id == id) = [] := by
    rw [List.filter_eq_nil_iff]
    intro m hm hid
    exact h ⟨m, hm, by simpa using hid⟩
  have h2 : (db.event_managers.filter fun m => !(m.id == id)) = db.event_managers := by
    rw [List.filter_eq_self]
    intro m hm
    have : m.id ≠ id := fun hid => h ⟨m, hm, hid⟩
    simpa using this
  rw [h1, h2]
  rfl

/-- C27: `deleteEventManager` answers 400 exactly when the manager has an event
of status `ACTIVE`, and then the store is unchanged; otherwise, when no manager
has the identifier it answers 404 and the store is unchanged, and when one has
it answers with `deleted_id` and the store holds the same managers without that
one, every other table untouched. -/
theorem deleteEventManager_spec (db : Db) (id : Nat) :
    ((∃ msg, (deleteEventManager db id).1 = .errorResponse msg 400) ↔
        ∃ e ∈ db.events, e.created_by_manager_id = id ∧ e.status = "ACTIVE") ∧
      ((∃ e ∈ db.events, e.created_by_manager_id = id ∧ e.status = "ACTIVE") →
        (deleteEventManager db id).2 = db) ∧
      ((¬ ∃ e ∈ db.events, e.created_by_manager_id = id ∧ e.status = "ACTIVE") →
        ((¬ ∃ m ∈ db.event_managers, m.id = id) →
          deleteEventManager db id = (.errorResponse "Event manager not found" 404, db)) ∧
        ((∃ m ∈ db.event_managers, m.id = id) →
          (deleteEventManager db id).1 =
              .successResponse { deleted_id := id } "Event manager deleted successfully" ∧
            (∀ m, m ∈ (deleteEventManager db id).2.event_managers ↔
              m ∈ db.event_managers ∧ m.id ≠ id) ∧
            (deleteEventManager db id).2 =
              { db with event_managers := (deleteEventManager db id).2.event_managers })) := by
  have hcount := activeEventCount_pos db id
  refine ⟨?_, ?_, ?_⟩
  · unfold deleteEventManager
    by_cases hpos : parseIntOr (some (activeEventCount db id : Int)) 0 > 0
    · rw [if_pos hpos]
      exact ⟨fun _ => hcount.1 hpos, fun _ => ⟨_, rfl⟩⟩
    · rw [if_neg hpos]
      refine ⟨fun h => ?_, fun h => absurd (hcount.2 h) hpos⟩
      exfalso
      obtain ⟨msg, hmsg⟩ := h
      revert hmsg
      dsimp only
      split_ifs <;> simp
  · intro h
    unfold deleteEventManager
    rw [if_pos (hcount.2 h)]
  · intro h
    have hpos : ¬ parseIntOr (some (activeEventCount db id : Int)) 0 > 0 := fun hp => h (hcount.1 hp)
    refine ⟨fun habsent => ?_, fun hpresent => ?_⟩
    · unfold deleteEventManager
      rw [if_neg hpos]
      simp only [deleteManagerRows_absent db id habsent, List.length_nil, ↓reduceIte]
    · have hrows : ¬ (deleteManagerRows db id).1.length = 0 := by
        obtain ⟨m, hm, hid⟩ := hpresent
        unfold deleteManagerRows
        simp only [List.length_map]
        intro hlen
        have hmem : m ∈ db.event_managers.filter fun m => m.id == id :=
          List.mem_filter.2 ⟨hm, by simpa using hid⟩
        rw [List.length_eq_zero] at hlen
        rw [hlen] at hmem
        exact absurd hmem (List.not_mem_nil _)
      unfold deleteEventManager
      rw [if_neg hpos]
      simp only [if_neg hrows]
      refine ⟨trivial, fun m => ?_, rfl⟩
      unfold deleteManagerRows
      simp [List.mem_filter]

/-- Manager 7 runs an active event and stays; manager 8 is deleted; nobody has
the identifier 9. -/
theorem deleteEventManager_spec_witness :
    deleteEventManager managersDb 7 =
        (.errorResponse
          "Cannot delete event manager with active events. Please deactivate or reassign events first."
          400, managersDb) ∧
      (deleteEventManager managersDb 8).1 =
        .successResponse { deleted_id := 8 } "Event manager deleted successfully" ∧
      (deleteEventManager managersDb 8).2.event_managers = [{ id := 7, full_name := "Asha" }] ∧
      deleteEventManager managersDb 9 = (.errorResponse "Event manager not found" 404, managersDb) :=
  ⟨by
      have h := (deleteEventManager_spec managersDb 7).2.1 ⟨_, List.mem_cons_self _ _, rfl, rfl⟩
      exact Prod.ext (by decide) h,
    (((deleteEventManager_spec managersDb 8).2.2 (by decide)).2 (by decide)).1,
    by decide,
    ((deleteEventManager_spec managersDb 9).2.2 (by decide)).1 (by decide)⟩

/-! ## The sanitisation of `createEventManager` -/

/-- Characters without a `>` hold no tag. -/
theorem hasTag_of_not_mem (l : List Char) (h : '>' ∉ l) : hasTag l = false := by
  induction l with
  | nil => rfl
  | cons c rest ih =>
    have hrest : '>' ∉ rest := fun hm => h (List.mem_cons_of_mem _ hm)
    have hc : rest.contains '>' = false := by simpa using hrest
    simp [hasTag, ih hrest, hrest]

/-- Without a `>` ahead, the pending characters are given back. -/
theorem stripFrom_pending_of_not_mem (l p : List Char) (h : '>' ∉ l) :
    stripFrom (some p) l = p.reverse ++ l := by
  induction l generalizing p with
  | nil => simp [stripFrom]
  | cons c rest ih =>
    have hc : c ≠ '>' := fun hc => h (hc ▸ List.mem_cons_self _ _)
    have hrest : '>' ∉ rest := fun hm => h (List.mem_cons_of_mem _ hm)
    simp [stripFrom, hc, ih _ hrest]

/-- The replacement changes nothing where there is no tag. -/
theorem stripFrom_of_hasTag_false (l : List Char) (h : hasTag l = false) :
    stripFrom none l = l := by
  induction l with
  | nil => rfl
  | cons c rest ih =>
    simp only [hasTag, Bool.or_eq_false_iff, Bool.and_eq_false_iff] at h
    obtain ⟨hc, hrest⟩ := h
    by_cases hlt : c = '<'
    · have hno : '>' ∉ rest := by
        rcases hc with hc | hc
        · exact absurd hlt (by simpa using hc)
        · simpa using hc
      simp [stripFrom, hlt, stripFrom_pending_of_not_mem rest _ hno]
    · simp [stripFrom, hlt, ih hrest]

/-- The replacement leaves no tag, whatever is pending. -/
theorem hasTag_stripFrom (l : List Char) :
    hasTag (stripFrom none l) = false ∧
      ∀ p : List Char, '>' ∉ p → hasTag (stripFrom (some p) l) = false := by
  induction l with
  | nil =>
    refine ⟨rfl, fun p hp => ?_⟩
    simp only [stripFrom]
    exact hasTag_of_not_mem _ (by simpa using hp)
  | cons c rest ih =>
    refine ⟨?_, fun p hp => ?_⟩
    · by_cases hlt : c = '<'
      · simp only [stripFrom, hlt, if_true]
        exact ih.2 _ (by decide)
      · simp only [stripFrom, hlt, if_false, hasTag, ih.1, Bool.or_false, Bool.and_eq_false_iff]
        exact Or.inl (by simpa using hlt)
    · by_cases hgt : c = '>'
      · simp only [stripFrom, hgt, if_true]
        exact ih.1
      · simp only [stripFrom, hgt, if_false]
        exact ih.2 _ (by
          intro hm
          rcases List.mem_cons.1 hm with h | h
          · exact hgt h.symm
          · exact hp h)

/-- C28, as stated, fails: the sanitised form of `<b> Asha` holds no tag, yet
sanitising it again strips the blank the tag had covered. -/
theorem sanitize_twice_counterexample :
    sanitize "<b> Asha" = " Asha" ∧ hasTag (sanitize "<b> Asha").toList = false ∧
      sanitize (sanitize "<b> Asha") = "Asha" ∧
      sanitize (sanitize "<b> Asha") ≠ sanitize "<b> Asha" := by
  decide

/-- C28, amended: for every string the sanitised form holds no `<` that a `>`
follows, so removing the tags again changes nothing; and a manager is stored
only with the sanitised form of the name sent, which is then not empty. -/
theorem sanitize_removes_tags (s : String) (db : Db) (hash : String → String)
    (newId adminId : Nat) (body : ManagerBody) :
    hasTag (sanitize s).toList = false ∧ stripTags (sanitize s) = sanitize s ∧
      ∀ row msg status store,
        createEventManager db hash newId adminId body =
            (.successResponseWith row msg status, store) →
          ∃ name, body.full_name = some name ∧ row.full_name = sanitize name ∧
            0 < jsLength row.full_name ∧ store.event_managers = db.event_managers ++ [row] := by
  have htag : hasTag (sanitize s).toList = false := (hasTag_stripFrom _).1
  refine ⟨htag, ?_, ?_⟩
  · unfold stripTags
    rw [stripFrom_of_hasTag_false _ htag]
    rfl
  · intro row msg status store h
    unfold createEventManager at h
    split at h
    · rename_i full_name email password phone hn he hp hph
      refine ⟨full_name, hn, ?_⟩
      dsimp only at h
      split_ifs at h with h1 h2
      all_goals try (simp at h; done)
      simp only [Prod.mk.injEq, Outcome.successResponseWith.injEq] at h
      obtain ⟨⟨hrow, -, -⟩, hstore⟩ := h
      subst hrow
      subst hstore
      exact ⟨rfl, by dsimp only; omega, rfl⟩
    · exact absurd h (by simp)

/-- The tagged body is stored under the name ` Asha`, which is not empty. -/
theorem sanitize_removes_tags_witness :
    ∃ name, taggedBody.full_name = some name ∧ taggedRow.full_name = sanitize name ∧
      0 < jsLength taggedRow.full_name ∧
      ({ event_managers := [taggedRow] } : Db).event_managers = ({} : Db).event_managers ++
        [taggedRow] :=
  (sanitize_removes_tags "<b> Asha" {} sampleHash 1 3 taggedBody).2.2 taggedRow
    "Event manager created successfully" 201 { event_managers := [taggedRow] } (by rfl)

/-! ## `top_stalls` of the analytics report -/

/-- A filter on a key column with distinct values keeps at most one row. -/
theorem filter_nil_or_singleton_of_nodup_map {β : Type} (f : β → Nat) (P : β → Bool) (v : Nat)
    (hP : ∀ x, P x = true → f x = v) (l : List β) (hn : (l.map f).Nodup) :
    l.filter P = [] ∨ ∃ a, l.filter P = [a] := by
  have hlen := length_filter_of_nodup_map f P v hP l hn
  match hl : l.filter P with
  | [] => exact Or.inl rfl
  | [a] => exact Or.inr ⟨a, rfl⟩
  | a :: b :: rest =>
    rw [hl] at hlen
    simp only [List.length_cons] at hlen
    split_ifs at hlen <;> omega

/-- With the identifiers of stalls and schools distinct, a ranking row joins to
at most one row of `rankingsQuery`. -/
theorem rankedStallRowsOf_nil_or_singleton (db : Db) (r : Ranking)
    (hstalls : (db.stalls.map Stall.id).Nodup) (hschools : (db.schools.map School.id).Nodup) :
    rankedStallRowsOf db r = [] ∨ ∃ s sc, rankedStallRowsOf db r = [{ r := r, s := s, sc := sc }] := by
  unfold rankedStallRowsOf
  rcases filter_nil_or_singleton_of_nodup_map Stall.id (fun s => r.stall_id == s.id) r.stall_id
    (fun x hx => by simpa using (beq_iff_eq.1 hx).symm) db.stalls hstalls with h | ⟨s, h⟩
  · left
    rw [h]
    rfl
  · right
    rw [h]
    rcases filter_nil_or_singleton_of_nodup_map School.id (fun sc => s.school_id == some sc.id)
      (s.school_id.getD 0)
      (fun x hx => by
        have := beq_iff_eq.1 hx
        rw [this]
        rfl) db.schools hschools with hs | ⟨sc, hs⟩
    · exact ⟨s, none, by simp [hs, leftJoinMatches]⟩
    · exact ⟨s, some sc, by simp [hs, leftJoinMatches]⟩

/-- With the identifiers of stalls and schools distinct, the ranking rows behind
the join of `rankingsQuery` are a sublist of the ranking rows of the event. -/
theorem rankingsJoin_sublist (db : Db) (eventId : Nat)
    (hstalls : (db.stalls.map Stall.id).Nodup) (hschools : (db.schools.map School.id).Nodup) :
    ∀ rs : List Ranking,
      (((rs.flatMap (rankedStallRowsOf db)).filter fun row => row.r.event_id == eventId).map
        fun row => row.r).Sublist (rs.filter fun r => r.event_id == eventId)
  | [] => by simp
  | r :: rs => by
    have ih := rankingsJoin_sublist db eventId hstalls hschools rs
    rw [List.flatMap_cons, List.filter_append, List.map_append]
    rcases rankedStallRowsOf_nil_or_singleton db r hstalls hschools with h | ⟨s, sc, h⟩
    · rw [h]
      simp only [List.filter_nil, List.map_nil, List.nil_append]
      exact ih.trans ((List.sublist_cons_self r rs).filter _)
    · rw [h]
      by_cases hev : (r.event_id == eventId) = true
      · simp only [List.filter_cons, hev, if_true, List.filter_nil, List.map_cons, List.map_nil,
          List.singleton_append]
        exact ih.cons₂ r
      · simp only [List.filter_cons, hev, if_false, List.filter_nil, List.map_nil,
          List.nil_append]
        exact ih

/-- The rows of `rankingsQuery` are rows of its join. -/
theorem mem_rankingsJoin_of_mem_rankingsQuery {db : Db} {eventId : Nat} {row : RankedStallRow}
    (h : row ∈ rankingsQuery db eventId) : row ∈ rankingsJoin db eventId :=
  (List.perm_insertionSort rankBefore _).subset (List.mem_of_mem_take h)

/-- A row of the join of `rankingsQuery` pairs a ranking row of the event with
the stall it names. -/
theorem mem_rankingsJoin {db : Db} {eventId : Nat} {row : RankedStallRow}
    (h : row ∈ rankingsJoin db eventId) :
    row.r ∈ db.rankings ∧ row.s ∈ db.stalls ∧ row.r.stall_id = row.s.id ∧
      row.r.event_id = eventId := by
  unfold rankingsJoin rankedStallRowsOf at h
  simp only [List.mem_filter, List.mem_flatMap, List.mem_map, beq_iff_eq] at h
  obtain ⟨⟨r, hr, s, ⟨hs, hid⟩, sc, -, rfl⟩, hev⟩ := h
  exact ⟨hr, hs, hid, hev⟩

/-- C22, as stated, fails: in `rankedDb` the report lists stall 11 twice and
after stalls 10 and 12, though stall 11 has the highest weighted score and heads
the stall leaderboard of the scoring engine. -/
theorem analytics_top_stalls_counterexample :
    getEventAnalytics rankedDb 3 =
        (.successResponse (analyticsReport rankedDb approvedExpo 3) "", analyticsReads 3) ∧
      (analyticsReport rankedDb approvedExpo 3).top_stalls.map (fun e => e.stall_id) =
        [10, 12, 11, 11] ∧
      ¬ ((analyticsReport rankedDb approvedExpo 3).top_stalls.map fun e => e.stall_id).Nodup ∧
      ¬ (analyticsReport rankedDb approvedExpo 3).top_stalls.Pairwise
          (leaderboardOrdered rankedDb) ∧
      leaderboardStallIds rankedDb (some 10) = [11, 10, 12] :=
  ⟨(getEventAnalytics_found rankedDb 3 approvedExpo (by decide)).1 (by decide), by decide,
    by decide, by decide, by decide⟩

/-- C22, amended: `top_stalls` of the analytics report has at most 10 entries, in
ascending order of the `rank` column of table `rankings`; each entry is a ranking
row of the event joined to the stall it names; and when the identifiers of
stalls and of schools are distinct and the ranking rows of the event name
distinct stalls, each stall is listed at most once. -/
theorem analytics_top_stalls (db : Db) (event : Event) (eventId : Nat) :
    (analyticsReport db event eventId).top_stalls.length ≤ 10 ∧
      (analyticsReport db event eventId).top_stalls.Sorted (fun a b => a.rank ≤ b.rank) ∧
      (∀ e ∈ (analyticsReport db event eventId).top_stalls,
        ∃ r ∈ db.rankings, ∃ s ∈ db.stalls, r.event_id = eventId ∧ r.stall_id = s.id ∧
          e.stall_id = s.id ∧ e.rank = r.rank ∧ e.stall_number = s.stall_number ∧
          e.stall_name = s.stall_name) ∧
      ((db.stalls.map Stall.id).Nodup → (db.schools.map School.id).Nodup →
        ((db.rankings.filter fun r => r.event_id == eventId).map Ranking.stall_id).Nodup →
        ((analyticsReport db event eventId).top_stalls.map fun e => e.stall_id).Nodup) := by
  have hsorted : (rankingsQuery db eventId).Sorted rankBefore :=
    (List.sorted_insertionSort rankBefore _).sublist (List.take_sublist _ _)
  refine ⟨?_, ?_, ?_, ?_⟩
  · simp only [analyticsReport, rankingsQuery, List.length_map, List.length_take]
    exact Nat.min_le_left _ _
  · simp only [analyticsReport]
    exact (List.pairwise_map (f := toRankedStallEntry) (R := fun a b => a.rank ≤ b.rank)).2 hsorted
  · intro e he
    simp only [analyticsReport, List.mem_map] at he
    obtain ⟨row, hrow, rfl⟩ := he
    obtain ⟨hr, hs, hid, hev⟩ := mem_rankingsJoin (mem_rankingsJoin_of_mem_rankingsQuery hrow)
    exact ⟨row.r, hr, row.s, hs, hev, hid, hid, rfl, rfl, rfl⟩
  · intro hstalls hschools hrankings
    simp only [analyticsReport, List.map_map]
    have hjoin : ((rankingsJoin db eventId).map fun row => row.r.stall_id).Nodup := by
      have hsub := (rankingsJoin_sublist db eventId hstalls hschools db.rankings).map
        Ranking.stall_id
      rw [List.map_map] at hsub
      exact hrankings.sublist hsub
    have hperm : ((rankingsJoin db eventId).insertionSort rankBefore).Perm
        (rankingsJoin db eventId) := List.perm_insertionSort _ _
    have hall : (((rankingsJoin db eventId).insertionSort rankBefore).map
        fun row => row.r.stall_id).Nodup :=
      ((hperm.map _).nodup_iff).2 hjoin
    exact hall.sublist ((List.take_sublist _ _).map _)

/-- In `resultsDb`, with one ranking row per stall, the report lists stall 11 and
then stall 10, each once. -/
theorem analytics_top_stalls_witness :
    ((analyticsReport resultsDb approvedExpo 3).top_stalls.map fun e => e.stall_id).Nodup ∧
      (analyticsReport resultsDb approvedExpo 3).top_stalls.map (fun e => e.stall_id) = [11, 10] :=
  ⟨(analytics_top_stalls resultsDb approvedExpo 3).2.2.2 (by decide) (by decide) (by decide),
    by decide⟩

/-- C26: for every store and every event whose status allows analytics, the admin
handler and the manager handler called by the owner of the event answer with
reports that are equal in each of the fields `event`, `registrations`,
`revenue`, `feedback`, `top_stalls`, `stalls`, `volunteers` and `check_in_out`,
after the same statements. -/
theorem analytics_same_report (db : Db) (models : ReadModels) (eventId managerId : Nat)
    (event : Event) (hfound : findById db eventId = some event)
    (howner : event.created_by_manager_id = managerId)
    (hallowed : analyticsAllowed event.status) :
    ∃ admin manager : AnalyticsReport,
      getEventAnalytics db eventId = (.successResponse admin "", analyticsReads eventId) ∧
      EventManagerController.getEventAnalytics db models eventId managerId =
        (.successResponse (.report manager) "", analyticsReads eventId) ∧
      admin.event = manager.event ∧ admin.registrations = manager.registrations ∧
      admin.revenue = manager.revenue ∧ admin.feedback = manager.feedback ∧
      admin.top_stalls = manager.top_stalls ∧ admin.stalls = manager.stalls ∧
      admin.volunteers = manager.volunteers ∧ admin.check_in_out = manager.check_in_out :=
  ⟨analyticsReport db event eventId, analyticsReport db event eventId,
    (getEventAnalytics_found db eventId event hfound).1 hallowed,
    (managerGetEventAnalytics_owned db models eventId managerId event hfound howner).1 hallowed,
    rfl, rfl, rfl, rfl, rfl, rfl, rfl, rfl⟩

/-- In `resultsDb` the admin and manager 7 get the same report of event 3. -/
theorem analytics_same_report_witness :
    ∃ admin manager : AnalyticsReport,
      getEventAnalytics resultsDb 3 = (.successResponse admin "", analyticsReads 3) ∧
      EventManagerController.getEventAnalytics resultsDb nullModels 3 7 =
        (.successResponse (.report manager) "", analyticsReads 3) ∧
      admin.event = manager.event ∧ admin.registrations = manager.registrations ∧
      admin.revenue = manager.revenue ∧ admin.feedback = manager.feedback ∧
      admin.top_stalls = manager.top_stalls ∧ admin.stalls = manager.stalls ∧
      admin.volunteers = manager.volunteers ∧ admin.check_in_out = manager.check_in_out :=
  analytics_same_report resultsDb nullModels 3 7 approvedExpo (by decide) (by decide) (by decide)

/-- C29: the rejected event of `lifecycleDb` is submitted by its owner with
success, and the audit record of the request carries `old_status: DRAFT` although
the status before the transition was `REJECTED`. -/
theorem submitEventForApproval_audit_old_status :
    findById lifecycleDb 2 = some rejectedEvent ∧ rejectedEvent.status = "REJECTED" ∧
      submitEventForApproval lifecycleDb 2 7 =
        (.successResponse () "Event submitted for admin approval successfully",
          [ .eventUpdate 2 [("status", .str "PENDING_APPROVAL"),
              ("admin_rejection_reason", .null)],
            .auditEvent "EVENT_STATUS_CHANGED" 7 "EVENT_MANAGER" "EVENT" 2
              [ ("old_status", .str "DRAFT"), ("new_status", .str "PENDING_APPROVAL"),
                ("event_name", .str "Fair"), ("stall_count", .num 1),
                ("volunteer_count", .num 1) ] ]) := by
  decide

/-! ## The analytics handlers only read -/

/-- The trace of the admin handler is empty or the seven statements. -/
theorem getEventAnalytics_reads (db : Db) (id : Nat) :
    (getEventAnalytics db id).2 = [] ∨ (getEventAnalytics db id).2 = analyticsReads id := by
  unfold getEventAnalytics
  cases findById db id with
  | none => exact Or.inl rfl
  | some event =>
    dsimp only
    split_ifs
    · exact Or.inl rfl
    · exact Or.inr rfl

/-- The trace of the bound manager handler is empty or the seven statements. -/
theorem managerGetEventAnalytics_reads (db : Db) (models : ReadModels)
    (eventId managerId : Nat) :
    (EventManagerController.getEventAnalytics db models eventId managerId).2 = [] ∨
      (EventManagerController.getEventAnalytics db models eventId managerId).2 =
        analyticsReads eventId := by
  rw [managerGetEventAnalytics_eq_second]
  unfold EventManagerController.getEventAnalyticsSecond
  cases findById db eventId with
  | none => exact Or.inl rfl
  | some event =>
    dsimp only
    split_ifs
    · exact Or.inl rfl
    · exact Or.inl rfl
    · exact Or.inr rfl

/-- Each of the seven statements of the report is a `SELECT`. -/
theorem isSelect_statements :
    isSelect Sql.registrationsQuery = true ∧ isSelect Sql.revenueQuery = true ∧
      isSelect Sql.feedbackQuery = true ∧ isSelect Sql.rankingsQuery = true ∧
      isSelect Sql.stallsQuery = true ∧ isSelect Sql.volunteersQuery = true ∧
      isSelect Sql.checkInOutQuery = true := by
  decide

/-- The statements of the report as calls. -/
theorem analyticsReads_toCall (eventId : Nat) :
    (analyticsReads eventId).map ReadCall.toCall =
      [ .query Sql.registrationsQuery [eventId], .query Sql.revenueQuery [eventId],
        .query Sql.feedbackQuery [eventId], .query Sql.rankingsQuery [eventId],
        .query Sql.stallsQuery [eventId], .query Sql.volunteersQuery [eventId],
        .query Sql.checkInOutQuery [eventId] ] := by
  simp only [analyticsReads, List.map_cons, List.map_nil, ReadCall.toCall]
  rfl

/-- A run of calls that only read ends in the store it started from. -/
theorem eq_of_runs_of_reads {calls : List Call} (hreads : ∀ call ∈ calls, call.isRead = true) :
    ∀ {db after : Db}, Runs db calls after → after = db := by
  induction calls with
  | nil => intro db after h; exact h
  | cons call rest ih =>
    intro db after h
    obtain ⟨mid, hstep, hrest⟩ := h
    have hmid : mid = db := hstep (hreads call (List.mem_cons_self _ _))
    subst hmid
    exact ih (fun c hc => hreads c (List.mem_cons_of_mem _ hc)) hrest

/-- Calls that only read can run, and leave the store as it is. -/
theorem runs_of_reads {calls : List Call} (db : Db) : Runs db calls db := by
  induction calls with
  | nil => rfl
  | cons call rest ih => exact ⟨db, fun _ => rfl, ih⟩

/-- A call that writes may leave another store: the frame property is one of
the calls, not of the relation. -/
theorem write_may_change_store :
    Runs statusDb ((deleteEvent statusDb 6 7).2.map Call.write) {} ∧
      ({} : Db).events ≠ statusDb.events := by
  refine ⟨?_, by decide⟩
  exact ⟨{}, fun h => absurd h (by decide), {}, fun h => absurd h (by decide), rfl⟩

/-- The calls of either analytics handler: the look-up alone, or the look-up and
the seven statements. -/
theorem analyticsCalls_cases (db : Db) (models : ReadModels) (eventId managerId : Nat)
    (calls : List Call)
    (hcalls : calls = getEventAnalyticsCalls db eventId ∨
      calls = EventManagerController.getEventAnalyticsCalls db models eventId managerId) :
    calls = [.modelRead "EventModel.findById" eventId] ∨
      calls = .modelRead "EventModel.findById" eventId ::
        [ .query Sql.registrationsQuery [eventId], .query Sql.revenueQuery [eventId],
          .query Sql.feedbackQuery [eventId], .query Sql.rankingsQuery [eventId],
          .query Sql.stallsQuery [eventId], .query Sql.volunteersQuery [eventId],
          .query Sql.checkInOutQuery [eventId] ] := by
  rcases hcalls with h | h
  · rcases getEventAnalytics_reads db eventId with h' | h'
    · left
      rw [h, getEventAnalyticsCalls, h']
      rfl
    · right
      rw [h, getEventAnalyticsCalls, h', analyticsReads_toCall]
  · rcases managerGetEventAnalytics_reads db models eventId managerId with h' | h'
    · left
      rw [h, EventManagerController.getEventAnalyticsCalls, h']
      rfl
    · right
      rw [h, EventManagerController.getEventAnalyticsCalls, h', analyticsReads_toCall]

/-- C21: for every store, event and caller, every call the admin handler or the
bound manager handler `getEventAnalytics` awaits is the look-up
`EventModel.findById` or a `SELECT` sent through `query` with the event
identifier as its parameter; none is a write of a model or a call of the audit
sink; and every run of these calls, in a semantics where a write may leave any
store, ends in the store it started from. -/
theorem analytics_read_only (db : Db) (models : ReadModels) (eventId managerId : Nat)
    (calls : List Call) (after : Db)
    (hcalls : calls = getEventAnalyticsCalls db eventId ∨
      calls = EventManagerController.getEventAnalyticsCalls db models eventId managerId)
    (hrun : Runs db calls after) :
    after = db ∧
      (∀ call ∈ calls, call = .modelRead "EventModel.findById" eventId ∨
        ∃ text, call = .query text [eventId] ∧ isSelect text = true) ∧
      (∀ call ∈ calls, ∀ effect, call ≠ .write effect) ∧
      Runs db calls db := by
  obtain ⟨h1, h2, h3, h4, h5, h6, h7⟩ := isSelect_statements
  have hshape : ∀ call ∈ calls, call = .modelRead "EventModel.findById" eventId ∨
      ∃ text, call = .query text [eventId] ∧ isSelect text = true := by
    intro call hcall
    rcases analyticsCalls_cases db models eventId managerId calls hcalls with h | h
    · rw [h] at hcall
      exact Or.inl (List.mem_singleton.1 hcall)
    · rw [h] at hcall
      simp only [List.mem_cons, List.mem_singleton, List.not_mem_nil, or_false] at hcall
      rcases hcall with h | h | h | h | h | h | h | h
      · exact Or.inl h
      · exact Or.inr ⟨_, h, h1⟩
      · exact Or.inr ⟨_, h, h2⟩
      · exact Or.inr ⟨_, h, h3⟩
      · exact Or.inr ⟨_, h, h4⟩
      · exact Or.inr ⟨_, h, h5⟩
      · exact Or.inr ⟨_, h, h6⟩
      · exact Or.inr ⟨_, h, h7⟩
  have hreads : ∀ call ∈ calls, call.isRead = true := by
    intro call hcall
    rcases hshape call hcall with h | ⟨text, h, hsel⟩
    · rw [h]
      rfl
    · rw [h]
      exact hsel
  refine ⟨eq_of_runs_of_reads hreads hrun, hshape, ?_, runs_of_reads db⟩
  intro call hcall effect heq
  have := hreads call hcall
  rw [heq] at this
  exact Bool.false_ne_true this

/-- In `resultsDb` the admin handler awaits the look-up of event 3 and the seven
statements, and a run of them leaves the store as it is. -/
theorem analytics_read_only_witness :
    getEventAnalyticsCalls resultsDb 3 =
        [ .modelRead "EventModel.findById" 3,
          .query Sql.registrationsQuery [3], .query Sql.revenueQuery [3],
          .query Sql.feedbackQuery [3], .query Sql.rankingsQuery [3],
          .query Sql.stallsQuery [3], .query Sql.volunteersQuery [3],
          .query Sql.checkInOutQuery [3] ] ∧
      Runs resultsDb (getEventAnalyticsCalls resultsDb 3) resultsDb ∧
      (∀ call ∈ getEventAnalyticsCalls resultsDb 3, ∀ effect, call ≠ .write effect) :=
  ⟨by
      rw [getEventAnalyticsCalls,
        (getEventAnalytics_found resultsDb 3 approvedExpo (by decide)).1 (by decide)]
      exact congrArg _ (analyticsReads_toCall 3),
    runs_of_reads resultsDb,
    (analytics_read_only resultsDb nullModels 3 7 (getEventAnalyticsCalls resultsDb 3) resultsDb
      (Or.inl rfl) (runs_of_reads resultsDb)).2.2.1⟩

end SgtuEvent
